import Mathlib

/-!
# Booking service: lifecycle state machine

A shallow embedding of the booking service of the x369 platform
(`backend/booking-service`): the domain types of `internal/domain`, the
Postgres repository of `internal/repository` and the use case of
`internal/usecase`.

Modelling conventions

* `time.Time` is an integer instant (`Time`); `Before` is `<`.
* `float64` values are exact rationals and Go `int` values are integers. The
  arithmetic of the pricing rule is carried out exactly; every concrete value
  used below is a dyadic rational on which `float64` arithmetic is exact too.
* Go `error` values are their message strings; `nil` is `none`.
* A nil pointer is `none`, a non-nil pointer `some v`.
* The `bookings` table is the list of its rows. A `SELECT ... WHERE id = $1`
  read through `GetContext` yields the first matching row, an `UPDATE ...
  WHERE id = :id` rewrites every matching row.
* Everything a call cannot determine by itself (clock readings, the generated
  uuid, database failures, the answers of the user and vehicle services) is
  read from an `Env` value supplied with the call.
* Calls made by the use case through its three interfaces are recorded, in
  order, in `World.calls`.
-/

namespace BookingService

/-- An instant (`time.Time`). -/
abbrev Time := Int

/-- The Go type `BookingStatus`, a string type (`booking.go:29`). -/
abbrev BookingStatus := String

abbrev StatusPending : BookingStatus := "pending"
abbrev StatusConfirmed : BookingStatus := "confirmed"
abbrev StatusActive : BookingStatus := "active"
abbrev StatusCompleted : BookingStatus := "completed"
abbrev StatusCancelled : BookingStatus := "cancelled"

/-- The struct `Booking` (`booking.go:8`); defaults are the Go zero values. -/
structure Booking where
  ID : String := ""
  UserID : String := ""
  VehicleID : String := ""
  Status : BookingStatus := ""
  StartTime : Time := 0
  EndTime : Option Time := none
  PickupLat : ℚ := 0
  PickupLng : ℚ := 0
  PickupAddr : String := ""
  DropoffLat : Option ℚ := none
  DropoffLng : Option ℚ := none
  DropoffAddr : Option String := none
  Distance : Option ℚ := none
  Duration : Option Int := none
  Cost : Option ℚ := none
  CreatedAt : Time := 0
  UpdatedAt : Time := 0
  deriving DecidableEq, Repr

/-- The struct `CreateBookingRequest` (`booking.go:40`). -/
structure CreateBookingRequest where
  UserID : String := ""
  VehicleID : String := ""
  StartTime : Time := 0
  PickupLat : ℚ := 0
  PickupLng : ℚ := 0
  PickupAddr : String := ""
  DropoffLat : Option ℚ := none
  DropoffLng : Option ℚ := none
  DropoffAddr : Option String := none
  deriving DecidableEq, Repr

/-- The struct `UpdateBookingRequest` (`booking.go:53`). -/
structure UpdateBookingRequest where
  Status : Option BookingStatus := none
  EndTime : Option Time := none
  DropoffLat : Option ℚ := none
  DropoffLng : Option ℚ := none
  DropoffAddr : Option String := none
  Distance : Option ℚ := none
  Duration : Option Int := none
  Cost : Option ℚ := none
  deriving DecidableEq, Repr

/-- The struct `CompleteBookingRequest` (`interfaces.go:51`). -/
structure CompleteBookingRequest where
  DropoffLat : Option ℚ := none
  DropoffLng : Option ℚ := none
  DropoffAddr : Option String := none
  Distance : Option ℚ := none
  Duration : Option Int := none
  deriving DecidableEq, Repr

/-- A call of the use case through one of its interfaces (`BookingRepository`,
`UserService`, `VehicleService`), or a line it prints. -/
inductive Call where
  | repoGetByID (id : String)
  | repoCreate (booking : Booking)
  | repoUpdate (id : String) (updates : UpdateBookingRequest)
  | validateUser (userID : String)
  | isVehicleAvailable (vehicleID : String) (startTime : Time)
  | updateVehicleStatus (vehicleID : String) (status : String)
  | printf (msg : String)
  deriving DecidableEq, Repr

/-- What one call reads from outside: clock, uuid generator, database failures
and the two remote services. -/
structure Env where
  /-- The reading of `time.Now()` in the use case. -/
  now : Time
  /-- The reading of `time.Now()` in the repository (`created_at`, or the
  `updated_at` argument of `Update`). -/
  repoNow : Time
  /-- The second reading of `time.Now()` in `Create` (`updated_at`). -/
  repoNow2 : Time
  /-- The value of `uuid.New().String()`. -/
  newID : String
  /-- A database error of the read the use case starts with. -/
  getErr : Option String
  /-- A database error of the `INSERT` or `UPDATE` statement. -/
  execErr : Option String
  /-- A database error of the read that ends `Update`. -/
  reGetErr : Option String
  /-- The answer of `UserService.ValidateUser`. -/
  validateUser : String → Option String
  /-- The answer of `VehicleService.IsVehicleAvailable`. -/
  isVehicleAvailable : String → Time → Except String Bool
  /-- The answer of `VehicleService.UpdateVehicleStatus`. -/
  updateVehicleStatus : String → String → Option String

/-- The table `bookings` and the calls made so far. -/
structure World where
  rows : List Booking := []
  calls : List Call := []
  deriving DecidableEq, Repr

/-- Record a call. -/
def logCall (w : World) (c : Call) : World :=
  { w with calls := w.calls ++ [c] }

/-! ## Repository (`postgres_booking_repository.go`) -/

/-- `Create` (`postgres_booking_repository.go:25`): fills in id and the two
timestamps of the booking it was handed, then inserts it. Returns the error,
the booking as mutated and the table. -/
def Create (env : Env) (rows : List Booking) (booking : Booking) :
    Option String × Booking × List Booking :=
  let booking := { booking with
    ID := env.newID, CreatedAt := env.repoNow, UpdatedAt := env.repoNow2 }
  match env.execErr with
  | some e => (some e, booking, rows)
  | none => (none, booking, rows ++ [booking])

/-- The row a `SELECT ... WHERE id = $1` scanned into one struct yields: the
first row with that id. -/
def findRow (rows : List Booking) (id : String) : Option Booking :=
  rows.find? (fun b => b.ID == id)

/-- `GetByID` (`postgres_booking_repository.go:47`). -/
def GetByID (dbErr : Option String) (rows : List Booking) (id : String) :
    Except String Booking :=
  match dbErr with
  | some e => .error e
  | none =>
    match findRow rows id with
    | some b => .ok b
    | none => .error "booking not found"

/-- The columns `Update` can name in its `SET` clause. -/
inductive Column where
  | status | end_time | dropoff_latitude | dropoff_longitude | dropoff_address
  | distance | duration | cost | updated_at
  deriving DecidableEq, Repr

/-- The `setParts` built by `Update` (`postgres_booking_repository.go:69-103`),
one entry per non-nil field, in source order. -/
def setParts (updates : UpdateBookingRequest) : List Column :=
  (if updates.Status.isSome then [Column.status] else []) ++
  (if updates.EndTime.isSome then [Column.end_time] else []) ++
  (if updates.DropoffLat.isSome then [Column.dropoff_latitude] else []) ++
  (if updates.DropoffLng.isSome then [Column.dropoff_longitude] else []) ++
  (if updates.DropoffAddr.isSome then [Column.dropoff_address] else []) ++
  (if updates.Distance.isSome then [Column.distance] else []) ++
  (if updates.Duration.isSome then [Column.duration] else []) ++
  (if updates.Cost.isSome then [Column.cost] else [])

/-- One assignment `col = :col` of the `SET` clause applied to a row, the named
arguments being those `Update` binds: each field's value and `updated_at`. -/
def assign (updates : UpdateBookingRequest) (updatedAt : Time) (b : Booking) :
    Column → Booking
  | .status => match updates.Status with
    | some v => { b with Status := v }
    | none => b
  | .end_time => match updates.EndTime with
    | some v => { b with EndTime := some v }
    | none => b
  | .dropoff_latitude => match updates.DropoffLat with
    | some v => { b with DropoffLat := some v }
    | none => b
  | .dropoff_longitude => match updates.DropoffLng with
    | some v => { b with DropoffLng := some v }
    | none => b
  | .dropoff_address => match updates.DropoffAddr with
    | some v => { b with DropoffAddr := some v }
    | none => b
  | .distance => match updates.Distance with
    | some v => { b with Distance := some v }
    | none => b
  | .duration => match updates.Duration with
    | some v => { b with Duration := some v }
    | none => b
  | .cost => match updates.Cost with
    | some v => { b with Cost := some v }
    | none => b
  | .updated_at => { b with UpdatedAt := updatedAt }

/-- The statement `UPDATE bookings SET <parts> WHERE id = :id` run on the
table. -/
def execUpdate (parts : List Column) (updates : UpdateBookingRequest)
    (updatedAt : Time) (id : String) (rows : List Booking) : List Booking :=
  rows.map (fun b => if b.ID == id then parts.foldl (assign updates updatedAt) b else b)

/-- `Update` (`postgres_booking_repository.go:68`). Returns the result and the
table. -/
def Update (env : Env) (rows : List Booking) (id : String)
    (updates : UpdateBookingRequest) : Except String Booking × List Booking :=
  let parts := setParts updates
  if parts.length == 0 then
    (GetByID env.reGetErr rows id, rows)
  else
    let parts := parts ++ [Column.updated_at]
    match env.execErr with
    | some e => (.error e, rows)
    | none =>
      let rows := execUpdate parts updates env.repoNow id rows
      (GetByID env.reGetErr rows id, rows)

/-! ## Use case (`booking_usecase.go`) -/

/-- `CreateBooking` (`booking_usecase.go:29`). -/
def CreateBooking (env : Env) (w : World) (req : CreateBookingRequest) :
    Except String Booking × World :=
  let w := logCall w (.validateUser req.UserID)
  match env.validateUser req.UserID with
  | some e => (.error ("invalid user: " ++ e), w)
  | none =>
    let w := logCall w (.isVehicleAvailable req.VehicleID req.StartTime)
    match env.isVehicleAvailable req.VehicleID req.StartTime with
    | .error e => (.error ("failed to check vehicle availability: " ++ e), w)
    | .ok available =>
      if !available then
        (.error "vehicle is not available at the requested time", w)
      else
        let booking : Booking := {
          UserID := req.UserID
          VehicleID := req.VehicleID
          Status := StatusPending
          StartTime := req.StartTime
          PickupLat := req.PickupLat
          PickupLng := req.PickupLng
          PickupAddr := req.PickupAddr
          DropoffLat := req.DropoffLat
          DropoffLng := req.DropoffLng
          DropoffAddr := req.DropoffAddr }
        let w := logCall w (.repoCreate booking)
        match Create env w.rows booking with
        | (some e, _, rows) =>
          (.error ("failed to create booking: " ++ e), { w with rows := rows })
        | (none, booking, rows) => (.ok booking, { w with rows := rows })

/-- `UpdateBooking` (`booking_usecase.go:71`). -/
def UpdateBooking (env : Env) (w : World) (id : String)
    (req : UpdateBookingRequest) : Except String Booking × World :=
  let w := logCall w (.repoGetByID id)
  match GetByID env.getErr w.rows id with
  | .error e => (.error e, w)
  | .ok _ =>
    let w := logCall w (.repoUpdate id req)
    let r := Update env w.rows id req
    (r.1, { w with rows := r.2 })

/-- The tail shared by the three transitions: the best-effort call of
`UpdateVehicleStatus`, whose error is printed and dropped. -/
def propagateVehicleStatus (env : Env) (w : World) (vehicleID status : String) :
    Option String × World :=
  let w := logCall w (.updateVehicleStatus vehicleID status)
  match env.updateVehicleStatus vehicleID status with
  | some e =>
    (none, logCall w (.printf ("Warning: failed to update vehicle status: " ++ e ++ "\n")))
  | none => (none, w)

/-- `CancelBooking` (`booking_usecase.go:81`). -/
def CancelBooking (env : Env) (w : World) (id userID : String) :
    Option String × World :=
  let w := logCall w (.repoGetByID id)
  match GetByID env.getErr w.rows id with
  | .error e => (some e, w)
  | .ok booking =>
    if booking.UserID ≠ userID then
      (some "unauthorized: booking does not belong to user", w)
    else if booking.Status = StatusCompleted ∨ booking.Status = StatusCancelled then
      (some ("cannot cancel booking with status: " ++ booking.Status), w)
    else
      let updates : UpdateBookingRequest := { Status := some StatusCancelled }
      let w := logCall w (.repoUpdate id updates)
      match Update env w.rows id updates with
      | (.error e, rows) =>
        (some ("failed to cancel booking: " ++ e), { w with rows := rows })
      | (.ok _, rows) =>
        propagateVehicleStatus env { w with rows := rows } booking.VehicleID "available"

/-- `StartBooking` (`booking_usecase.go:118`). -/
def StartBooking (env : Env) (w : World) (id userID : String) :
    Option String × World :=
  let w := logCall w (.repoGetByID id)
  match GetByID env.getErr w.rows id with
  | .error e => (some e, w)
  | .ok booking =>
    if booking.UserID ≠ userID then
      (some "unauthorized: booking does not belong to user", w)
    else if booking.Status ≠ StatusConfirmed then
      (some ("cannot start booking with status: " ++ booking.Status), w)
    else if env.now < booking.StartTime then
      (some "booking cannot be started before scheduled time", w)
    else
      let updates : UpdateBookingRequest := { Status := some StatusActive }
      let w := logCall w (.repoUpdate id updates)
      match Update env w.rows id updates with
      | (.error e, rows) =>
        (some ("failed to start booking: " ++ e), { w with rows := rows })
      | (.ok _, rows) =>
        propagateVehicleStatus env { w with rows := rows } booking.VehicleID "in_use"

/-- Rounding of a rational to the nearest integer, a tie going to the even
one. -/
def roundHalfEven (q : ℚ) : Int :=
  let f := ⌊q⌋
  let r := q - f
  if r < 1 / 2 then f
  else if 1 / 2 < r then f + 1
  else if f % 2 = 0 then f else f + 1

/-- The result of a `float64` operation whose exact result is `x`: the
`float64` nearest to `x`, a tie going to the even significand (IEEE 754
binary64, 53 bits of significand, least exponent -1022, subnormal below). A
finite `float64` is the rational it denotes. A result beyond the largest
`float64` is `+Inf` in Go and has no counterpart among the rationals: the
function models the operations whose result stays finite. -/
def roundFloat64 (x : ℚ) : ℚ :=
  if x = 0 then 0
  else
    let e := max (Int.log 2 |x|) (-1022)
    let ulp : ℚ := 2 ^ (e - 52)
    (roundHalfEven (x / ulp) : ℚ) * ulp

/-- The largest `float64`, `math.MaxFloat64`. -/
def maxFloat64 : ℚ := (2 ^ 53 - 1) * 2 ^ 971

/-- The finite values of `float64`: a significand below `2 ^ 53` in absolute
value times a power of two with exponent from -1074 to 971. -/
def isFloat64 (x : ℚ) : Prop :=
  ∃ m k : Int, |m| < 2 ^ 53 ∧ -1074 ≤ k ∧ k ≤ 971 ∧ x = (m : ℚ) * 2 ^ k

/-- The cost computed by `CompleteBooking` (`booking_usecase.go:177-186`):
`cost` starts as the request's distance pointer and is replaced by the priced
amount only when the distance is positive. The product `*cost * 1.50`, the
conversion `float64(*req.Duration)`, the product by `0.25` and the sum of
`+=` are `float64` operations, each rounded on its own; `1.50` and `0.25` are
`float64` values. -/
def completeCost (req : CompleteBookingRequest) : Option ℚ :=
  match req.Distance with
  | none => none
  | some distance =>
    if distance > 0 then
      let baseCost := roundFloat64 (distance * 1.50)
      match req.Duration with
      | some duration =>
        if duration > 0 then
          some (roundFloat64 (baseCost + roundFloat64 (roundFloat64 (duration : ℚ) * 0.25)))
        else some baseCost
      | none => some baseCost
    else some distance

/-- `CompleteBooking` (`booking_usecase.go:160`). -/
def CompleteBooking (env : Env) (w : World) (id userID : String)
    (req : CompleteBookingRequest) : Option String × World :=
  let w := logCall w (.repoGetByID id)
  match GetByID env.getErr w.rows id with
  | .error e => (some e, w)
  | .ok booking =>
    if booking.UserID ≠ userID then
      (some "unauthorized: booking does not belong to user", w)
    else if booking.Status ≠ StatusActive then
      (some ("cannot complete booking with status: " ++ booking.Status), w)
    else
      let cost := completeCost req
      let endTime := env.now
      let updates : UpdateBookingRequest := {
        Status := some StatusCompleted
        EndTime := some endTime
        DropoffLat := req.DropoffLat
        DropoffLng := req.DropoffLng
        DropoffAddr := req.DropoffAddr
        Distance := req.Distance
        Duration := req.Duration
        Cost := cost }
      let w := logCall w (.repoUpdate id updates)
      match Update env w.rows id updates with
      | (.error e, rows) =>
        (some ("failed to complete booking: " ++ e), { w with rows := rows })
      | (.ok _, rows) =>
        propagateVehicleStatus env { w with rows := rows } booking.VehicleID "available"

/-! ## Runs of the use case -/

/-- One call of a state-changing operation of the use case, with the
environment it runs in. -/
inductive Op where
  | create (env : Env) (req : CreateBookingRequest)
  | update (env : Env) (id : String) (req : UpdateBookingRequest)
  | start (env : Env) (id userID : String)
  | complete (env : Env) (id userID : String) (req : CompleteBookingRequest)
  | cancel (env : Env) (id userID : String)

/-- The world after one operation. -/
def step (w : World) : Op → World
  | .create env req => (CreateBooking env w req).2
  | .update env id req => (UpdateBooking env w id req).2
  | .start env id userID => (StartBooking env w id userID).2
  | .complete env id userID req => (CompleteBooking env w id userID req).2
  | .cancel env id userID => (CancelBooking env w id userID).2

/-- The world after a sequence of operations. -/
def run (w : World) (ops : List Op) : World :=
  ops.foldl step w

/-- The booking stored under `id`: the row a read by id returns. -/
def storedBooking (w : World) (id : String) : Option Booking :=
  findRow w.rows id

/-- The status stored for `id`. -/
def storedStatus (w : World) (id : String) : Option BookingStatus :=
  (storedBooking w id).map (fun b => b.Status)

/-- The updates handed to the repository, in order. -/
def updatesSent (calls : List Call) : List (String × UpdateBookingRequest) :=
  calls.filterMap fun c =>
    match c with
    | .repoUpdate id updates => some (id, updates)
    | _ => none

/-- The bookings handed to the repository's `Create`, in order. -/
def createsSent (calls : List Call) : List Booking :=
  calls.filterMap fun c =>
    match c with
    | .repoCreate booking => some booking
    | _ => none

/-- The calls of `UpdateVehicleStatus`, in order. -/
def vehicleStatusCalls (calls : List Call) : List (String × String) :=
  calls.filterMap fun c =>
    match c with
    | .updateVehicleStatus vehicleID status => some (vehicleID, status)
    | _ => none

/-- The calls of `IsVehicleAvailable`, in order. -/
def availabilityCalls (calls : List Call) : List (String × Time) :=
  calls.filterMap fun c =>
    match c with
    | .isVehicleAvailable vehicleID startTime => some (vehicleID, startTime)
    | _ => none

/-- The five statuses declared in `booking.go:31-37`. -/
def validStatus (s : BookingStatus) : Prop :=
  s ∈ [StatusPending, StatusConfirmed, StatusActive, StatusCompleted, StatusCancelled]

instance (s : BookingStatus) : Decidable (validStatus s) := by
  unfold validStatus; infer_instance

/-- The operation writes no status of its own choosing outside the five: an
`update` carries no status or one of the five. -/
def Op.statusListed : Op → Prop
  | .update _ _ req => ∀ s, req.Status = some s → validStatus s
  | _ => True

/-! ## Proof devices

Closed forms of what the repository and the use case compute, proved equal to
the definitions above and used to state the lemmas. -/

/-- A row after a sparse patch: every field present in the request replaces
the row's, the others stay, `updated_at` is set. -/
def patch (u : UpdateBookingRequest) (t : Time) (b : Booking) : Booking :=
  { b with
    Status := u.Status.getD b.Status
    EndTime := u.EndTime.orElse (fun _ => b.EndTime)
    DropoffLat := u.DropoffLat.orElse (fun _ => b.DropoffLat)
    DropoffLng := u.DropoffLng.orElse (fun _ => b.DropoffLng)
    DropoffAddr := u.DropoffAddr.orElse (fun _ => b.DropoffAddr)
    Distance := u.Distance.orElse (fun _ => b.Distance)
    Duration := u.Duration.orElse (fun _ => b.Duration)
    Cost := u.Cost.orElse (fun _ => b.Cost)
    UpdatedAt := t }

/-- The table after the rows with the given id have been patched. -/
def patchRows (u : UpdateBookingRequest) (t : Time) (id : String)
    (rows : List Booking) : List Booking :=
  rows.map (fun b => if b.ID == id then patch u t b else b)

/-- What a transition does once its checks have passed: the update, then the
best-effort call of the vehicle service. -/
def transitionTail (env : Env) (w : World) (id : String)
    (updates : UpdateBookingRequest) (failMsg vehicleID vehicleStatus : String) :
    Option String × World :=
  let calls := w.calls ++ [Call.repoGetByID id, Call.repoUpdate id updates]
  match env.execErr with
  | some e => (some (failMsg ++ e), { rows := w.rows, calls := calls })
  | none =>
    let rows := patchRows updates env.repoNow id w.rows
    match env.reGetErr with
    | some e => (some (failMsg ++ e), { rows := rows, calls := calls })
    | none =>
      propagateVehicleStatus env { rows := rows, calls := calls } vehicleID vehicleStatus

/-- The update `CompleteBooking` builds (`booking_usecase.go:190-199`). -/
def completeUpdates (env : Env) (req : CompleteBookingRequest) : UpdateBookingRequest :=
  { Status := some StatusCompleted
    EndTime := some env.now
    DropoffLat := req.DropoffLat
    DropoffLng := req.DropoffLng
    DropoffAddr := req.DropoffAddr
    Distance := req.Distance
    Duration := req.Duration
    Cost := completeCost req }

/-! ## Sample data -/

/-- An environment in which nothing fails: the services accept everything. -/
def okEnv (now : Time) (newID : String) : Env :=
  { now := now, repoNow := now, repoNow2 := now, newID := newID,
    getErr := none, execErr := none, reGetErr := none,
    validateUser := fun _ => none,
    isVehicleAvailable := fun _ _ => .ok true,
    updateVehicleStatus := fun _ _ => none }

/-- A booking of user `U1` for vehicle `V1`, due at instant 100. -/
def demoBooking (status : BookingStatus) : Booking :=
  { ID := "b1", UserID := "U1", VehicleID := "V1", Status := status, StartTime := 100,
    PickupAddr := "1 Main St" }

/-- A table holding `demoBooking` only. -/
def demoWorld (status : BookingStatus) : World :=
  { rows := [demoBooking status] }

/-- A request of user `U1` for vehicle `V1` at instant 100. -/
def demoRequest : CreateBookingRequest :=
  { UserID := "U1", VehicleID := "V1", StartTime := 100, PickupAddr := "1 Main St" }

/-- A run that leaves booking `b1` with a status outside the five: it is
created, then updated with the status `archived`. -/
def archivedOps : List Op :=
  [.create (okEnv 0 "b1") demoRequest,
   .update (okEnv 1 "") "b1" { Status := some "archived" }]

/-- A run that takes booking `b1` to `completed`: created, confirmed from
outside, started and completed. -/
def completedOps : List Op :=
  [.create (okEnv 0 "b1") demoRequest,
   .update (okEnv 1 "") "b1" { Status := some StatusConfirmed },
   .start (okEnv 100 "") "b1" "U1",
   .complete (okEnv 200 "") "b1" "U1" {}]

/-- A completion request with a dropoff, 10 km and 20 minutes. -/
def demoCompletion : CompleteBookingRequest :=
  { DropoffLat := some 1, DropoffLng := some 2, DropoffAddr := some "2 High St",
    Distance := some 10, Duration := some 20 }

/-- An environment in which everything works but the vehicle service, which
answers every status update with an error. -/
def failingVehicleEnv : Env :=
  { okEnv 100 "" with updateVehicleStatus := fun _ _ => some "vehicle service unavailable" }


/-- The fields a booking is created with: id, user, vehicle, start time and
pickup. -/
def createdFields (b : Booking) : String × String × String × Time × ℚ × ℚ × String :=
  (b.ID, b.UserID, b.VehicleID, b.StartTime, b.PickupLat, b.PickupLng, b.PickupAddr)

/-- The operation is a `CreateBooking` call. -/
def Op.isCreate : Op → Bool
  | .create _ _ => true
  | _ => false

/-- What follows the creation in `completedOps`: confirmation from outside,
start and completion. -/
def lifecycleOps : List Op :=
  [.update (okEnv 1 "") "b1" { Status := some StatusConfirmed },
   .start (okEnv 100 "") "b1" "U1",
   .complete (okEnv 200 "") "b1" "U1" {}]


/-- The fields of a completion are unset unless the status is completed. -/
def unsetUntilCompleted (b : Booking) : Prop :=
  b.Status ≠ StatusCompleted →
    b.EndTime = none ∧ b.Distance = none ∧ b.Duration = none ∧ b.Cost = none

/-- What is asked of an operation run in world `w` for the completion fields
to stay unset: a creation draws an id no row has; an update names none of
`end_time`, `distance`, `duration`, `cost` and gives no status other than
completed to a row stored as completed. -/
def Op.keepsUnset (w : World) : Op → Prop
  | .create env _ => ∀ r ∈ w.rows, r.ID ≠ env.newID
  | .update _ id req =>
    req.EndTime = none ∧ req.Distance = none ∧ req.Duration = none ∧ req.Cost = none ∧
      ∀ s, req.Status = some s → s ≠ StatusCompleted →
        ∀ r ∈ w.rows, r.ID = id → r.Status ≠ StatusCompleted
  | _ => True

/-- Every operation of the run satisfies `Op.keepsUnset` in the world it runs
in. -/
def guardedRun : World → List Op → Prop
  | _, [] => True
  | w, op :: ops => op.keepsUnset w ∧ guardedRun (step w op) ops

/-- A run in which `UpdateBooking` sets the cost of the pending booking `b1`. -/
def costOps : List Op :=
  [.create (okEnv 0 "b1") demoRequest,
   .update (okEnv 1 "") "b1" { Cost := some 5 }]

/-- A run in which `UpdateBooking` resets the completed booking `b1` to
pending. -/
def reopenedOps : List Op :=
  completedOps ++ [.update (okEnv 300 "") "b1" { Status := some StatusPending }]

/-- A run that takes booking `b1` to active: created, confirmed from outside
and started. -/
def startedOps : List Op :=
  [.create (okEnv 0 "b1") demoRequest,
   .update (okEnv 1 "") "b1" { Status := some StatusConfirmed },
   .start (okEnv 100 "") "b1" "U1"]

/-- The row of booking `b1` after `startedOps`. -/
def startedBooking : Booking :=
  { ID := "b1", UserID := "U1", VehicleID := "V1", Status := StatusActive,
    StartTime := 100, PickupAddr := "1 Main St", UpdatedAt := 100 }


/-! ## Two requests at once

Each request runs in its own goroutine and the use case holds no lock, so the
calls two requests make on the store can alternate. `CompleteBooking` makes
two: the read, with the checks on its result, and the update. -/

/-- The read and the checks of `CompleteBooking` (`booking_usecase.go:161-175`):
the booking read, or the error the call returns. -/
def completeChecks (env : Env) (w : World) (id userID : String) :
    Except String Booking × World :=
  let w := logCall w (.repoGetByID id)
  match GetByID env.getErr w.rows id with
  | .error e => (.error e, w)
  | .ok booking =>
    if booking.UserID ≠ userID then
      (.error "unauthorized: booking does not belong to user", w)
    else if booking.Status ≠ StatusActive then
      (.error ("cannot complete booking with status: " ++ booking.Status), w)
    else
      (.ok booking, w)

/-- The rest of `CompleteBooking` (`booking_usecase.go:177-213`), run with the
booking the checks have read. -/
def completeWrite (env : Env) (w : World) (id : String) (req : CompleteBookingRequest)
    (booking : Booking) : Option String × World :=
  let cost := completeCost req
  let endTime := env.now
  let updates : UpdateBookingRequest := {
    Status := some StatusCompleted
    EndTime := some endTime
    DropoffLat := req.DropoffLat
    DropoffLng := req.DropoffLng
    DropoffAddr := req.DropoffAddr
    Distance := req.Distance
    Duration := req.Duration
    Cost := cost }
  let w := logCall w (.repoUpdate id updates)
  match Update env w.rows id updates with
  | (.error e, rows) =>
    (some ("failed to complete booking: " ++ e), { w with rows := rows })
  | (.ok _, rows) =>
    propagateVehicleStatus env { w with rows := rows } booking.VehicleID "available"

/-- Two `CompleteBooking` requests A and B scheduled so that both reads come
before both updates: A reads, B reads, A writes, B writes. A request whose
checks fail returns there. The results of A and of B, and the world after. -/
def interleavedCompletions (envA envB : Env) (w : World) (id userA userB : String)
    (reqA reqB : CompleteBookingRequest) : Option String × Option String × World :=
  match completeChecks envA w id userA with
  | (.error eA, w) =>
    match completeChecks envB w id userB with
    | (.error eB, w) => (some eA, some eB, w)
    | (.ok bookingB, w) =>
      let rB := completeWrite envB w id reqB bookingB
      (some eA, rB.1, rB.2)
  | (.ok bookingA, w) =>
    match completeChecks envB w id userB with
    | (.error eB, w) =>
      let rA := completeWrite envA w id reqA bookingA
      (rA.1, some eB, rA.2)
    | (.ok bookingB, w) =>
      let rA := completeWrite envA w id reqA bookingA
      let rB := completeWrite envB rA.2 id reqB bookingB
      (rA.1, rB.1, rB.2)


/-! ## Listing (`postgres_booking_repository.go:139-240`, `booking_usecase.go:216`)

The statements `List` and `Count` build are kept as data: the conditions of
the `WHERE` clause, each comparing a column with a named parameter, and the
named arguments. `NamedQueryContext` binds the named arguments and runs the
statement. `QueryRowxContext` binds nothing by name: what follows the query
are positional arguments, which `database/sql` converts to driver values
before the statement is sent, and a Go map has no such conversion. -/

/-- The struct `BookingFilter` (`booking.go:65`). -/
structure BookingFilter where
  UserID : Option String := none
  VehicleID : Option String := none
  Status : Option BookingStatus := none
  StartDate : Option Time := none
  EndDate : Option Time := none
  Limit : Int := 0
  Offset : Int := 0
  deriving DecidableEq, Repr

/-- The struct `BookingListResponse` (`booking.go:76`). -/
structure BookingListResponse where
  Bookings : List Booking := []
  Total : Int := 0
  Limit : Int := 0
  Offset : Int := 0
  deriving DecidableEq, Repr

/-- A condition of the `WHERE` clause: `user_id = :user_id`,
`vehicle_id = :vehicle_id`, `status = :status`, `start_time >= :start_date`,
`start_time <= :end_date`. -/
inductive Condition where
  | user_id | vehicle_id | status | start_date | end_date
  deriving DecidableEq, Repr

/-- The map `args` of named arguments. -/
structure NamedArgs where
  user_id : Option String := none
  vehicle_id : Option String := none
  status : Option BookingStatus := none
  start_date : Option Time := none
  end_date : Option Time := none
  limit : Option Int := none
  offset : Option Int := none
  deriving DecidableEq, Repr

/-- A condition evaluated on a row, its parameter read from the named
arguments; with the parameter missing the condition does not hold. -/
def Condition.holds (args : NamedArgs) (b : Booking) : Condition → Bool
  | .user_id => match args.user_id with
    | some v => b.UserID == v
    | none => false
  | .vehicle_id => match args.vehicle_id with
    | some v => b.VehicleID == v
    | none => false
  | .status => match args.status with
    | some v => b.Status == v
    | none => false
  | .start_date => match args.start_date with
    | some v => decide (b.StartTime ≥ v)
    | none => false
  | .end_date => match args.end_date with
    | some v => decide (b.StartTime ≤ v)
    | none => false

/-- The rows a `WHERE` clause made of the conditions, joined by `AND`, lets
through; no condition, no clause. -/
def selectWhere (whereParts : List Condition) (args : NamedArgs) (rows : List Booking) :
    List Booking :=
  rows.filter (fun b => whereParts.all (fun c => c.holds args b))

/-- The clause `ORDER BY created_at DESC`; rows created at the same instant
keep their order. -/
def orderByCreatedAtDesc (rows : List Booking) : List Booking :=
  rows.insertionSort (fun a b => b.CreatedAt ≤ a.CreatedAt)

/-- The clause `LIMIT :limit OFFSET :offset`; Postgres refuses a negative
value of either. -/
def limitOffset (limit offset : Int) (rows : List Booking) : Except String (List Booking) :=
  if limit < 0 then .error "pq: LIMIT must not be negative"
  else if offset < 0 then .error "pq: OFFSET must not be negative"
  else .ok ((rows.drop offset.toNat).take limit.toNat)

/-- The `whereParts` built by `List` (`postgres_booking_repository.go:140-162`). -/
def listWhereParts (filter : BookingFilter) : List Condition :=
  (if filter.UserID.isSome then [Condition.user_id] else []) ++
  (if filter.VehicleID.isSome then [Condition.vehicle_id] else []) ++
  (if filter.Status.isSome then [Condition.status] else []) ++
  (if filter.StartDate.isSome then [Condition.start_date] else []) ++
  (if filter.EndDate.isSome then [Condition.end_date] else [])

/-- The `args` built by `List` (`postgres_booking_repository.go:141-170`). -/
def listArgs (filter : BookingFilter) : NamedArgs :=
  { user_id := filter.UserID
    vehicle_id := filter.VehicleID
    status := filter.Status
    start_date := filter.StartDate
    end_date := filter.EndDate
    limit := some filter.Limit
    offset := some filter.Offset }

/-- The repository's `List` (`postgres_booking_repository.go:139`), named
`RepoList` here: the statement is run by `NamedQueryContext`, which binds
`args`. -/
def RepoList (dbErr : Option String) (rows : List Booking) (filter : BookingFilter) :
    Except String (List Booking) :=
  let whereParts := listWhereParts filter
  let args := listArgs filter
  match dbErr with
  | some e => .error e
  | none =>
    limitOffset filter.Limit filter.Offset
      (orderByCreatedAtDesc (selectWhere whereParts args rows))

/-- The `whereParts` built by `Count` (`postgres_booking_repository.go:201-223`). -/
def countWhereParts (filter : BookingFilter) : List Condition :=
  (if filter.UserID.isSome then [Condition.user_id] else []) ++
  (if filter.VehicleID.isSome then [Condition.vehicle_id] else []) ++
  (if filter.Status.isSome then [Condition.status] else []) ++
  (if filter.StartDate.isSome then [Condition.start_date] else []) ++
  (if filter.EndDate.isSome then [Condition.end_date] else [])

/-- The `args` built by `Count` (`postgres_booking_repository.go:202-223`). -/
def countArgs (filter : BookingFilter) : NamedArgs :=
  { user_id := filter.UserID
    vehicle_id := filter.VehicleID
    status := filter.Status
    start_date := filter.StartDate
    end_date := filter.EndDate }

/-- A positional argument of a query. -/
inductive QueryArg where
  | text (s : String)
  | instant (t : Time)
  | integer (i : Int)
  | namedArgs (m : NamedArgs)
  deriving DecidableEq, Repr

/-- Whether `database/sql` can convert the argument to a driver value: it can
for strings, times and integers, not for a map. -/
def QueryArg.convertible : QueryArg → Bool
  | .namedArgs _ => false
  | _ => true

/-- The call `QueryRowxContext(ctx, query, args...)` on a `SELECT COUNT(*)`
whose conditions hold named parameters, followed by `Scan(&count)`. The
positional arguments are converted first. Nothing is bound by name, so a
statement with a condition is refused by the server, as is one handed
arguments it has no parameter for. -/
def queryRowxCount (dbErr : Option String) (whereParts : List Condition)
    (args : List QueryArg) (rows : List Booking) : Except String Int :=
  if args.any (fun a => !a.convertible) then
    .error "sql: converting argument $1 type: unsupported type map[string]interface \x7b\x7d, a map"
  else
    match dbErr with
    | some e => .error e
    | none =>
      if !whereParts.isEmpty then .error "pq: syntax error at or near :"
      else if !args.isEmpty then .error "pq: got parameters but the statement requires 0"
      else .ok rows.length

/-- `Count` (`postgres_booking_repository.go:200`): the statement is run by
`QueryRowxContext` with the map `args` as its one positional argument. -/
def Count (dbErr : Option String) (rows : List Booking) (filter : BookingFilter) :
    Except String Int :=
  let whereParts := countWhereParts filter
  let args := countArgs filter
  queryRowxCount dbErr whereParts [QueryArg.namedArgs args] rows

/-- The two methods of the interface `BookingRepository` (`interfaces.go:9`)
that `ListBookings` calls. -/
structure BookingRepository where
  List : BookingFilter → Except String (List Booking)
  Count : BookingFilter → Except String Int

/-- The Postgres repository over a table, with the database errors of its two
statements. -/
def postgresRepository (listErr countErr : Option String) (rows : List Booking) :
    BookingRepository :=
  { List := RepoList listErr rows, Count := Count countErr rows }

/-- `ListBookings` (`booking_usecase.go:216`). The limit is set in the
caller's filter; the result and the filter as left. -/
def ListBookings (repo : BookingRepository) (filter : BookingFilter) :
    Except String BookingListResponse × BookingFilter :=
  let filter := if filter.Limit ≤ 0 then { filter with Limit := 10 } else filter
  let filter := if filter.Limit > 100 then { filter with Limit := 100 } else filter
  match repo.List filter with
  | .error e => (.error ("failed to list bookings: " ++ e), filter)
  | .ok bookings =>
    match repo.Count filter with
    | .error e => (.error ("failed to count bookings: " ++ e), filter)
    | .ok total =>
      (.ok { Bookings := bookings, Total := total, Limit := filter.Limit,
             Offset := filter.Offset }, filter)

/-- The effective limit in the words of the specification: 10 when the limit
is not positive, 100 when it exceeds 100, the limit itself otherwise. -/
def effectiveLimit (limit : Int) : Int :=
  if limit ≤ 0 then 10 else if limit > 100 then 100 else limit

/-- The filter predicates in the words of the specification: every predicate
that is present holds of the booking, the two bounds on the start time
included. -/
def satisfiesFilter (filter : BookingFilter) (b : Booking) : Prop :=
  (∀ v, filter.UserID = some v → b.UserID = v) ∧
  (∀ v, filter.VehicleID = some v → b.VehicleID = v) ∧
  (∀ v, filter.Status = some v → b.Status = v) ∧
  (∀ v, filter.StartDate = some v → v ≤ b.StartTime) ∧
  (∀ v, filter.EndDate = some v → b.StartTime ≤ v)

/-- A repository held in memory whose two methods both answer: the listing of
the Postgres repository, and the number of rows the filter selects. -/
def memoryRepository (rows : List Booking) : BookingRepository :=
  { List := RepoList none rows
    Count := fun filter =>
      .ok (selectWhere (listWhereParts filter) (listArgs filter) rows).length }


/-- A table of two bookings: `b1` of user `U1`, pending, due at 100, and `b2`
of user `U2`, active, due at 50 and created later. -/
def demoRows : List Booking :=
  [{ ID := "b1", UserID := "U1", VehicleID := "V1", Status := StatusPending,
     StartTime := 100, CreatedAt := 1 },
   { ID := "b2", UserID := "U2", VehicleID := "V1", Status := StatusActive,
     StartTime := 50, CreatedAt := 2 }]


/-! ## Active bookings and statistics (`postgres_booking_repository.go:274-311`) -/

/-- The clause `ORDER BY start_time ASC`; rows due at the same instant keep
their order. -/
def orderByStartTimeAsc (rows : List Booking) : List Booking :=
  rows.insertionSort (fun a b => a.StartTime ≤ b.StartTime)

/-- `GetActiveBookings` (`postgres_booking_repository.go:274`): the rows with
`status IN ('confirmed', 'active')`, ordered by `start_time`, no `LIMIT`. -/
def GetActiveBookings (dbErr : Option String) (rows : List Booking) :
    Except String (List Booking) :=
  match dbErr with
  | some e => .error e
  | none =>
    .ok (orderByStartTimeAsc
      (rows.filter (fun b => b.Status == "confirmed" || b.Status == "active")))

/-- The struct `BookingStats` (`booking.go:84`). -/
structure BookingStats where
  TotalBookings : Int := 0
  ActiveBookings : Int := 0
  CompletedBookings : Int := 0
  CancelledBookings : Int := 0
  TotalRevenue : ℚ := 0
  AverageDistance : ℚ := 0
  AverageDuration : ℚ := 0
  deriving DecidableEq, Repr

/-- The running state of the SQL aggregates `SUM` and `AVG` over a column: the
sum and the number of the values seen that are not `NULL`. -/
structure Aggregate where
  sum : ℚ := 0
  count : Nat := 0
  deriving DecidableEq, Repr

/-- One more value of the column: `NULL` is skipped. -/
def Aggregate.add (a : Aggregate) : Option ℚ → Aggregate
  | none => a
  | some v => { sum := a.sum + v, count := a.count + 1 }

/-- The aggregate over the values of a column, row after row. -/
def aggregate (values : List (Option ℚ)) : Aggregate :=
  values.foldl Aggregate.add {}

/-- `COALESCE(SUM(col), 0)`: `SUM` is `NULL` when no value is set. -/
def coalesceSum (values : List (Option ℚ)) : ℚ :=
  let a := aggregate values
  if a.count = 0 then 0 else a.sum

/-- `COALESCE(AVG(col), 0)`: `AVG` is `NULL` when no value is set. -/
def coalesceAvg (values : List (Option ℚ)) : ℚ :=
  let a := aggregate values
  if a.count = 0 then 0 else a.sum / a.count

/-- `COUNT(CASE WHEN status = s THEN 1 END)`. -/
def countStatus (s : BookingStatus) (rows : List Booking) : Int :=
  (rows.filter (fun b => b.Status == s)).length

/-- The filtered set of `GetStats`: the bookings of the user, or all bookings
when no user is given. -/
def bookingsOf (rows : List Booking) (userID : Option String) : List Booking :=
  match userID with
  | some u => rows.filter (fun b => b.UserID == u)
  | none => rows

/-- `GetStats` (`postgres_booking_repository.go:289`): one row of aggregates
over the bookings of the user (`WHERE user_id = $1`), or over all bookings when
no user is given. -/
def GetStats (dbErr : Option String) (rows : List Booking) (userID : Option String) :
    Except String BookingStats :=
  let selected :=
    match userID with
    | some u => rows.filter (fun b => b.UserID == u)
    | none => rows
  match dbErr with
  | some e => .error e
  | none =>
    .ok { TotalBookings := selected.length
          ActiveBookings := countStatus "active" selected
          CompletedBookings := countStatus "completed" selected
          CancelledBookings := countStatus "cancelled" selected
          TotalRevenue := coalesceSum (selected.map (fun b => b.Cost))
          AverageDistance := coalesceAvg (selected.map (fun b => b.Distance))
          AverageDuration :=
            coalesceAvg (selected.map (fun b => b.Duration.map (fun d : Int => (d : ℚ)))) }

/-- The values of a column that are set. -/
def setValues (values : List (Option ℚ)) : List ℚ :=
  values.filterMap id

/-- The arithmetic mean in the words of the specification: the sum of the
values that are set over their number, unset values left out; 0 when none is
set. -/
def meanOfSet (values : List (Option ℚ)) : ℚ :=
  if (setValues values).length = 0 then 0
  else (setValues values).sum / (setValues values).length

/-- Three bookings of user `U1` with distances 10, unset, 20, durations 30,
unset, 10 and costs 15, unset, 30. -/
def statsRows : List Booking :=
  [{ ID := "s1", UserID := "U1", Status := StatusCompleted, Distance := some 10,
     Duration := some 30, Cost := some 15 },
   { ID := "s2", UserID := "U1", Status := StatusCancelled },
   { ID := "s3", UserID := "U1", Status := StatusCompleted, Distance := some 20,
     Duration := some 10, Cost := some 30 }]

/-- Three bookings due at 300, 100 and 200, of status active, confirmed and
pending. -/
def activeRows : List Booking :=
  [{ ID := "a1", Status := StatusActive, StartTime := 300 },
   { ID := "a2", Status := StatusConfirmed, StartTime := 100 },
   { ID := "a3", Status := StatusPending, StartTime := 200 }]


/-! ## HTTP handlers (`booking_handler.go:89-150`) -/

/-- What a handler writes: the status code and the body. -/
structure Response where
  status : Nat
  body : String
  deriving DecidableEq, Repr

/-- The constant `http.StatusNoContent`. -/
abbrev StatusNoContent : Nat := 204
/-- The constant `http.StatusBadRequest`. -/
abbrev StatusBadRequest : Nat := 400
/-- The constant `http.StatusUnauthorized`. -/
abbrev StatusUnauthorized : Nat := 401

/-- The call `http.Error(w, msg, code)`: the code, and the message followed by
a newline as body. -/
def httpError (msg : String) (code : Nat) : Response :=
  { status := code, body := msg ++ "\n" }

/-- The handler `BookingHandler.CancelBooking` (`booking_handler.go:89`).
`userID` is the value of `r.Header.Get("X-User-ID")`, empty when the header is
absent. -/
def BookingHandler.CancelBooking (env : Env) (w : World) (id userID : String) :
    Response × World :=
  if userID = "" then
    (httpError "User ID required" StatusUnauthorized, w)
  else
    match BookingService.CancelBooking env w id userID with
    | (some err, w) => (httpError err StatusBadRequest, w)
    | (none, w) => ({ status := StatusNoContent, body := "" }, w)

/-- The handler `BookingHandler.StartBooking` (`booking_handler.go:108`). -/
def BookingHandler.StartBooking (env : Env) (w : World) (id userID : String) :
    Response × World :=
  if userID = "" then
    (httpError "User ID required" StatusUnauthorized, w)
  else
    match BookingService.StartBooking env w id userID with
    | (some err, w) => (httpError err StatusBadRequest, w)
    | (none, w) => ({ status := StatusNoContent, body := "" }, w)

/-- The handler `BookingHandler.CompleteBooking` (`booking_handler.go:127`).
`body` is what decoding the request body as JSON gives, `none` when it
fails. -/
def BookingHandler.CompleteBooking (env : Env) (w : World) (id userID : String)
    (body : Option CompleteBookingRequest) : Response × World :=
  if userID = "" then
    (httpError "User ID required" StatusUnauthorized, w)
  else
    match body with
    | none => (httpError "Invalid request body" StatusBadRequest, w)
    | some req =>
      match BookingService.CompleteBooking env w id userID req with
      | (some err, w) => (httpError err StatusBadRequest, w)
      | (none, w) => ({ status := StatusNoContent, body := "" }, w)

/-- The failure kinds of the transitions in the specification's taxonomy. -/
inductive FailureKind where
  | notFound | unauthorized | invalidTransition | tooEarly
  deriving DecidableEq, Repr

/-- The kind of the first check of `StartBooking` that fails, the read itself
working: no booking under the id, another owner, a status other than
confirmed, a start time not reached; `none` when every check passes. -/
def startFailure (env : Env) (w : World) (id userID : String) : Option FailureKind :=
  match findRow w.rows id with
  | none => some .notFound
  | some b =>
    if b.UserID ≠ userID then some .unauthorized
    else if b.Status ≠ StatusConfirmed then some .invalidTransition
    else if env.now < b.StartTime then some .tooEarly
    else none

/-- The message of the error `StartBooking` returns for a failure kind,
`status` being the stored status. -/
def startMessage (status : BookingStatus) : FailureKind → String
  | .notFound => "booking not found"
  | .unauthorized => "unauthorized: booking does not belong to user"
  | .invalidTransition => "cannot start booking with status: " ++ status
  | .tooEarly => "booking cannot be started before scheduled time"


/-- An environment in which the `UPDATE` statement fails. -/
def failingUpdateEnv : Env :=
  { okEnv 100 "" with execErr := some "connection lost" }


/-! ## Notification service (`notification-service/internal/usecase`) -/

namespace NotificationService

/-- The Go type `NotificationPriority`, a string type (`notification.go:48`). -/
abbrev NotificationPriority := String

abbrev PriorityLow : NotificationPriority := "low"
abbrev PriorityNormal : NotificationPriority := "normal"
abbrev PriorityHigh : NotificationPriority := "high"
abbrev PriorityUrgent : NotificationPriority := "urgent"

/-- The Go type `NotificationStatus`, a string type (`notification.go:37`). -/
abbrev NotificationStatus := String

abbrev StatusPending : NotificationStatus := "pending"
abbrev StatusSent : NotificationStatus := "sent"
abbrev StatusDelivered : NotificationStatus := "delivered"
abbrev StatusRead : NotificationStatus := "read"
abbrev StatusFailed : NotificationStatus := "failed"

/-- The payload `map[string]interface{}` of a notification, as key-value
pairs. -/
abbrev Data := List (String × String)

/-- The struct `Notification` (`notification.go:8`). -/
structure Notification where
  ID : String := ""
  UserID : String := ""
  Type_ : String := ""
  Title : String := ""
  Message : String := ""
  Status : NotificationStatus := ""
  Priority : NotificationPriority := ""
  Data : Data := []
  ReadAt : Option Time := none
  SentAt : Option Time := none
  CreatedAt : Time := 0
  UpdatedAt : Time := 0
  deriving DecidableEq, Repr

/-- The struct `UpdateNotificationRequest` (`notification.go:68`). -/
structure UpdateNotificationRequest where
  Status : Option NotificationStatus := none
  ReadAt : Option Time := none
  SentAt : Option Time := none
  deriving DecidableEq, Repr

/-- The struct `User` (`interfaces.go:66`). -/
structure User where
  ID : String := ""
  Email : String := ""
  FirstName : String := ""
  LastName : String := ""
  Phone : String := ""
  Status : String := ""
  deriving DecidableEq, Repr

/-- The struct `UserPreferences` (`interfaces.go:76`). -/
structure UserPreferences where
  UserID : String := ""
  EmailEnabled : Bool := false
  SMSEnabled : Bool := false
  PushEnabled : Bool := false
  deriving DecidableEq, Repr

/-- A call `sendNotification` makes through one of its interfaces
(`UserService`, `NotificationSender`, `NotificationRepository`), or a line it
prints. -/
inductive Call where
  | getUser (userID : String)
  | getUserPreferences (userID : String)
  | sendEmail (to_ subject body : String)
  | sendSMS (to_ message : String)
  | sendPush (userID title message : String) (data : Data)
  | repoUpdate (id : String) (updates : UpdateNotificationRequest)
  | printf (msg : String)
  deriving DecidableEq, Repr

/-- What `sendNotification` reads from outside: the clock and the answers of
the user service and of the sender. -/
structure Env where
  now : Time
  getUser : String → Except String User
  getUserPreferences : String → Except String UserPreferences
  sendEmail : String → String → String → Option String
  sendSMS : String → String → Option String
  sendPush : String → String → String → Data → Option String

/-- `markAsFailed` (`notification_usecase.go:247`): the calls it makes. The
result of the update is dropped. -/
def markAsFailed (notificationID reason : String) : List Call :=
  [.repoUpdate notificationID { Status := some StatusFailed },
   .printf ("Notification " ++ notificationID ++ " failed: " ++ reason ++ "\n")]

/-- One attempt on a channel: the call is made and `sent` becomes true when it
returns no error (`err = ...; if err == nil { sent = true }`). The state is the
calls made so far and the flag `sent`. -/
def attempt (st : List Call × Bool) (c : Call) (err : Option String) : List Call × Bool :=
  (st.1 ++ [c], if err = none then true else st.2)

/-- `sendNotification` (`notification_usecase.go:163`): the calls it makes, in
order. -/
def sendNotification (env : Env) (notification : Notification) : List Call :=
  match env.getUser notification.UserID with
  | .error e =>
    [.getUser notification.UserID] ++
      markAsFailed notification.ID ("failed to get user: " ++ e)
  | .ok user =>
    let preferences : UserPreferences :=
      match env.getUserPreferences notification.UserID with
      | .ok p => p
      | .error _ =>
        { UserID := notification.UserID, EmailEnabled := true, SMSEnabled := true,
          PushEnabled := true }
    let st : List Call × Bool :=
      ([.getUser notification.UserID, .getUserPreferences notification.UserID], false)
    let st :=
      if notification.Priority = PriorityUrgent then
        let st :=
          if user.Email ≠ "" then
            attempt st (.sendEmail user.Email notification.Title notification.Message)
              (env.sendEmail user.Email notification.Title notification.Message)
          else st
        let st :=
          if user.Phone ≠ "" then
            attempt st (.sendSMS user.Phone notification.Message)
              (env.sendSMS user.Phone notification.Message)
          else st
        attempt st
          (.sendPush notification.UserID notification.Title notification.Message
            notification.Data)
          (env.sendPush notification.UserID notification.Title notification.Message
            notification.Data)
      else
        let st :=
          if preferences.EmailEnabled = true ∧ user.Email ≠ "" then
            attempt st (.sendEmail user.Email notification.Title notification.Message)
              (env.sendEmail user.Email notification.Title notification.Message)
          else st
        let st :=
          if preferences.PushEnabled = true then
            attempt st
              (.sendPush notification.UserID notification.Title notification.Message
                notification.Data)
              (env.sendPush notification.UserID notification.Title notification.Message
                notification.Data)
          else st
        if preferences.SMSEnabled = true ∧ notification.Priority = PriorityHigh ∧
            user.Phone ≠ "" then
          attempt st (.sendSMS user.Phone notification.Message)
            (env.sendSMS user.Phone notification.Message)
        else st
    if st.2 = true then
      st.1 ++ [.repoUpdate notification.ID
        { Status := some StatusSent, SentAt := some env.now }]
    else
      st.1 ++ markAsFailed notification.ID "failed to send through any channel"

/-- The attempts on a channel among the calls. -/
def sendCalls (calls : List Call) : List Call :=
  calls.filter fun c =>
    match c with
    | .sendEmail _ _ _ => true
    | .sendSMS _ _ => true
    | .sendPush _ _ _ _ => true
    | _ => false

/-- Whether an email is attempted among the calls. -/
def emailAttempted (calls : List Call) : Bool :=
  calls.any fun c =>
    match c with
    | .sendEmail _ _ _ => true
    | _ => false

/-- Whether an SMS is attempted among the calls. -/
def smsAttempted (calls : List Call) : Bool :=
  calls.any fun c =>
    match c with
    | .sendSMS _ _ => true
    | _ => false

/-- Whether a push is attempted among the calls. -/
def pushAttempted (calls : List Call) : Bool :=
  calls.any fun c =>
    match c with
    | .sendPush _ _ _ _ => true
    | _ => false

/-- The updates handed to the repository among the calls. -/
def statusUpdates (calls : List Call) : List (String × UpdateNotificationRequest) :=
  calls.filterMap fun c =>
    match c with
    | .repoUpdate id updates => some (id, updates)
    | _ => none

/-- What the sender answers to an attempt. -/
def Env.result (env : Env) : Call → Option String
  | .sendEmail to_ subject body => env.sendEmail to_ subject body
  | .sendSMS to_ message => env.sendSMS to_ message
  | .sendPush userID title message data => env.sendPush userID title message data
  | _ => none

/-- The preferences in force: those the lookup returns, all channels enabled
when it fails. -/
def effectivePreferences (env : Env) (notification : Notification) : UserPreferences :=
  match env.getUserPreferences notification.UserID with
  | .ok p => p
  | .error _ =>
    { UserID := notification.UserID, EmailEnabled := true, SMSEnabled := true,
      PushEnabled := true }

/-- The channel selection in the words of the specification, as the attempts
to make, in the order the code makes them. Urgent: email when the address is
not empty, SMS when the phone is not empty, push. Otherwise: email when
enabled and the address is not empty, push when enabled, SMS when enabled, the
priority high and the phone not empty. -/
def selectedChannels (notification : Notification) (user : User) (p : UserPreferences) :
    List Call :=
  if notification.Priority = PriorityUrgent then
    (if user.Email ≠ "" then
        [Call.sendEmail user.Email notification.Title notification.Message] else []) ++
    (if user.Phone ≠ "" then [Call.sendSMS user.Phone notification.Message] else []) ++
    [Call.sendPush notification.UserID notification.Title notification.Message
      notification.Data]
  else
    (if p.EmailEnabled = true ∧ user.Email ≠ "" then
        [Call.sendEmail user.Email notification.Title notification.Message] else []) ++
    (if p.PushEnabled = true then
        [Call.sendPush notification.UserID notification.Title notification.Message
          notification.Data] else []) ++
    (if p.SMSEnabled = true ∧ notification.Priority = PriorityHigh ∧ user.Phone ≠ "" then
        [Call.sendSMS user.Phone notification.Message] else [])

/-- A user with an address and a phone. -/
def demoUser : User :=
  { ID := "U1", Email := "u1@example.com", Phone := "+100" }

/-- An urgent notification for `U1`. -/
def urgentNotification : Notification :=
  { ID := "n1", UserID := "U1", Title := "Alert", Message := "Now", Priority := PriorityUrgent }

/-- A notification of normal priority for `U1`. -/
def normalNotification : Notification :=
  { ID := "n2", UserID := "U1", Title := "Hello", Message := "Later",
    Priority := PriorityNormal }

/-- An environment in which the user is `demoUser`, the preference lookup
fails, email fails and the other channels work. -/
def demoEnv : Env :=
  { now := 500
    getUser := fun _ => .ok demoUser
    getUserPreferences := fun _ => .error "no preferences"
    sendEmail := fun _ _ _ => some "smtp down"
    sendSMS := fun _ _ => none
    sendPush := fun _ _ _ _ => none }

/-- The same with every channel failing. -/
def allFailingEnv : Env :=
  { demoEnv with
    sendSMS := fun _ _ => some "gateway down", sendPush := fun _ _ _ _ => some "no token" }

/-- A notification of high priority for `U1`. -/
def highNotification : Notification :=
  { ID := "n3", UserID := "U1", Title := "Due", Message := "Soon", Priority := PriorityHigh }

/-- An environment in which the user lookup fails. -/
def noUserEnv : Env :=
  { demoEnv with getUser := fun _ => .error "user service down" }

/-- An environment in which the user has switched every channel off. -/
def mutedEnv : Env :=
  { demoEnv with
    getUserPreferences := fun _ => .ok { UserID := "U1" }, sendEmail := fun _ _ _ => none }

end NotificationService


/-! ## Observability middleware (`observability-service/pkg/middleware`) -/

namespace Middleware

/-- The part of `http.Request` that `getClientIP` reads. `Header` is
`r.Header.Get`: the first value of the header, the empty string when the
header is absent. Strings are sequences of characters; an index counts
characters. -/
structure Request where
  Header : String → String
  RemoteAddr : String

/-- Go's `strings.Index` on character lists: the index of the first
occurrence of `substr` in `s`, or `-1`. -/
def indexChars (s substr : List Char) : Int :=
  if substr.isPrefixOf s then 0
  else
    match s with
    | [] => -1
    | _ :: t =>
      let i := indexChars t substr
      if i = -1 then -1 else i + 1

/-- Go's `strings.LastIndex` on character lists: the index of the last
occurrence of `substr` in `s`, or `-1`. -/
def lastIndexChars (s substr : List Char) : Int :=
  match s with
  | [] => if substr.isPrefixOf [] then 0 else -1
  | c :: t =>
    let i := lastIndexChars t substr
    if i ≠ -1 then i + 1
    else if substr.isPrefixOf (c :: t) then 0 else -1

/-- Go's `strings.Index`. -/
def Index (s substr : String) : Int :=
  indexChars s.data substr.data

/-- Go's `strings.LastIndex`. -/
def LastIndex (s substr : String) : Int :=
  lastIndexChars s.data substr.data

/-- The slice `s[:idx]`. -/
def sliceTo (s : String) (idx : Int) : String :=
  String.mk (s.data.take idx.toNat)

/-- Go's `unicode.IsSpace`: the characters with the Unicode property
White_Space. -/
def IsSpace (c : Char) : Bool :=
  let n := c.toNat
  (0x09 ≤ n && n ≤ 0x0D) || n = 0x20 || n = 0x85 || n = 0xA0 || n = 0x1680 ||
    (0x2000 ≤ n && n ≤ 0x200A) || n = 0x2028 || n = 0x2029 || n = 0x202F || n = 0x205F ||
    n = 0x3000

/-- Go's `strings.TrimSpace`: `s` without its leading and trailing white
space. -/
def TrimSpace (s : String) : String :=
  String.mk (((s.data.dropWhile IsSpace).reverse.dropWhile IsSpace).reverse)

/-- `getClientIP` (`middleware.go:160`). -/
def getClientIP (r : Request) : String :=
  let xff := r.Header "X-Forwarded-For"
  if xff ≠ "" then
    let idx := Index xff ","
    if idx ≠ -1 then TrimSpace (sliceTo xff idx)
    else TrimSpace xff
  else
    let xri := r.Header "X-Real-IP"
    if xri ≠ "" then TrimSpace xri
    else
      let idx := LastIndex r.RemoteAddr ":"
      if idx ≠ -1 then sliceTo r.RemoteAddr idx
      else r.RemoteAddr

/-- A request with the given `X-Forwarded-For`, `X-Real-IP` and remote
address, and no other header. -/
def requestOf (xff xri remoteAddr : String) : Request :=
  { Header := fun k =>
      if k = "X-Forwarded-For" then xff else if k = "X-Real-IP" then xri else ""
    RemoteAddr := remoteAddr }

end Middleware


/-! ## Vehicle service (`vehicle-service/internal`) -/

namespace VehicleService

/-- The Go type `VehicleStatus`, a string type (`vehicle.go:27`). -/
abbrev VehicleStatus := String

abbrev StatusAvailable : VehicleStatus := "available"
abbrev StatusRented : VehicleStatus := "rented"
abbrev StatusMaintenance : VehicleStatus := "maintenance"
abbrev StatusOffline : VehicleStatus := "offline"

/-- The struct `Location` (`vehicle.go:37`). -/
structure Location where
  Latitude : ℚ := 0
  Longitude : ℚ := 0
  Address : String := ""
  deriving DecidableEq, Repr

/-- The struct `Vehicle` (`vehicle.go:8`). -/
structure Vehicle where
  ID : String := ""
  Make : String := ""
  Model : String := ""
  Year : Int := 0
  LicensePlate : String := ""
  VIN : String := ""
  Color : String := ""
  Status : VehicleStatus := ""
  Location : Location := {}
  BatteryLevel : Int := 0
  FuelLevel : Int := 0
  Mileage : Int := 0
  Features : List String := []
  CreatedAt : Time := 0
  UpdatedAt : Time := 0
  deriving DecidableEq, Repr

/-- The struct `VehicleFilter` (`interfaces.go:35`). -/
structure VehicleFilter where
  Status : Option VehicleStatus := none
  Make : Option String := none
  Model : Option String := none
  Year : Option Int := none
  MinYear : Option Int := none
  MaxYear : Option Int := none
  Location : Option Location := none
  Radius : Option ℚ := none
  Limit : Int := 0
  Offset : Int := 0
  deriving DecidableEq, Repr

/-- The struct `VehicleListResponse` (`interfaces.go:60`). -/
structure VehicleListResponse where
  Vehicles : List Vehicle := []
  Total : Int := 0
  Limit : Int := 0
  Offset : Int := 0
  deriving DecidableEq, Repr

/-- A call the use case makes on the repository. -/
inductive Call where
  | getByID (id : String)
  | updateStatus (id : String) (status : VehicleStatus)
  deriving DecidableEq, Repr

/-- The answers of the repository to `GetByID` and `UpdateStatus`. -/
structure Env where
  getByID : String → Except String Vehicle
  updateStatus : String → VehicleStatus → Option String

/-- The slice `validStatuses` of `UpdateVehicleStatus`
(`vehicle_usecase.go:192-197`). -/
def validStatuses : List VehicleStatus :=
  [StatusAvailable, StatusRented, StatusMaintenance, StatusOffline]

/-- `UpdateVehicleStatus` (`vehicle_usecase.go:186`): the error returned and
the calls made on the repository, in order. -/
def UpdateVehicleStatus (env : Env) (id : String) (status : VehicleStatus) :
    Option String × List Call :=
  if id = "" then (some "vehicle ID is required", [])
  else
    let isValidStatus := validStatuses.any (fun validStatus => status == validStatus)
    if ¬ isValidStatus then (some ("invalid vehicle status: " ++ status), [])
    else
      match env.getByID id with
      | .error e => (some ("vehicle not found: " ++ e), [.getByID id])
      | .ok _ =>
        match env.updateStatus id status with
        | some e =>
          (some ("failed to update vehicle status: " ++ e),
            [.getByID id, .updateStatus id status])
        | none => (none, [.getByID id, .updateStatus id status])

/-- The table `vehicles` as the repository sees it: its rows, the operator
`ILIKE` of the database (value, then pattern), and the error of the query, if
any. -/
structure Db where
  rows : List Vehicle
  ilike : String → String → Bool
  err : Option String := none

/-- A condition of the `WHERE` clause with the positional argument it refers
to: `status = $n`, `make ILIKE $n`, `model ILIKE $n`, `year = $n`,
`year >= $n`, `year <= $n`. -/
inductive Condition where
  | status (arg : VehicleStatus)
  | make (arg : String)
  | model (arg : String)
  | year (arg : Int)
  | min_year (arg : Int)
  | max_year (arg : Int)
  deriving DecidableEq, Repr

/-- Whether a row satisfies a condition. -/
def Condition.holds (db : Db) (v : Vehicle) : Condition → Bool
  | .status arg => v.Status == arg
  | .make arg => db.ilike v.Make arg
  | .model arg => db.ilike v.Model arg
  | .year arg => v.Year == arg
  | .min_year arg => decide (v.Year ≥ arg)
  | .max_year arg => decide (v.Year ≤ arg)

/-- The rows that satisfy every condition (`WHERE c1 AND c2 ...`; no `WHERE`
clause when there is no condition). -/
def selectWhere (db : Db) (whereConditions : List Condition) : List Vehicle :=
  db.rows.filter (fun v => whereConditions.all (fun c => c.holds db v))

/-- The clause `ORDER BY created_at DESC`; rows created at the same instant
keep their order. -/
def orderByCreatedAtDesc (rows : List Vehicle) : List Vehicle :=
  rows.insertionSort (fun a b => b.CreatedAt ≤ a.CreatedAt)

/-- The clause `LIMIT $n OFFSET $m`; Postgres refuses a negative value of
either. -/
def limitOffset (limit offset : Int) (rows : List Vehicle) : Except String (List Vehicle) :=
  if limit < 0 then .error "pq: LIMIT must not be negative"
  else if offset < 0 then .error "pq: OFFSET must not be negative"
  else .ok ((rows.drop offset.toNat).take limit.toNat)

/-- The `whereConditions` built by `List`, each with its argument
(`postgres_vehicle_repository.go:220-258`). -/
def listConditions (filter : VehicleFilter) : List Condition :=
  (match filter.Status with
    | some s => [Condition.status s]
    | none => []) ++
  (match filter.Make with
    | some m => [Condition.make ("%" ++ m ++ "%")]
    | none => []) ++
  (match filter.Model with
    | some m => [Condition.model ("%" ++ m ++ "%")]
    | none => []) ++
  (match filter.Year with
    | some y => [Condition.year y]
    | none => []) ++
  (match filter.MinYear with
    | some y => [Condition.min_year y]
    | none => []) ++
  (match filter.MaxYear with
    | some y => [Condition.max_year y]
    | none => [])

/-- `List` of the Postgres repository (`postgres_vehicle_repository.go:219`);
every stored row scans and its features decode. -/
def RepoList (db : Db) (filter : VehicleFilter) : Except String (List Vehicle) :=
  let whereConditions := listConditions filter
  match db.err with
  | some e => .error e
  | none =>
    limitOffset filter.Limit filter.Offset (orderByCreatedAtDesc (selectWhere db whereConditions))

/-- The `whereConditions` built by `Count`, each with its argument
(`postgres_vehicle_repository.go:306-332`). -/
def countConditions (filter : VehicleFilter) : List Condition :=
  (match filter.Status with
    | some s => [Condition.status s]
    | none => []) ++
  (match filter.Make with
    | some m => [Condition.make ("%" ++ m ++ "%")]
    | none => []) ++
  (match filter.Model with
    | some m => [Condition.model ("%" ++ m ++ "%")]
    | none => []) ++
  (match filter.Year with
    | some y => [Condition.year y]
    | none => [])

/-- `Count` of the Postgres repository
(`postgres_vehicle_repository.go:305`). -/
def Count (db : Db) (filter : VehicleFilter) : Except String Int :=
  let whereConditions := countConditions filter
  match db.err with
  | some e => .error e
  | none => .ok ((selectWhere db whereConditions).length : Int)

/-- The two methods of the interface `VehicleRepository` that `ListVehicles`
calls. -/
structure VehicleRepository where
  List : VehicleFilter → Except String (List Vehicle)
  Count : VehicleFilter → Except String Int

/-- The Postgres repository on a table. -/
def postgresVehicleRepository (db : Db) : VehicleRepository :=
  { List := RepoList db, Count := Count db }

/-- `ListVehicles` (`vehicle_usecase.go:126`): the result, and the filter as
the call leaves it (it is changed in place). -/
def ListVehicles (repo : VehicleRepository) (filter : VehicleFilter) :
    Except String VehicleListResponse × VehicleFilter :=
  let filter := if filter.Limit ≤ 0 then { filter with Limit := 10 } else filter
  let filter := if filter.Limit > 100 then { filter with Limit := 100 } else filter
  let filter := if filter.Offset < 0 then { filter with Offset := 0 } else filter
  match repo.List filter with
  | .error e => (.error ("failed to list vehicles: " ++ e), filter)
  | .ok vehicles =>
    match repo.Count filter with
    | .error e => (.error ("failed to count vehicles: " ++ e), filter)
    | .ok total =>
      (.ok { Vehicles := vehicles, Total := total, Limit := filter.Limit,
             Offset := filter.Offset }, filter)

/-- The vehicles matching the filter in the words of the specification: those
that satisfy every condition of `List`. -/
def matching (db : Db) (filter : VehicleFilter) : List Vehicle :=
  db.rows.filter fun v =>
    (match filter.Status with
      | some s => v.Status == s
      | none => true) &&
    (match filter.Make with
      | some m => db.ilike v.Make ("%" ++ m ++ "%")
      | none => true) &&
    (match filter.Model with
      | some m => db.ilike v.Model ("%" ++ m ++ "%")
      | none => true) &&
    (match filter.Year with
      | some y => v.Year == y
      | none => true) &&
    (match filter.MinYear with
      | some y => decide (v.Year ≥ y)
      | none => true) &&
    (match filter.MaxYear with
      | some y => decide (v.Year ≤ y)
      | none => true)

/-- A repository in which every vehicle exists and every write works. -/
def okEnv : Env :=
  { getByID := fun id => .ok { ID := id }, updateStatus := fun _ _ => none }

/-- A vehicle of 2010. -/
def oldVehicle : Vehicle :=
  { ID := "V1", Make := "Tesla", Model := "S", Year := 2010, Status := StatusAvailable,
    CreatedAt := 1 }

/-- A vehicle of 2021. -/
def newVehicle : Vehicle :=
  { ID := "V2", Make := "Tesla", Model := "3", Year := 2021, Status := StatusAvailable,
    CreatedAt := 2 }

/-- A table of the two vehicles; `ILIKE` is not used by the samples. -/
def demoDb : Db :=
  { rows := [oldVehicle, newVehicle], ilike := fun _ _ => true }

/-- The filter `min_year = 2020`, ten rows a page. -/
def recentFilter : VehicleFilter :=
  { MinYear := some 2020, Limit := 10 }

end VehicleService


/-- The `float64` nearest to one tenth, `float64(0.1)`. -/
def tenth : ℚ := 3602879701896397 / 2 ^ 55

/-! ## Lemmas on the repository -/

/-! ## Rounding to `float64` -/

theorem roundHalfEven_intCast (n : Int) : roundHalfEven (n : ℚ) = n := by
  unfold roundHalfEven
  simp

theorem roundFloat64_exact (m k : Int) (hm : |m| < 2 ^ 53) (hk : -1074 ≤ k) :
    roundFloat64 ((m : ℚ) * 2 ^ k) = (m : ℚ) * 2 ^ k := by
  unfold roundFloat64
  by_cases h0 : (m : ℚ) * 2 ^ k = 0
  · simp [h0]
  · rw [if_neg h0]
    have h2k : (0 : ℚ) < 2 ^ k := zpow_pos (by norm_num) k
    have hpos : (0 : ℚ) < |(m : ℚ) * 2 ^ k| := abs_pos.mpr h0
    have hmq : |(m : ℚ)| < 2 ^ 53 := by
      have : ((|m| : Int) : ℚ) < ((2 ^ 53 : Int) : ℚ) := Int.cast_lt.mpr hm
      simpa using this
    have hlt : |(m : ℚ) * 2 ^ k| < ((2 : ℕ) : ℚ) ^ (k + 53) := by
      rw [abs_mul, abs_of_pos h2k, zpow_add₀ (by norm_num), mul_comm]
      have : ((2 : ℕ) : ℚ) = 2 := by norm_num
      rw [this]
      have h53 : ((2 : ℚ) ^ (53 : Int)) = 2 ^ 53 := by norm_cast
      rw [h53]
      exact mul_lt_mul_of_pos_left hmq h2k
    have hlog : Int.log 2 |(m : ℚ) * 2 ^ k| < k + 53 :=
      (Int.lt_zpow_iff_log_lt (by norm_num) hpos).mp hlt
    have hek : max (Int.log 2 |(m : ℚ) * 2 ^ k|) (-1022) ≤ k + 52 :=
      max_le (by omega) (by omega)
    generalize max (Int.log 2 |(m : ℚ) * 2 ^ k|) (-1022) = e at hek
    obtain ⟨j, hj⟩ : ∃ j : ℕ, k = (e - 52) + j := ⟨(k - e + 52).toNat, by omega⟩
    have hx : (m : ℚ) * 2 ^ k / 2 ^ (e - 52) = ((m * 2 ^ j : Int) : ℚ) := by
      rw [hj, zpow_add₀ (by norm_num)]
      have hne : (2 : ℚ) ^ (e - 52) ≠ 0 := (zpow_pos (by norm_num) _).ne'
      field_simp
      ring
    simp only
    rw [hx, roundHalfEven_intCast]
    push_cast
    rw [hj, zpow_add₀ (by norm_num)]
    simp only [zpow_natCast]
    ring

theorem roundFloat64_of_isFloat64 (x : ℚ) (h : isFloat64 x) : roundFloat64 x = x := by
  obtain ⟨m, k, hm, hk, _, rfl⟩ := h
  exact roundFloat64_exact m k hm hk

theorem roundFloat64_intCast (n : Int) (h : |n| < 2 ^ 53) : roundFloat64 (n : ℚ) = n := by
  simpa using roundFloat64_exact n 0 h (by norm_num)

theorem roundHalfEven_error (q : ℚ) : |(roundHalfEven q : ℚ) - q| ≤ 1 / 2 := by
  have h1 : ((⌊q⌋ : Int) : ℚ) ≤ q := Int.floor_le q
  have h2 : q < ((⌊q⌋ : Int) : ℚ) + 1 := Int.lt_floor_add_one q
  unfold roundHalfEven
  simp only
  rw [abs_le]
  split_ifs with a b c <;> constructor <;> push_cast <;> linarith

/-- The relative error of a rounding in the normal range is at most
`2 ^ (-53)`. -/
theorem roundFloat64_error (x : ℚ) (hx : (2 : ℚ) ^ (-1022 : Int) ≤ |x|) :
    |roundFloat64 x - x| ≤ |x| / 2 ^ 53 := by
  have hpos : 0 < |x| := lt_of_lt_of_le (zpow_pos (by norm_num) _) hx
  have hne : x ≠ 0 := abs_pos.mp hpos
  have h2 : ((2 : ℕ) : ℚ) = 2 := by norm_num
  have hlog : -1022 ≤ Int.log 2 |x| := by
    rw [← Int.zpow_le_iff_le_log (by norm_num) hpos, h2]
    exact hx
  have hle : (2 : ℚ) ^ Int.log 2 |x| ≤ |x| := by
    have := Int.zpow_log_le_self (b := 2) (by norm_num) hpos
    rwa [h2] at this
  unfold roundFloat64
  rw [if_neg hne]
  simp only [max_eq_left hlog]
  generalize Int.log 2 |x| = e at hle
  have hu : (0 : ℚ) < 2 ^ (e - 52) := zpow_pos (by norm_num) _
  have herr := roundHalfEven_error (x / 2 ^ (e - 52))
  have hrew : (roundHalfEven (x / 2 ^ (e - 52)) : ℚ) * 2 ^ (e - 52) - x =
      ((roundHalfEven (x / 2 ^ (e - 52)) : ℚ) - x / 2 ^ (e - 52)) * 2 ^ (e - 52) := by
    field_simp
  rw [hrew, abs_mul, abs_of_pos hu]
  have hsplit : (2 : ℚ) ^ e = 2 ^ (e - 52) * 2 ^ 52 := by
    rw [show e = (e - 52) + 52 by ring, zpow_add₀ (by norm_num)]
    norm_num
  have hb : |(roundHalfEven (x / 2 ^ (e - 52)) : ℚ) - x / 2 ^ (e - 52)| * 2 ^ (e - 52) ≤
      1 / 2 * 2 ^ (e - 52) := mul_le_mul_of_nonneg_right herr hu.le
  have : (1 : ℚ) / 2 * 2 ^ (e - 52) = 2 ^ e / 2 ^ 53 := by
    rw [hsplit]; field_simp; ring
  calc _ ≤ 1 / 2 * 2 ^ (e - 52) := hb
    _ = 2 ^ e / 2 ^ 53 := this
    _ ≤ |x| / 2 ^ 53 := by
      apply div_le_div_of_nonneg_right hle (by positivity)

/-- The error of the priced amount with a duration: three roundings on
positive values. -/
theorem pricing_error (d : ℚ) (m : Int) (hm : 0 < m)
    (hd : (2 : ℚ) ^ (-1022 : Int) ≤ d * 1.50) :
    |roundFloat64 (roundFloat64 (d * 1.50) + roundFloat64 (roundFloat64 (m : ℚ) * 0.25)) -
        (d * 1.50 + (m : ℚ) * 0.25)| ≤ (d * 1.50 + (m : ℚ) * 0.25) / 2 ^ 51 := by
  have htiny : (2 : ℚ) ^ (-1022 : Int) ≤ 1 / 16 := by
    rw [show (1 : ℚ) / 16 = 2 ^ (-4 : Int) by norm_num]
    exact zpow_le_zpow_right₀ (by norm_num) (by norm_num)
  have hApos : 0 < d * 1.50 := lt_of_lt_of_le (zpow_pos (by norm_num) _) hd
  have hm1 : (1 : ℚ) ≤ (m : ℚ) := by exact_mod_cast hm
  have h1 := roundFloat64_error (d * 1.50) (by rwa [abs_of_pos hApos])
  rw [abs_of_pos hApos, abs_le] at h1
  have h2 := roundFloat64_error (m : ℚ) (by rw [abs_of_pos (by linarith)]; exact le_trans htiny (by linarith))
  rw [abs_of_pos (by linarith : (0 : ℚ) < m), abs_le] at h2
  have hMpos : (1 : ℚ) / 2 ≤ roundFloat64 (m : ℚ) := by
    have : (m : ℚ) / 2 ^ 53 ≤ (m : ℚ) / 2 := by
      apply div_le_div_of_nonneg_left (by linarith) (by norm_num) (by norm_num)
    linarith
  have hy0 : 0 < roundFloat64 (m : ℚ) * 0.25 := by norm_num; linarith
  have h3 := roundFloat64_error (roundFloat64 (m : ℚ) * 0.25)
    (by rw [abs_of_pos hy0]; refine le_trans htiny ?_; norm_num; linarith)
  rw [abs_of_pos hy0, abs_le] at h3
  have hy1 : (1 : ℚ) / 16 ≤ roundFloat64 (roundFloat64 (m : ℚ) * 0.25) := by
    have : roundFloat64 (m : ℚ) * 0.25 / 2 ^ 53 ≤ roundFloat64 (m : ℚ) * 0.25 / 2 := by
      apply div_le_div_of_nonneg_left hy0.le (by norm_num) (by norm_num)
    norm_num at this h3 ⊢
    linarith
  have ha0 : 0 ≤ roundFloat64 (d * 1.50) := by
    have : d * 1.50 / 2 ^ 53 ≤ d * 1.50 := by
      apply div_le_self hApos.le (by norm_num)
    linarith
  have hs0 : 0 < roundFloat64 (d * 1.50) + roundFloat64 (roundFloat64 (m : ℚ) * 0.25) := by
    linarith
  have h4 := roundFloat64_error
    (roundFloat64 (d * 1.50) + roundFloat64 (roundFloat64 (m : ℚ) * 0.25))
    (by rw [abs_of_pos hs0]; exact le_trans htiny (by linarith))
  rw [abs_of_pos hs0, abs_le] at h4
  rw [abs_le]
  norm_num at h1 h2 h3 h4 ⊢
  constructor <;> linarith

theorem isFloat64_zero : isFloat64 0 := ⟨0, 0, by norm_num, by norm_num, by norm_num, by simp⟩

theorem two_zpow_lt_iff (a b : Int) : (2 : ℚ) ^ a < 2 ^ b ↔ a < b :=
  zpow_lt_zpow_iff_right₀ (by norm_num)

theorem two_zpow_le_iff (a b : Int) : (2 : ℚ) ^ a ≤ 2 ^ b ↔ a ≤ b :=
  zpow_le_zpow_iff_right₀ (by norm_num)

theorem maxFloat64_lt : maxFloat64 < (2 : ℚ) ^ (1024 : Int) := by
  have h971 : (0 : ℚ) < 2 ^ 971 := by positivity
  have h : (2 : ℚ) ^ (1024 : Int) = 2 ^ 53 * 2 ^ 971 := by
    rw [show (1024 : Int) = ((53 + 971 : ℕ) : Int) by norm_num, zpow_natCast, pow_add]
  rw [h]
  unfold maxFloat64
  exact mul_lt_mul_of_pos_right (by norm_num) h971

/-- A rounding that does not exceed the largest `float64` is a `float64`. -/
theorem isFloat64_roundFloat64 (x : ℚ) (hfin : |roundFloat64 x| ≤ maxFloat64) :
    isFloat64 (roundFloat64 x) := by
  by_cases hx0 : x = 0
  · rw [hx0]
    have : roundFloat64 0 = 0 := by simp [roundFloat64]
    rw [this]; exact isFloat64_zero
  have hpos : 0 < |x| := abs_pos.mpr hx0
  have h2 : ((2 : ℕ) : ℚ) = 2 := by norm_num
  have hlo : (2 : ℚ) ^ Int.log 2 |x| ≤ |x| := by
    have := Int.zpow_log_le_self (b := 2) (by norm_num) hpos
    rwa [h2] at this
  have hhi : |x| < (2 : ℚ) ^ (Int.log 2 |x| + 1) := by
    have := Int.lt_zpow_succ_log_self (b := 2) (by norm_num) |x|
    rwa [h2] at this
  unfold roundFloat64 at hfin ⊢
  rw [if_neg hx0] at hfin ⊢
  simp only at hfin ⊢
  generalize Int.log 2 |x| = L at hlo hhi hfin ⊢
  have heL : L ≤ max L (-1022) := le_max_left _ _
  have he : -1022 ≤ max L (-1022) := le_max_right _ _
  have hecase : max L (-1022) = L ∨ max L (-1022) = -1022 := by
    rcases le_total L (-1022) with h | h
    · exact Or.inr (max_eq_right h)
    · exact Or.inl (max_eq_left h)
  generalize max L (-1022) = e at heL he hecase hfin ⊢
  have hu : (0 : ℚ) < 2 ^ (e - 52) := zpow_pos (by norm_num) _
  have h53 : (2 : ℚ) ^ (e + 1) = 2 ^ 53 * 2 ^ (e - 52) := by
    rw [show e + 1 = 53 + (e - 52) by ring, zpow_add₀ (by norm_num)]
    norm_num
  have h52 : (2 : ℚ) ^ e = 2 ^ 52 * 2 ^ (e - 52) := by
    rw [show e = 52 + (e - 52) by ring, zpow_add₀ (by norm_num)]
    norm_num
  have hq : |x / 2 ^ (e - 52)| < 2 ^ 53 := by
    rw [abs_div, abs_of_pos hu, div_lt_iff₀ hu, ← h53]
    exact lt_of_lt_of_le hhi ((two_zpow_le_iff _ _).mpr (by omega))
  have herr := roundHalfEven_error (x / 2 ^ (e - 52))
  generalize hn : roundHalfEven (x / 2 ^ (e - 52)) = n at herr hfin ⊢
  rw [abs_le] at herr
  rw [abs_lt] at hq
  have hn53 : |n| ≤ 2 ^ 53 := by
    rw [abs_le]
    constructor
    · have : ((-(2 ^ 53) - 1 : Int) : ℚ) < (n : ℚ) := by push_cast; linarith
      have := Int.cast_lt.mp this
      omega
    · have : (n : ℚ) < ((2 ^ 53 + 1 : Int) : ℚ) := by push_cast; linarith
      have := Int.cast_lt.mp this
      omega
  rw [abs_mul, abs_of_pos hu] at hfin
  have hfin2 : |(n : ℚ)| * 2 ^ (e - 52) < 2 ^ (1024 : Int) := lt_of_le_of_lt hfin maxFloat64_lt
  by_cases hn0 : n = 0
  · rw [hn0]; simp only [Int.cast_zero, zero_mul]; exact isFloat64_zero
  have hnq : (1 : ℚ) ≤ |(n : ℚ)| := by
    have : (1 : Int) ≤ |n| := Int.one_le_abs hn0
    exact_mod_cast this
  by_cases hbig : |n| = 2 ^ 53
  · -- the rounding reached the next power of two
    have hnq53 : |(n : ℚ)| = 2 ^ 53 := by
      have : ((|n| : Int) : ℚ) = ((2 ^ 53 : Int) : ℚ) := by rw [hbig]
      simpa using this
    rw [hnq53, ← h53, two_zpow_lt_iff] at hfin2
    have heven : n = 2 * (n / 2) := by
      rcases abs_eq (by norm_num : (0 : Int) ≤ 2 ^ 53) |>.mp hbig with h | h <;> rw [h] <;>
        norm_num
    refine ⟨n / 2, e - 51, ?_, by omega, by omega, ?_⟩
    · rcases abs_eq (by norm_num : (0 : Int) ≤ 2 ^ 53) |>.mp hbig with h | h <;> rw [h] <;>
        norm_num
    · have h51 : (2 : ℚ) ^ (e - 51) = 2 * 2 ^ (e - 52) := by
        rw [show e - 51 = 1 + (e - 52) by ring, zpow_add₀ (by norm_num)]
        norm_num
      rw [h51]
      have : (n : ℚ) = 2 * ((n / 2 : Int) : ℚ) := by
        conv_lhs => rw [heven]
        push_cast; ring
      rw [this]; ring
  · have hlt : |n| < 2 ^ 53 := lt_of_le_of_ne hn53 hbig
    refine ⟨n, e - 52, hlt, by omega, ?_, rfl⟩
    by_contra hk
    have he1024 : 1024 ≤ e := by omega
    have heq : e = L := by
      rcases hecase with h | h
      · exact h
      · omega
    -- in the normal range the significand is at least 2 ^ 52
    have hx52 : (2 : ℚ) ^ 52 ≤ |x / 2 ^ (e - 52)| := by
      rw [abs_div, abs_of_pos hu, le_div_iff₀ hu, ← h52, heq]
      exact hlo
    have hn52 : (2 : ℚ) ^ 52 ≤ |(n : ℚ)| := by
      rcases le_abs.mp hx52 with h | h
      · have : ((2 ^ 52 - 1 : Int) : ℚ) < (n : ℚ) := by push_cast; linarith
        have h' := Int.cast_lt.mp this
        have : (2 ^ 52 : Int) ≤ n := by omega
        have : ((2 ^ 52 : Int) : ℚ) ≤ (n : ℚ) := Int.cast_le.mpr this
        exact le_trans (by push_cast; exact le_refl _) (le_trans this (le_abs_self _))
      · have : (n : ℚ) < ((-(2 ^ 52) + 1 : Int) : ℚ) := by push_cast; linarith
        have h' := Int.cast_lt.mp this
        have : n ≤ -(2 ^ 52 : Int) := by omega
        have : (n : ℚ) ≤ ((-(2 ^ 52) : Int) : ℚ) := Int.cast_le.mpr this
        have h3 : (2 : ℚ) ^ 52 ≤ -(n : ℚ) := by push_cast at this; linarith
        exact le_trans h3 (neg_le_abs _)
    have : (2 : ℚ) ^ e ≤ |(n : ℚ)| * 2 ^ (e - 52) := by
      rw [h52]
      exact mul_le_mul_of_nonneg_right hn52 hu.le
    have := lt_of_le_of_lt this hfin2
    rw [two_zpow_lt_iff] at this
    omega

theorem roundFloat64_value (x : ℚ) (e n : Int) (hlo : (2 : ℚ) ^ e ≤ x) (hhi : x < 2 ^ (e + 1))
    (he : -1022 ≤ e) (hn : roundHalfEven (x / 2 ^ (e - 52)) = n) :
    roundFloat64 x = (n : ℚ) * 2 ^ (e - 52) := by
  have hx : 0 < x := lt_of_lt_of_le (zpow_pos (by norm_num) e) hlo
  have h2 : ((2 : ℕ) : ℚ) = 2 := by norm_num
  have h1 : e ≤ Int.log 2 |x| := by
    rw [← Int.zpow_le_iff_le_log (by norm_num) (abs_pos.mpr hx.ne'), abs_of_pos hx, h2]
    exact hlo
  have h3 : Int.log 2 |x| < e + 1 := by
    rw [← Int.lt_zpow_iff_log_lt (by norm_num) (abs_pos.mpr hx.ne'), abs_of_pos hx, h2]
    exact hhi
  have hlog : Int.log 2 |x| = e := by omega
  unfold roundFloat64
  rw [if_neg hx.ne']
  simp only [hlog, max_eq_left he, hn]

theorem isFloat64_quarter (n : Int) (h : |n| < 2 ^ 53) : isFloat64 ((n : ℚ) / 4) :=
  ⟨n, -2, h, by norm_num, by norm_num, by
    rw [show (2 : ℚ) ^ (-2 : Int) = 1 / 4 by norm_num]; ring⟩

theorem roundFloat64_quarter (n : Int) (h : |n| < 2 ^ 53) :
    roundFloat64 ((n : ℚ) / 4) = (n : ℚ) / 4 :=
  roundFloat64_of_isFloat64 _ (isFloat64_quarter n h)

/-- The priced amount is exact when the two products, the converted duration
and the sum are `float64` values. -/
theorem pricing_exact (d : ℚ) (m : Int) (h1 : isFloat64 (d * 1.50)) (h2 : isFloat64 (m : ℚ))
    (h3 : isFloat64 ((m : ℚ) * 0.25)) (h4 : isFloat64 (d * 1.50 + (m : ℚ) * 0.25)) :
    roundFloat64 (roundFloat64 (d * 1.50) + roundFloat64 (roundFloat64 (m : ℚ) * 0.25)) =
      d * 1.50 + (m : ℚ) * 0.25 := by
  rw [roundFloat64_of_isFloat64 _ h1, roundFloat64_of_isFloat64 _ h2,
    roundFloat64_of_isFloat64 _ h3, roundFloat64_of_isFloat64 _ h4]

/-- The golden values of the pricing: 10 km and 20 minutes cost 20, 5 km and
10 minutes cost 10. -/
theorem pricing_golden :
    roundFloat64 (roundFloat64 15 + roundFloat64 (roundFloat64 20 * (1 / 4))) = 20 ∧
    roundFloat64 (roundFloat64 (15 / 2) + roundFloat64 (roundFloat64 10 * (1 / 4))) = 10 ∧
    roundFloat64 6 = 6 ∧ roundFloat64 12 = 12 ∧
    roundFloat64 (roundFloat64 12 + roundFloat64 (roundFloat64 4 * (1 / 4))) = 13 := by
  have q := roundFloat64_quarter
  have r20 : roundFloat64 20 = 20 := by
    have := q 80 (by norm_num); norm_num at this; exact this
  have r15 : roundFloat64 15 = 15 := by
    have := q 60 (by norm_num); norm_num at this; exact this
  have r5 : roundFloat64 5 = 5 := by
    have := q 20 (by norm_num); norm_num at this; exact this
  have r10 : roundFloat64 10 = 10 := by
    have := q 40 (by norm_num); norm_num at this; exact this
  have r152 : roundFloat64 (15 / 2) = 15 / 2 := by
    have := q 30 (by norm_num); norm_num at this; exact this
  have r52 : roundFloat64 (5 / 2) = 5 / 2 := by
    have := q 10 (by norm_num); norm_num at this; exact this
  have r6 : roundFloat64 6 = 6 := by
    have := q 24 (by norm_num); norm_num at this; exact this
  have r12 : roundFloat64 12 = 12 := by
    have := q 48 (by norm_num); norm_num at this; exact this
  have r4 : roundFloat64 4 = 4 := by
    have := q 16 (by norm_num); norm_num at this; exact this
  have r1 : roundFloat64 1 = 1 := by
    have := q 4 (by norm_num); norm_num at this; exact this
  have r13 : roundFloat64 13 = 13 := by
    have := q 52 (by norm_num); norm_num at this; exact this
  refine ⟨?_, ?_, r6, r12, ?_⟩
  · rw [r15, r20, show (20 : ℚ) * (1 / 4) = 5 by norm_num, r5,
      show (15 : ℚ) + 5 = 20 by norm_num, r20]
  · rw [r152, r10, show (10 : ℚ) * (1 / 4) = 5 / 2 by norm_num, r52,
      show (15 : ℚ) / 2 + 5 / 2 = 10 by norm_num, r10]
  · rw [r12, r4, show (4 : ℚ) * (1 / 4) = 1 by norm_num, r1,
      show (12 : ℚ) + 1 = 13 by norm_num, r13]

theorem roundFloat64_tenth :
    roundFloat64 (tenth * 1.50) = 5404319552844596 / 2 ^ 55 := by
  have h := roundFloat64_value (tenth * 1.50) (-3) 5404319552844596
    (by norm_num [tenth]) (by norm_num [tenth]) (by norm_num)
    (by
      have hq : tenth * 1.50 / 2 ^ ((-3 : Int) - 52) = 10808639105689191 / 2 := by
        norm_num [tenth]
      have hf : ⌊(10808639105689191 / 2 : ℚ)⌋ = 5404319552844595 := by
        rw [Int.floor_eq_iff]; norm_num
      rw [hq]
      unfold roundHalfEven
      simp only [hf]
      norm_num)
  rw [h]
  norm_num


theorem foldl_part_status (u : UpdateBookingRequest) (t : Time) (b : Booking) :
    (if u.Status.isSome then [Column.status] else []).foldl (assign u t) b =
      { b with Status := u.Status.getD b.Status } := by
  rcases u with ⟨s, e, la, ln, ad, di, du, co⟩; cases s <;> rfl

theorem foldl_part_end_time (u : UpdateBookingRequest) (t : Time) (b : Booking) :
    (if u.EndTime.isSome then [Column.end_time] else []).foldl (assign u t) b =
      { b with EndTime := u.EndTime.orElse (fun _ => b.EndTime) } := by
  rcases u with ⟨s, e, la, ln, ad, di, du, co⟩; cases e <;> rfl

theorem foldl_part_dropoff_latitude (u : UpdateBookingRequest) (t : Time) (b : Booking) :
    (if u.DropoffLat.isSome then [Column.dropoff_latitude] else []).foldl (assign u t) b =
      { b with DropoffLat := u.DropoffLat.orElse (fun _ => b.DropoffLat) } := by
  rcases u with ⟨s, e, la, ln, ad, di, du, co⟩; cases la <;> rfl

theorem foldl_part_dropoff_longitude (u : UpdateBookingRequest) (t : Time) (b : Booking) :
    (if u.DropoffLng.isSome then [Column.dropoff_longitude] else []).foldl (assign u t) b =
      { b with DropoffLng := u.DropoffLng.orElse (fun _ => b.DropoffLng) } := by
  rcases u with ⟨s, e, la, ln, ad, di, du, co⟩; cases ln <;> rfl

theorem foldl_part_dropoff_address (u : UpdateBookingRequest) (t : Time) (b : Booking) :
    (if u.DropoffAddr.isSome then [Column.dropoff_address] else []).foldl (assign u t) b =
      { b with DropoffAddr := u.DropoffAddr.orElse (fun _ => b.DropoffAddr) } := by
  rcases u with ⟨s, e, la, ln, ad, di, du, co⟩; cases ad <;> rfl

theorem foldl_part_distance (u : UpdateBookingRequest) (t : Time) (b : Booking) :
    (if u.Distance.isSome then [Column.distance] else []).foldl (assign u t) b =
      { b with Distance := u.Distance.orElse (fun _ => b.Distance) } := by
  rcases u with ⟨s, e, la, ln, ad, di, du, co⟩; cases di <;> rfl

theorem foldl_part_duration (u : UpdateBookingRequest) (t : Time) (b : Booking) :
    (if u.Duration.isSome then [Column.duration] else []).foldl (assign u t) b =
      { b with Duration := u.Duration.orElse (fun _ => b.Duration) } := by
  rcases u with ⟨s, e, la, ln, ad, di, du, co⟩; cases du <;> rfl

theorem foldl_part_cost (u : UpdateBookingRequest) (t : Time) (b : Booking) :
    (if u.Cost.isSome then [Column.cost] else []).foldl (assign u t) b =
      { b with Cost := u.Cost.orElse (fun _ => b.Cost) } := by
  rcases u with ⟨s, e, la, ln, ad, di, du, co⟩; cases co <;> rfl

/-- The whole `SET` clause of `Update` is the sparse patch. -/
theorem foldl_assign_setParts (u : UpdateBookingRequest) (t : Time) (b : Booking) :
    (setParts u ++ [Column.updated_at]).foldl (assign u t) b = patch u t b := by
  unfold setParts
  simp only [List.foldl_append, foldl_part_status, foldl_part_end_time,
    foldl_part_dropoff_latitude, foldl_part_dropoff_longitude, foldl_part_dropoff_address,
    foldl_part_distance, foldl_part_duration, foldl_part_cost, List.foldl_cons,
    List.foldl_nil, assign]
  rfl

theorem execUpdate_eq_patchRows (u : UpdateBookingRequest) (t : Time) (id : String)
    (rows : List Booking) :
    execUpdate (setParts u ++ [Column.updated_at]) u t id rows = patchRows u t id rows := by
  unfold execUpdate patchRows
  simp only [foldl_assign_setParts]

theorem patch_ID (u : UpdateBookingRequest) (t : Time) (b : Booking) :
    (patch u t b).ID = b.ID := rfl

theorem patch_Status (u : UpdateBookingRequest) (t : Time) (b : Booking) :
    (patch u t b).Status = u.Status.getD b.Status := rfl

theorem findRow_patchRows_same (u : UpdateBookingRequest) (t : Time) (id : String)
    (rows : List Booking) :
    findRow (patchRows u t id rows) id = (findRow rows id).map (patch u t) := by
  induction rows with
  | nil => rfl
  | cons r rs ih =>
    unfold findRow patchRows at ih ⊢
    simp only [List.map_cons, List.find?_cons]
    by_cases h : r.ID = id
    · simp only [h, beq_self_eq_true, if_true, patch_ID, Option.map_some']
    · have hb : (r.ID == id) = false := by simpa using h
      simp only [hb, Bool.false_eq_true, if_false]
      exact ih

theorem findRow_patchRows_other (u : UpdateBookingRequest) (t : Time) (id j : String)
    (hj : j ≠ id) (rows : List Booking) :
    findRow (patchRows u t id rows) j = findRow rows j := by
  induction rows with
  | nil => rfl
  | cons r rs ih =>
    unfold findRow patchRows at ih ⊢
    simp only [List.map_cons, List.find?_cons]
    by_cases h : r.ID = id
    · have hb : (id == j) = false := by simpa using fun e : id = j => hj e.symm
      simp only [h, beq_self_eq_true, if_true, patch_ID, hb]
      exact ih
    · have hb : (r.ID == id) = false := by simpa using h
      simp only [hb, Bool.false_eq_true, if_false]
      cases (r.ID == j)
      · exact ih
      · rfl

theorem mem_patchRows (u : UpdateBookingRequest) (t : Time) (id : String)
    (rows : List Booking) (b : Booking) (hb : b ∈ patchRows u t id rows) :
    b ∈ rows ∨ ∃ r ∈ rows, b = patch u t r := by
  unfold patchRows at hb
  rcases List.mem_map.mp hb with ⟨r, hr, rfl⟩
  by_cases h : (r.ID == id) = true
  · right; exact ⟨r, hr, by simp only [h, if_true]⟩
  · left; simpa only [h, if_false] using hr

theorem GetByID_ok_iff (dbErr : Option String) (rows : List Booking) (id : String)
    (b : Booking) :
    GetByID dbErr rows id = .ok b ↔ dbErr = none ∧ findRow rows id = some b := by
  unfold GetByID
  cases dbErr with
  | some e => simp
  | none => cases h : findRow rows id <;> simp

/-- The table after `Update`: untouched, or patched. -/
theorem Update_rows (env : Env) (rows : List Booking) (id : String)
    (u : UpdateBookingRequest) :
    (Update env rows id u).2 = rows ∨
      (env.execErr = none ∧ (Update env rows id u).2 = patchRows u env.repoNow id rows) := by
  unfold Update
  simp only [execUpdate_eq_patchRows]
  split
  · left; rfl
  · cases h : env.execErr with
    | some e => left; rfl
    | none => right; exact ⟨rfl, rfl⟩

/-- `Update` of a stored booking with a request that sets the status. -/
theorem Update_of_status (env : Env) (rows : List Booking) (id : String)
    (u : UpdateBookingRequest) (s : BookingStatus) (b : Booking)
    (h : u.Status = some s) (hb : findRow rows id = some b) :
    Update env rows id u =
      match env.execErr with
      | some e => (.error e, rows)
      | none =>
        (match env.reGetErr with
          | some e => .error e
          | none => .ok (patch u env.repoNow b),
          patchRows u env.repoNow id rows) := by
  unfold Update
  have hl : ((setParts u).length == 0) = false := by
    simp [setParts, h]
  simp only [hl, Bool.false_eq_true, if_false, execUpdate_eq_patchRows]
  cases env.execErr with
  | some e => rfl
  | none =>
    simp only [GetByID, findRow_patchRows_same, hb, Option.map_some']

/-! ## Lemmas on the record of calls -/

theorem updatesSent_append (a b : List Call) :
    updatesSent (a ++ b) = updatesSent a ++ updatesSent b := by
  unfold updatesSent; exact List.filterMap_append _ _ _

theorem vehicleStatusCalls_append (a b : List Call) :
    vehicleStatusCalls (a ++ b) = vehicleStatusCalls a ++ vehicleStatusCalls b := by
  unfold vehicleStatusCalls; exact List.filterMap_append _ _ _

theorem propagateVehicleStatus_fst (env : Env) (w : World) (v s : String) :
    (propagateVehicleStatus env w v s).1 = none := by
  unfold propagateVehicleStatus
  cases env.updateVehicleStatus v s <;> rfl

theorem propagateVehicleStatus_rows (env : Env) (w : World) (v s : String) :
    (propagateVehicleStatus env w v s).2.rows = w.rows := by
  unfold propagateVehicleStatus
  cases env.updateVehicleStatus v s <;> rfl

theorem propagateVehicleStatus_updatesSent (env : Env) (w : World) (v s : String) :
    updatesSent (propagateVehicleStatus env w v s).2.calls = updatesSent w.calls := by
  unfold propagateVehicleStatus
  cases env.updateVehicleStatus v s <;> simp [logCall, updatesSent_append, updatesSent]

/-! ## Lemmas on the transitions -/

theorem transitionTail_rows (env : Env) (w : World) (id : String)
    (u : UpdateBookingRequest) (m v s : String) :
    (transitionTail env w id u m v s).2.rows = w.rows ∨
      (env.execErr = none ∧
        (transitionTail env w id u m v s).2.rows = patchRows u env.repoNow id w.rows) := by
  unfold transitionTail
  cases h : env.execErr with
  | some e => left; rfl
  | none =>
    right
    refine ⟨rfl, ?_⟩
    cases env.reGetErr with
    | some e => rfl
    | none => simp only [propagateVehicleStatus_rows]

theorem transitionTail_ok_iff (env : Env) (w : World) (id : String)
    (u : UpdateBookingRequest) (m v s : String) :
    (transitionTail env w id u m v s).1 = none ↔ env.execErr = none ∧ env.reGetErr = none := by
  unfold transitionTail
  cases env.execErr with
  | some e => simp
  | none =>
    cases env.reGetErr with
    | some e => simp
    | none => simp [propagateVehicleStatus_fst]

theorem transitionTail_rows_of_exec (env : Env) (w : World) (id : String)
    (u : UpdateBookingRequest) (m v s : String) (h : env.execErr = none) :
    (transitionTail env w id u m v s).2.rows = patchRows u env.repoNow id w.rows := by
  unfold transitionTail
  simp only [h]
  cases env.reGetErr with
  | some e => rfl
  | none => simp only [propagateVehicleStatus_rows]

theorem transitionTail_updatesSent (env : Env) (w : World) (id : String)
    (u : UpdateBookingRequest) (m v s : String) :
    updatesSent (transitionTail env w id u m v s).2.calls = updatesSent w.calls ++ [(id, u)] := by
  unfold transitionTail
  cases env.execErr with
  | some e => simp [updatesSent_append, updatesSent]
  | none =>
    cases env.reGetErr with
    | some e => simp [updatesSent_append, updatesSent]
    | none =>
      simp only [propagateVehicleStatus_updatesSent, updatesSent_append]
      simp [updatesSent]

/-- A call of `StartBooking` that gets past its checks. -/
theorem StartBooking_of_pre (env : Env) (w : World) (id userID : String) (b : Booking)
    (hget : GetByID env.getErr w.rows id = .ok b) (hu : b.UserID = userID)
    (hs : b.Status = StatusConfirmed) (ht : ¬ env.now < b.StartTime) :
    StartBooking env w id userID =
      transitionTail env w id { Status := some StatusActive }
        "failed to start booking: " b.VehicleID "in_use" := by
  unfold StartBooking transitionTail
  have hb := ((GetByID_ok_iff _ _ _ _).mp hget).2
  simp only [logCall, hget, hu, hs, ht, ne_eq, not_true_eq_false, if_false,
    Update_of_status env w.rows id { Status := some StatusActive } StatusActive b rfl hb]
  cases env.execErr with
  | some e => simp
  | none => cases env.reGetErr <;> simp

/-- A call of `StartBooking` that fails one of its checks changes nothing but
the record of calls. -/
theorem StartBooking_of_not_pre (env : Env) (w : World) (id userID : String)
    (h : ∀ b, GetByID env.getErr w.rows id = .ok b →
      ¬ (b.UserID = userID ∧ b.Status = StatusConfirmed ∧ ¬ env.now < b.StartTime)) :
    (StartBooking env w id userID).1 ≠ none ∧
      (StartBooking env w id userID).2 = logCall w (.repoGetByID id) := by
  unfold StartBooking
  simp only [logCall]
  cases hg : GetByID env.getErr w.rows id with
  | error e => simp
  | ok b =>
    have := h b hg
    simp only
    split_ifs with h1 h2 h3 <;> simp_all

/-- A call of `CompleteBooking` that gets past its checks. -/
theorem CompleteBooking_of_pre (env : Env) (w : World) (id userID : String)
    (req : CompleteBookingRequest) (b : Booking)
    (hget : GetByID env.getErr w.rows id = .ok b) (hu : b.UserID = userID)
    (hs : b.Status = StatusActive) :
    CompleteBooking env w id userID req =
      transitionTail env w id (completeUpdates env req)
        "failed to complete booking: " b.VehicleID "available" := by
  unfold CompleteBooking transitionTail
  have hb := ((GetByID_ok_iff _ _ _ _).mp hget).2
  have hU := Update_of_status env w.rows id (completeUpdates env req) StatusCompleted b rfl hb
  unfold completeUpdates at hU ⊢
  simp only [logCall, hget, hu, hs, ne_eq, not_true_eq_false, if_false, hU]
  cases env.execErr with
  | some e => simp
  | none => cases env.reGetErr <;> simp

theorem CompleteBooking_of_not_pre (env : Env) (w : World) (id userID : String)
    (req : CompleteBookingRequest)
    (h : ∀ b, GetByID env.getErr w.rows id = .ok b →
      ¬ (b.UserID = userID ∧ b.Status = StatusActive)) :
    (CompleteBooking env w id userID req).1 ≠ none ∧
      (CompleteBooking env w id userID req).2 = logCall w (.repoGetByID id) := by
  unfold CompleteBooking
  simp only [logCall]
  cases hg : GetByID env.getErr w.rows id with
  | error e => simp
  | ok b =>
    have := h b hg
    simp only
    split_ifs with h1 h2 <;> simp_all

/-- A call of `CancelBooking` that gets past its checks. -/
theorem CancelBooking_of_pre (env : Env) (w : World) (id userID : String) (b : Booking)
    (hget : GetByID env.getErr w.rows id = .ok b) (hu : b.UserID = userID)
    (hs : ¬ (b.Status = StatusCompleted ∨ b.Status = StatusCancelled)) :
    CancelBooking env w id userID =
      transitionTail env w id { Status := some StatusCancelled }
        "failed to cancel booking: " b.VehicleID "available" := by
  unfold CancelBooking transitionTail
  have hb := ((GetByID_ok_iff _ _ _ _).mp hget).2
  simp only [logCall, hget, hu, hs, ne_eq, not_true_eq_false, if_false,
    Update_of_status env w.rows id { Status := some StatusCancelled } StatusCancelled b rfl hb]
  cases env.execErr with
  | some e => simp
  | none => cases env.reGetErr <;> simp

theorem CancelBooking_of_not_pre (env : Env) (w : World) (id userID : String)
    (h : ∀ b, GetByID env.getErr w.rows id = .ok b →
      ¬ (b.UserID = userID ∧ ¬ (b.Status = StatusCompleted ∨ b.Status = StatusCancelled))) :
    (CancelBooking env w id userID).1 ≠ none ∧
      (CancelBooking env w id userID).2 = logCall w (.repoGetByID id) := by
  unfold CancelBooking
  simp only [logCall]
  cases hg : GetByID env.getErr w.rows id with
  | error e => simp
  | ok b =>
    have := h b hg
    simp only
    split_ifs with h1 h2 <;> simp_all

theorem storedStatus_eq (w : World) (id : String) :
    storedStatus w id = (findRow w.rows id).map (fun b => b.Status) := rfl

theorem storedStatus_congr (w w' : World) (h : w'.rows = w.rows) (j : String) :
    storedStatus w' j = storedStatus w j := by
  simp only [storedStatus_eq, h]

/-- The stored statuses after a patch of the rows with id `id`. -/
theorem storedStatus_patchRows (w w' : World) (u : UpdateBookingRequest) (t : Time)
    (id j : String) (h : w'.rows = patchRows u t id w.rows) :
    storedStatus w' j =
      (storedStatus w j).map (fun s => if j = id then u.Status.getD s else s) := by
  simp only [storedStatus_eq, h]
  by_cases hj : j = id
  · subst hj
    simp only [findRow_patchRows_same, Option.map_map, if_true]
    rfl
  · simp only [findRow_patchRows_other u t id j hj, hj, if_false, Option.map_id']

theorem StartBooking_cases (env : Env) (w : World) (id userID : String) :
    (∃ b, GetByID env.getErr w.rows id = .ok b ∧ b.UserID = userID ∧
        b.Status = StatusConfirmed ∧ ¬ env.now < b.StartTime ∧
        StartBooking env w id userID =
          transitionTail env w id { Status := some StatusActive }
            "failed to start booking: " b.VehicleID "in_use") ∨
      ((StartBooking env w id userID).1 ≠ none ∧
        (StartBooking env w id userID).2 = logCall w (.repoGetByID id)) := by
  by_cases h : ∃ b, GetByID env.getErr w.rows id = .ok b ∧
      (b.UserID = userID ∧ b.Status = StatusConfirmed ∧ ¬ env.now < b.StartTime)
  · obtain ⟨b, hg, hu, hs, ht⟩ := h
    exact Or.inl ⟨b, hg, hu, hs, ht, StartBooking_of_pre env w id userID b hg hu hs ht⟩
  · exact Or.inr (StartBooking_of_not_pre env w id userID
      (fun b hg hp => h ⟨b, hg, hp⟩))

theorem CompleteBooking_cases (env : Env) (w : World) (id userID : String)
    (req : CompleteBookingRequest) :
    (∃ b, GetByID env.getErr w.rows id = .ok b ∧ b.UserID = userID ∧
        b.Status = StatusActive ∧
        CompleteBooking env w id userID req =
          transitionTail env w id (completeUpdates env req)
            "failed to complete booking: " b.VehicleID "available") ∨
      ((CompleteBooking env w id userID req).1 ≠ none ∧
        (CompleteBooking env w id userID req).2 = logCall w (.repoGetByID id)) := by
  by_cases h : ∃ b, GetByID env.getErr w.rows id = .ok b ∧
      (b.UserID = userID ∧ b.Status = StatusActive)
  · obtain ⟨b, hg, hu, hs⟩ := h
    exact Or.inl ⟨b, hg, hu, hs, CompleteBooking_of_pre env w id userID req b hg hu hs⟩
  · exact Or.inr (CompleteBooking_of_not_pre env w id userID req
      (fun b hg hp => h ⟨b, hg, hp⟩))

theorem CancelBooking_cases (env : Env) (w : World) (id userID : String) :
    (∃ b, GetByID env.getErr w.rows id = .ok b ∧ b.UserID = userID ∧
        ¬ (b.Status = StatusCompleted ∨ b.Status = StatusCancelled) ∧
        CancelBooking env w id userID =
          transitionTail env w id { Status := some StatusCancelled }
            "failed to cancel booking: " b.VehicleID "available") ∨
      ((CancelBooking env w id userID).1 ≠ none ∧
        (CancelBooking env w id userID).2 = logCall w (.repoGetByID id)) := by
  by_cases h : ∃ b, GetByID env.getErr w.rows id = .ok b ∧
      (b.UserID = userID ∧ ¬ (b.Status = StatusCompleted ∨ b.Status = StatusCancelled))
  · obtain ⟨b, hg, hu, hs⟩ := h
    exact Or.inl ⟨b, hg, hu, hs, CancelBooking_of_pre env w id userID b hg hu hs⟩
  · exact Or.inr (CancelBooking_of_not_pre env w id userID
      (fun b hg hp => h ⟨b, hg, hp⟩))

/-- The stored statuses after the tail of a transition that writes status `t`:
unchanged, or that of `id` has become `t`. -/
theorem transitionTail_status (env : Env) (w : World) (id : String)
    (u : UpdateBookingRequest) (m v s : String) (t : BookingStatus) (b : Booking)
    (hu : u.Status = some t) (hb : findRow w.rows id = some b) (j : String) :
    storedStatus (transitionTail env w id u m v s).2 j = storedStatus w j ∨
      (j = id ∧ env.execErr = none ∧
        storedStatus (transitionTail env w id u m v s).2 j = some t) := by
  rcases transitionTail_rows env w id u m v s with h | ⟨hx, h⟩
  · exact Or.inl (storedStatus_congr _ _ h j)
  · rw [storedStatus_patchRows w _ u env.repoNow id j h]
    by_cases hj : j = id
    · right
      subst hj
      refine ⟨rfl, hx, ?_⟩
      simp [storedStatus_eq, hb, hu]
    · left
      simp [hj]

theorem transitionTail_status_of_exec (env : Env) (w : World) (id : String)
    (u : UpdateBookingRequest) (m v s : String) (t : BookingStatus) (b : Booking)
    (hu : u.Status = some t) (hb : findRow w.rows id = some b) (hx : env.execErr = none) :
    storedStatus (transitionTail env w id u m v s).2 id = some t := by
  rw [storedStatus_patchRows w _ u env.repoNow id id
    (transitionTail_rows_of_exec env w id u m v s hx)]
  simp [storedStatus_eq, hb, hu]

theorem transitionTail_status_other (env : Env) (w : World) (id : String)
    (u : UpdateBookingRequest) (m v s : String) (j : String) (hj : j ≠ id) :
    storedStatus (transitionTail env w id u m v s).2 j = storedStatus w j := by
  rcases transitionTail_rows env w id u m v s with h | ⟨_, h⟩
  · exact storedStatus_congr _ _ h j
  · rw [storedStatus_patchRows w _ u env.repoNow id j h]
    simp [hj]

/-! ## The state machine -/

/-- Claim C1, as stated, fails: `CancelBooking` refuses the two terminal
statuses only, so a booking whose stored status is none of pending, confirmed
and active (here `archived`, written by `UpdateBooking`) is cancelled with
success. -/
theorem cancel_from_unlisted_status :
    storedStatus (run {} archivedOps) "b1" = some "archived" ∧
    "archived" ∉ [StatusPending, StatusConfirmed, StatusActive] ∧
    (CancelBooking (okEnv 2 "") (run {} archivedOps) "b1" "U1").1 = none ∧
    storedStatus (CancelBooking (okEnv 2 "") (run {} archivedOps) "b1" "U1").2 "b1" =
      some StatusCancelled := by
  decide

/-- Claim C1, amended: for every booking and every call of `StartBooking`,
`CompleteBooking` or `CancelBooking`, the call leaves the stored status of the
booking unchanged or moves it along confirmed → active (Start), active →
completed (Complete), or s → cancelled for a status s other than completed and
cancelled (Cancel; of the five statuses these are pending, confirmed, active);
a successful call does move it; a Start on a status other than confirmed, a
Complete on a status other than active and a Cancel on completed or cancelled
return an error and leave the table unchanged; the status of every other
booking stays. -/
theorem transitions_follow_edges (env : Env) (w : World) (id userID : String)
    (req : CompleteBookingRequest) :
    (storedStatus (StartBooking env w id userID).2 id = storedStatus w id ∨
      (storedStatus w id = some StatusConfirmed ∧
        storedStatus (StartBooking env w id userID).2 id = some StatusActive)) ∧
    ((StartBooking env w id userID).1 = none →
      storedStatus w id = some StatusConfirmed ∧
        storedStatus (StartBooking env w id userID).2 id = some StatusActive) ∧
    (∀ s, storedStatus w id = some s → s ≠ StatusConfirmed →
      (StartBooking env w id userID).1 ≠ none ∧
        (StartBooking env w id userID).2.rows = w.rows) ∧
    (storedStatus (CompleteBooking env w id userID req).2 id = storedStatus w id ∨
      (storedStatus w id = some StatusActive ∧
        storedStatus (CompleteBooking env w id userID req).2 id = some StatusCompleted)) ∧
    ((CompleteBooking env w id userID req).1 = none →
      storedStatus w id = some StatusActive ∧
        storedStatus (CompleteBooking env w id userID req).2 id = some StatusCompleted) ∧
    (∀ s, storedStatus w id = some s → s ≠ StatusActive →
      (CompleteBooking env w id userID req).1 ≠ none ∧
        (CompleteBooking env w id userID req).2.rows = w.rows) ∧
    (storedStatus (CancelBooking env w id userID).2 id = storedStatus w id ∨
      (∃ s, storedStatus w id = some s ∧ s ≠ StatusCompleted ∧ s ≠ StatusCancelled ∧
        (validStatus s → s = StatusPending ∨ s = StatusConfirmed ∨ s = StatusActive) ∧
        storedStatus (CancelBooking env w id userID).2 id = some StatusCancelled)) ∧
    ((CancelBooking env w id userID).1 = none →
      ∃ s, storedStatus w id = some s ∧ s ≠ StatusCompleted ∧ s ≠ StatusCancelled ∧
        (validStatus s → s = StatusPending ∨ s = StatusConfirmed ∨ s = StatusActive) ∧
        storedStatus (CancelBooking env w id userID).2 id = some StatusCancelled) ∧
    (∀ s, storedStatus w id = some s → s = StatusCompleted ∨ s = StatusCancelled →
      (CancelBooking env w id userID).1 ≠ none ∧
        (CancelBooking env w id userID).2.rows = w.rows) ∧
    (∀ j, j ≠ id →
      storedStatus (StartBooking env w id userID).2 j = storedStatus w j ∧
      storedStatus (CompleteBooking env w id userID req).2 j = storedStatus w j ∧
      storedStatus (CancelBooking env w id userID).2 j = storedStatus w j) := by
  have hvalid : ∀ s : BookingStatus, s ≠ StatusCompleted → s ≠ StatusCancelled →
      validStatus s → s = StatusPending ∨ s = StatusConfirmed ∨ s = StatusActive := by
    intro s h1 h2 hv
    unfold validStatus at hv
    simp only [List.mem_cons, List.mem_singleton, List.not_mem_nil, or_false] at hv
    rcases hv with h | h | h | h | h
    · exact Or.inl h
    · exact Or.inr (Or.inl h)
    · exact Or.inr (Or.inr h)
    · exact absurd h h1
    · exact absurd h h2
  refine ⟨?_, ?_, ?_, ?_, ?_, ?_, ?_, ?_, ?_, ?_⟩
  · rcases StartBooking_cases env w id userID with ⟨b, hg, _, hs, _, he⟩ | ⟨_, he⟩
    · have hb := ((GetByID_ok_iff _ _ _ _).mp hg).2
      rw [he]
      rcases transitionTail_status env w id { Status := some StatusActive } _ _ _
        StatusActive b rfl hb id with h | ⟨_, _, h⟩
      · exact Or.inl h
      · exact Or.inr ⟨by simp [storedStatus_eq, hb, hs], h⟩
    · rw [he]; exact Or.inl rfl
  · intro hok
    rcases StartBooking_cases env w id userID with ⟨b, hg, _, hs, _, he⟩ | ⟨hne, _⟩
    · have hb := ((GetByID_ok_iff _ _ _ _).mp hg).2
      rw [he] at hok ⊢
      have hx := ((transitionTail_ok_iff _ _ _ _ _ _ _).mp hok).1
      exact ⟨by simp [storedStatus_eq, hb, hs],
        transitionTail_status_of_exec env w id _ _ _ _ StatusActive b rfl hb hx⟩
    · exact absurd hok hne
  · intro s hs hne
    have h := StartBooking_of_not_pre env w id userID (by
      intro b hg hp
      have hb := ((GetByID_ok_iff _ _ _ _).mp hg).2
      simp only [storedStatus_eq, hb, Option.map_some', Option.some.injEq] at hs
      exact hne (hs ▸ hp.2.1))
    exact ⟨h.1, by rw [h.2]; rfl⟩
  · rcases CompleteBooking_cases env w id userID req with ⟨b, hg, _, hs, he⟩ | ⟨_, he⟩
    · have hb := ((GetByID_ok_iff _ _ _ _).mp hg).2
      rw [he]
      rcases transitionTail_status env w id (completeUpdates env req) _ _ _
        StatusCompleted b rfl hb id with h | ⟨_, _, h⟩
      · exact Or.inl h
      · exact Or.inr ⟨by simp [storedStatus_eq, hb, hs], h⟩
    · rw [he]; exact Or.inl rfl
  · intro hok
    rcases CompleteBooking_cases env w id userID req with ⟨b, hg, _, hs, he⟩ | ⟨hne, _⟩
    · have hb := ((GetByID_ok_iff _ _ _ _).mp hg).2
      rw [he] at hok ⊢
      have hx := ((transitionTail_ok_iff _ _ _ _ _ _ _).mp hok).1
      exact ⟨by simp [storedStatus_eq, hb, hs],
        transitionTail_status_of_exec env w id _ _ _ _ StatusCompleted b rfl hb hx⟩
    · exact absurd hok hne
  · intro s hs hne
    have h := CompleteBooking_of_not_pre env w id userID req (by
      intro b hg hp
      have hb := ((GetByID_ok_iff _ _ _ _).mp hg).2
      simp only [storedStatus_eq, hb, Option.map_some', Option.some.injEq] at hs
      exact hne (hs ▸ hp.2))
    exact ⟨h.1, by rw [h.2]; rfl⟩
  · rcases CancelBooking_cases env w id userID with ⟨b, hg, _, hs, he⟩ | ⟨_, he⟩
    · have hb := ((GetByID_ok_iff _ _ _ _).mp hg).2
      rw [he]
      rcases transitionTail_status env w id { Status := some StatusCancelled } _ _ _
        StatusCancelled b rfl hb id with h | ⟨_, _, h⟩
      · exact Or.inl h
      · exact Or.inr ⟨b.Status, by simp [storedStatus_eq, hb],
          fun e => hs (Or.inl e), fun e => hs (Or.inr e),
          hvalid _ (fun e => hs (Or.inl e)) (fun e => hs (Or.inr e)), h⟩
    · rw [he]; exact Or.inl rfl
  · intro hok
    rcases CancelBooking_cases env w id userID with ⟨b, hg, _, hs, he⟩ | ⟨hne, _⟩
    · have hb := ((GetByID_ok_iff _ _ _ _).mp hg).2
      rw [he] at hok ⊢
      have hx := ((transitionTail_ok_iff _ _ _ _ _ _ _).mp hok).1
      exact ⟨b.Status, by simp [storedStatus_eq, hb],
        fun e => hs (Or.inl e), fun e => hs (Or.inr e),
        hvalid _ (fun e => hs (Or.inl e)) (fun e => hs (Or.inr e)),
        transitionTail_status_of_exec env w id _ _ _ _ StatusCancelled b rfl hb hx⟩
    · exact absurd hok hne
  · intro s hs hterm
    have h := CancelBooking_of_not_pre env w id userID (by
      intro b hg hp
      have hb := ((GetByID_ok_iff _ _ _ _).mp hg).2
      simp only [storedStatus_eq, hb, Option.map_some', Option.some.injEq] at hs
      exact hp.2 (hs ▸ hterm))
    exact ⟨h.1, by rw [h.2]; rfl⟩
  · intro j hj
    refine ⟨?_, ?_, ?_⟩
    · rcases StartBooking_cases env w id userID with ⟨b, _, _, _, _, he⟩ | ⟨_, he⟩
      · rw [he]; exact transitionTail_status_other env w id _ _ _ _ j hj
      · rw [he]; rfl
    · rcases CompleteBooking_cases env w id userID req with ⟨b, _, _, _, he⟩ | ⟨_, he⟩
      · rw [he]; exact transitionTail_status_other env w id _ _ _ _ j hj
      · rw [he]; rfl
    · rcases CancelBooking_cases env w id userID with ⟨b, _, _, _, he⟩ | ⟨_, he⟩
      · rw [he]; exact transitionTail_status_other env w id _ _ _ _ j hj
      · rw [he]; rfl

/-- Claim C1, at a sample: a confirmed booking started by its owner at its
start time becomes active, and completing it instead is refused. -/
theorem transitions_follow_edges_witness :
    (storedStatus (demoWorld StatusConfirmed) "b1" = some StatusConfirmed ∧
      storedStatus (StartBooking (okEnv 100 "") (demoWorld StatusConfirmed) "b1" "U1").2 "b1" =
        some StatusActive) ∧
    ((CompleteBooking (okEnv 100 "") (demoWorld StatusConfirmed) "b1" "U1" {}).1 ≠ none ∧
      (CompleteBooking (okEnv 100 "") (demoWorld StatusConfirmed) "b1" "U1" {}).2.rows =
        (demoWorld StatusConfirmed).rows) :=
  ⟨(transitions_follow_edges (okEnv 100 "") (demoWorld StatusConfirmed) "b1" "U1" {}).2.1
      (by decide),
    (transitions_follow_edges (okEnv 100 "") (demoWorld StatusConfirmed) "b1" "U1"
      {}).2.2.2.2.2.1 StatusConfirmed (by decide) (by decide)⟩

/-- Claim C2: when the read returns the booking and the caller is not its
owner, each of `StartBooking`, `CompleteBooking` and `CancelBooking` returns
the unauthorized error whatever the status, and the world after the call is
the world before it with the read recorded: the table is the same and neither
the repository's `Update` nor `UpdateVehicleStatus` has been called. -/
theorem foreign_user_is_unauthorized (env : Env) (w : World) (id userID : String)
    (req : CompleteBookingRequest) (b : Booking)
    (hget : GetByID env.getErr w.rows id = .ok b) (hne : userID ≠ b.UserID) :
    StartBooking env w id userID =
      (some "unauthorized: booking does not belong to user",
        { rows := w.rows, calls := w.calls ++ [Call.repoGetByID id] }) ∧
    CompleteBooking env w id userID req =
      (some "unauthorized: booking does not belong to user",
        { rows := w.rows, calls := w.calls ++ [Call.repoGetByID id] }) ∧
    CancelBooking env w id userID =
      (some "unauthorized: booking does not belong to user",
        { rows := w.rows, calls := w.calls ++ [Call.repoGetByID id] }) := by
  have h : b.UserID ≠ userID := fun e => hne e.symm
  refine ⟨?_, ?_, ?_⟩
  · unfold StartBooking
    simp only [logCall, hget, h, ne_eq, not_false_eq_true, if_true]
  · unfold CompleteBooking
    simp only [logCall, hget, h, ne_eq, not_false_eq_true, if_true]
  · unfold CancelBooking
    simp only [logCall, hget, h, ne_eq, not_false_eq_true, if_true]

/-- Claim C2, at a sample: user `U2` acting on the completed booking of `U1`. -/
theorem foreign_user_is_unauthorized_witness :
    StartBooking (okEnv 100 "") (demoWorld StatusCompleted) "b1" "U2" =
      (some "unauthorized: booking does not belong to user",
        { rows := (demoWorld StatusCompleted).rows,
          calls := (demoWorld StatusCompleted).calls ++ [Call.repoGetByID "b1"] }) ∧
    CompleteBooking (okEnv 100 "") (demoWorld StatusCompleted) "b1" "U2" {} =
      (some "unauthorized: booking does not belong to user",
        { rows := (demoWorld StatusCompleted).rows,
          calls := (demoWorld StatusCompleted).calls ++ [Call.repoGetByID "b1"] }) ∧
    CancelBooking (okEnv 100 "") (demoWorld StatusCompleted) "b1" "U2" =
      (some "unauthorized: booking does not belong to user",
        { rows := (demoWorld StatusCompleted).rows,
          calls := (demoWorld StatusCompleted).calls ++ [Call.repoGetByID "b1"] }) :=
  foreign_user_is_unauthorized (okEnv 100 "") (demoWorld StatusCompleted) "b1" "U2" {}
    (demoBooking StatusCompleted) rfl (by decide)

/-- Claim C3: when the `UPDATE` statement and the read that ends `Update` do
not fail, `StartBooking` succeeds exactly when the read returns a booking whose
`user_id` is the caller, whose status is confirmed and whose start time is not
after the clock reading (equality included); and a successful call hands the
repository one update, for this id, holding the status active and no other
field. -/
theorem StartBooking_succeeds_iff (env : Env) (w : World) (id userID : String)
    (hexec : env.execErr = none) (hre : env.reGetErr = none) :
    ((StartBooking env w id userID).1 = none ↔
      ∃ b, GetByID env.getErr w.rows id = .ok b ∧ b.UserID = userID ∧
        b.Status = StatusConfirmed ∧ b.StartTime ≤ env.now) ∧
    ((StartBooking env w id userID).1 = none →
      updatesSent (StartBooking env w id userID).2.calls =
        updatesSent w.calls ++
          [(id, { Status := some StatusActive, EndTime := none, DropoffLat := none,
                  DropoffLng := none, DropoffAddr := none, Distance := none,
                  Duration := none, Cost := none })]) := by
  rcases StartBooking_cases env w id userID with ⟨b, hg, hu, hs, ht, he⟩ | ⟨hne, _⟩
  · have hok : (StartBooking env w id userID).1 = none := by
      rw [he]; exact (transitionTail_ok_iff _ _ _ _ _ _ _).mpr ⟨hexec, hre⟩
    refine ⟨⟨fun _ => ⟨b, hg, hu, hs, not_lt.mp ht⟩, fun _ => hok⟩, fun _ => ?_⟩
    rw [he]
    exact transitionTail_updatesSent _ _ _ _ _ _ _
  · refine ⟨⟨fun hok => absurd hok hne, ?_⟩, fun hok => absurd hok hne⟩
    rintro ⟨b, hg, hu, hs, ht⟩
    have := StartBooking_of_pre env w id userID b hg hu hs (not_lt.mpr ht)
    rw [this] at hne
    exact absurd ((transitionTail_ok_iff _ _ _ _ _ _ _).mpr ⟨hexec, hre⟩) hne

/-- Claim C3, at a sample: started at the very instant of its start time. -/
theorem StartBooking_succeeds_iff_witness :
    (StartBooking (okEnv 100 "") (demoWorld StatusConfirmed) "b1" "U1").1 = none ∧
    updatesSent (StartBooking (okEnv 100 "") (demoWorld StatusConfirmed) "b1" "U1").2.calls =
      updatesSent (demoWorld StatusConfirmed).calls ++
        [("b1", { Status := some StatusActive, EndTime := none, DropoffLat := none,
                  DropoffLng := none, DropoffAddr := none, Distance := none,
                  Duration := none, Cost := none })] :=
  have h := StartBooking_succeeds_iff (okEnv 100 "") (demoWorld StatusConfirmed) "b1" "U1"
    rfl rfl
  have hok := h.1.mpr ⟨demoBooking StatusConfirmed, rfl, rfl, rfl, by decide⟩
  ⟨hok, h.2 hok⟩

/-! ## Completion and pricing -/

/-- A call of `CompleteBooking` on an active booking by its owner stores the
patched row, provided the `UPDATE` statement does not fail. -/
theorem CompleteBooking_stored (env : Env) (w : World) (id userID : String)
    (req : CompleteBookingRequest) (b : Booking)
    (hget : GetByID env.getErr w.rows id = .ok b) (hu : b.UserID = userID)
    (hs : b.Status = StatusActive) (hexec : env.execErr = none) :
    storedBooking (CompleteBooking env w id userID req).2 id =
      some (patch (completeUpdates env req) env.repoNow b) := by
  have hb := ((GetByID_ok_iff _ _ _ _).mp hget).2
  rw [CompleteBooking_of_pre env w id userID req b hget hu hs]
  unfold storedBooking
  rw [transitionTail_rows_of_exec env w id _ _ _ _ hexec, findRow_patchRows_same, hb]
  rfl

/-- The update a call of `CompleteBooking` hands to the repository, if any. -/
theorem CompleteBooking_updatesSent (env : Env) (w : World) (id userID : String)
    (req : CompleteBookingRequest) :
    updatesSent (CompleteBooking env w id userID req).2.calls = updatesSent w.calls ∨
      updatesSent (CompleteBooking env w id userID req).2.calls =
        updatesSent w.calls ++ [(id, completeUpdates env req)] := by
  rcases CompleteBooking_cases env w id userID req with ⟨b, _, _, _, he⟩ | ⟨_, he⟩
  · right; rw [he]; exact transitionTail_updatesSent _ _ _ _ _ _ _
  · left; rw [he]; simp [logCall, updatesSent_append, updatesSent]

theorem CompleteBooking_updatesSent_inv (env : Env) (w : World) (id userID : String)
    (req : CompleteBookingRequest) (u : UpdateBookingRequest)
    (h : updatesSent (CompleteBooking env w id userID req).2.calls =
      updatesSent w.calls ++ [(id, u)]) :
    u = completeUpdates env req := by
  rcases CompleteBooking_updatesSent env w id userID req with h1 | h1
  · rw [h1] at h
    have := List.self_eq_append_right.mp h
    simp at this
  · rw [h1] at h
    have := List.append_cancel_left h
    simp only [List.cons.injEq, Prod.mk.injEq, and_true, true_and] at this
    exact this.symm

/-- Claim C4, as stated, fails: the duration is priced only when positive and
the distance only when positive. With distance 4 and duration -4 the stored
cost is 6, not 4 * 1.50 + (-4) * 0.25 = 5; with distance 0 and duration 20 it
is 0, not 5; with distance -2 and no duration it is -2, not -3. -/
theorem complete_cost_guards :
    (storedBooking (CompleteBooking (okEnv 200 "") (demoWorld StatusActive) "b1" "U1"
        { Distance := some 4, Duration := some (-4) }).2 "b1").map (fun b => b.Cost) =
      some (some 6) ∧
    (6 : ℚ) ≠ 4 * 1.50 + ((-4 : Int) : ℚ) * 0.25 ∧
    (storedBooking (CompleteBooking (okEnv 200 "") (demoWorld StatusActive) "b1" "U1"
        { Distance := some 0, Duration := some 20 }).2 "b1").map (fun b => b.Cost) =
      some (some 0) ∧
    (0 : ℚ) ≠ 0 * 1.50 + ((20 : Int) : ℚ) * 0.25 ∧
    (storedBooking (CompleteBooking (okEnv 200 "") (demoWorld StatusActive) "b1" "U1"
        { Distance := some (-2), Duration := none }).2 "b1").map (fun b => b.Cost) =
      some (some (-2)) ∧
    (-2 : ℚ) ≠ (-2) * 1.50 := by
  refine ⟨?_, by norm_num, ?_, by norm_num, ?_, by norm_num⟩
  · rw [CompleteBooking_stored (okEnv 200 "") (demoWorld StatusActive) "b1" "U1" _
      (demoBooking StatusActive) rfl rfl rfl rfl]
    simp [patch, completeUpdates, completeCost]
    norm_num
    exact pricing_golden.2.2.1
  · rw [CompleteBooking_stored (okEnv 200 "") (demoWorld StatusActive) "b1" "U1" _
      (demoBooking StatusActive) rfl rfl rfl rfl]
    simp [patch, completeUpdates, completeCost]
  · rw [CompleteBooking_stored (okEnv 200 "") (demoWorld StatusActive) "b1" "U1" _
      (demoBooking StatusActive) rfl rfl rfl rfl]
    simp [patch, completeUpdates, completeCost]
    norm_num [Option.orElse]

/-- Claim C4, amended: for every `CompleteBooking` request with a distance
that is present and positive, on an active booking completed by its owner with
the `UPDATE` not failing, the cost handed to the repository and stored is the
`float64` value of the pricing, each operation rounded to the nearest
`float64`, as long as no result exceeds the largest `float64`: the rounded
product distance * 1.50, to which is added, when the duration is present and
positive, the duration converted to `float64` times 0.25, the sum rounded
again; the rounded product alone when the duration is absent or not positive.
That cost is a `float64`; it is the exact distance * 1.50 + duration * 0.25
whenever the products, the converted duration and the sum are `float64`
values, and in general lies within the relative error `2 ^ (-51)` of it
(`2 ^ (-53)` without a duration), the product being no subnormal. -/
theorem complete_cost_positive_distance (env : Env) (w : World) (id userID : String)
    (req : CompleteBookingRequest) (b : Booking) (d : ℚ)
    (hget : GetByID env.getErr w.rows id = .ok b) (hu : b.UserID = userID)
    (hs : b.Status = StatusActive) (hexec : env.execErr = none)
    (hd : req.Distance = some d) (hpos : 0 < d)
    (hfin : |roundFloat64 (d * 1.50)| ≤ maxFloat64) :
    ∃ b' u, storedBooking (CompleteBooking env w id userID req).2 id = some b' ∧
      updatesSent (CompleteBooking env w id userID req).2.calls =
        updatesSent w.calls ++ [(id, u)] ∧
      u.Cost = b'.Cost ∧
      (∀ m : Int, req.Duration = some m → 0 < m →
        |roundFloat64 (roundFloat64 (d * 1.50) + roundFloat64 (roundFloat64 (m : ℚ) * 0.25))| ≤
          maxFloat64 →
        b'.Cost = some (roundFloat64
          (roundFloat64 (d * 1.50) + roundFloat64 (roundFloat64 (m : ℚ) * 0.25))) ∧
        isFloat64 (roundFloat64
          (roundFloat64 (d * 1.50) + roundFloat64 (roundFloat64 (m : ℚ) * 0.25))) ∧
        (isFloat64 (d * 1.50) → isFloat64 (m : ℚ) → isFloat64 ((m : ℚ) * 0.25) →
          isFloat64 (d * 1.50 + (m : ℚ) * 0.25) →
          b'.Cost = some (d * 1.50 + (m : ℚ) * 0.25)) ∧
        ((2 : ℚ) ^ (-1022 : Int) ≤ d * 1.50 →
          ∃ c, b'.Cost = some c ∧
            |c - (d * 1.50 + (m : ℚ) * 0.25)| ≤ (d * 1.50 + (m : ℚ) * 0.25) / 2 ^ 51)) ∧
      ((req.Duration = none ∨ ∃ m : Int, req.Duration = some m ∧ m ≤ 0) →
        b'.Cost = some (roundFloat64 (d * 1.50)) ∧
        isFloat64 (roundFloat64 (d * 1.50)) ∧
        (isFloat64 (d * 1.50) → b'.Cost = some (d * 1.50)) ∧
        ((2 : ℚ) ^ (-1022 : Int) ≤ d * 1.50 →
          ∃ c, b'.Cost = some c ∧ |c - d * 1.50| ≤ d * 1.50 / 2 ^ 53)) := by
  have hcost : (patch (completeUpdates env req) env.repoNow b).Cost = completeCost req := by
    simp only [patch, completeUpdates]
    unfold completeCost
    simp only [hd, hpos, gt_iff_lt, if_true]
    cases req.Duration with
    | none => rfl
    | some m => by_cases hm : 0 < m <;> simp [hm, Option.orElse]
  refine ⟨_, completeUpdates env req,
    CompleteBooking_stored env w id userID req b hget hu hs hexec, ?_, ?_, ?_, ?_⟩
  · rw [CompleteBooking_of_pre env w id userID req b hget hu hs]
    exact transitionTail_updatesSent _ _ _ _ _ _ _
  · rw [hcost]; rfl
  · intro m hm hmpos hsum
    have hc : completeCost req = some (roundFloat64
        (roundFloat64 (d * 1.50) + roundFloat64 (roundFloat64 (m : ℚ) * 0.25))) := by
      unfold completeCost
      simp [hd, hpos, hm, hmpos]
    rw [hcost, hc]
    refine ⟨rfl, isFloat64_roundFloat64 _ hsum, ?_, ?_⟩
    · intro h1 h2 h3 h4
      rw [pricing_exact d m h1 h2 h3 h4]
    · intro hn
      exact ⟨_, rfl, pricing_error d m hmpos hn⟩
  · intro hm
    have hc : completeCost req = some (roundFloat64 (d * 1.50)) := by
      unfold completeCost
      rcases hm with hm | ⟨m, hm, hmle⟩
      · simp [hd, hpos, hm]
      · simp [hd, hpos, hm, not_lt.mpr hmle]
    have hApos : 0 < d * 1.50 := by norm_num; exact hpos
    rw [hcost, hc]
    refine ⟨rfl, isFloat64_roundFloat64 _ hfin, ?_, ?_⟩
    · intro h1
      rw [roundFloat64_of_isFloat64 _ h1]
    · intro hn
      refine ⟨_, rfl, ?_⟩
      have := roundFloat64_error (d * 1.50) (by rwa [abs_of_pos hApos])
      rwa [abs_of_pos hApos] at this

/-- Claim C4, at samples: distance 8 and duration 4 cost 8 * 1.50 + 4 * 0.25,
which are `float64` values; the distance `float64(0.1)` alone costs the
`float64` nearest to the product, 0.15000000000000002, not the product. -/
theorem complete_cost_positive_distance_witness :
    (∃ b' u, storedBooking (CompleteBooking (okEnv 200 "") (demoWorld StatusActive) "b1" "U1"
        { Distance := some 8, Duration := some 4 }).2 "b1" = some b' ∧
      updatesSent (CompleteBooking (okEnv 200 "") (demoWorld StatusActive) "b1" "U1"
        { Distance := some 8, Duration := some 4 }).2.calls =
        updatesSent (demoWorld StatusActive).calls ++ [("b1", u)] ∧
      u.Cost = b'.Cost ∧ b'.Cost = some (8 * 1.50 + ((4 : Int) : ℚ) * 0.25)) ∧
    (∃ b' u, storedBooking (CompleteBooking (okEnv 200 "") (demoWorld StatusActive) "b1" "U1"
        { Distance := some tenth }).2 "b1" = some b' ∧
      updatesSent (CompleteBooking (okEnv 200 "") (demoWorld StatusActive) "b1" "U1"
        { Distance := some tenth }).2.calls =
        updatesSent (demoWorld StatusActive).calls ++ [("b1", u)] ∧
      u.Cost = b'.Cost ∧ b'.Cost = some (5404319552844596 / 2 ^ 55) ∧
      (5404319552844596 / 2 ^ 55 : ℚ) ≠ tenth * 1.50) := by
  have h12 : roundFloat64 (8 * 1.50) = 12 := by
    rw [show (8 : ℚ) * 1.50 = 12 by norm_num]; exact pricing_golden.2.2.2.1
  have h13 : roundFloat64 (roundFloat64 (8 * 1.50) +
      roundFloat64 (roundFloat64 ((4 : Int) : ℚ) * 0.25)) = 13 := by
    have := pricing_golden.2.2.2.2
    norm_num at this ⊢
    exact this
  constructor
  · obtain ⟨b', u, h1, h2, h3, h4, _⟩ :=
      complete_cost_positive_distance (okEnv 200 "") (demoWorld StatusActive) "b1" "U1"
        { Distance := some 8, Duration := some 4 } (demoBooking StatusActive) 8
        rfl rfl rfl rfl rfl (by norm_num) (by rw [h12]; norm_num [maxFloat64])
    refine ⟨b', u, h1, h2, h3, ?_⟩
    rw [(h4 4 rfl (by decide) (by rw [h13]; norm_num [maxFloat64])).1, h13]
    norm_num
  · obtain ⟨b', u, h1, h2, h3, _, h5⟩ :=
      complete_cost_positive_distance (okEnv 200 "") (demoWorld StatusActive) "b1" "U1"
        { Distance := some tenth } (demoBooking StatusActive) tenth
        rfl rfl rfl rfl rfl (by norm_num [tenth])
        (by rw [roundFloat64_tenth, abs_of_pos (by norm_num)]; norm_num [maxFloat64])
    refine ⟨b', u, h1, h2, h3, ?_, by norm_num [tenth]⟩
    rw [(h5 (Or.inl rfl)).1, roundFloat64_tenth]

/-- Claim C5: on an active booking completed by its owner, the `UPDATE` not
failing, distance 10.0 with duration 20 stores cost 20.0 and distance 5 with
duration 10 stores cost 10.0; and the costs carried by the updates of any two
calls whose requests agree on distance and duration are equal. -/
theorem pricing_golden_values (env : Env) (w : World) (id userID : String) (b : Booking)
    (lat lng : Option ℚ) (addr : Option String)
    (hget : GetByID env.getErr w.rows id = .ok b) (hu : b.UserID = userID)
    (hs : b.Status = StatusActive) (hexec : env.execErr = none) :
    (storedBooking (CompleteBooking env w id userID
        { DropoffLat := lat, DropoffLng := lng, DropoffAddr := addr,
          Distance := some 10, Duration := some 20 }).2 id).map (fun r => r.Cost) =
      some (some 20) ∧
    (storedBooking (CompleteBooking env w id userID
        { DropoffLat := lat, DropoffLng := lng, DropoffAddr := addr,
          Distance := some 5, Duration := some 10 }).2 id).map (fun r => r.Cost) =
      some (some 10) ∧
    (∀ (env₁ env₂ : Env) (w₁ w₂ : World) (id₁ id₂ user₁ user₂ : String)
        (req₁ req₂ : CompleteBookingRequest) (u₁ u₂ : UpdateBookingRequest),
      req₁.Distance = req₂.Distance → req₁.Duration = req₂.Duration →
      updatesSent (CompleteBooking env₁ w₁ id₁ user₁ req₁).2.calls =
        updatesSent w₁.calls ++ [(id₁, u₁)] →
      updatesSent (CompleteBooking env₂ w₂ id₂ user₂ req₂).2.calls =
        updatesSent w₂.calls ++ [(id₂, u₂)] →
      u₁.Cost = u₂.Cost) := by
  refine ⟨?_, ?_, ?_⟩
  · rw [CompleteBooking_stored env w id userID _ b hget hu hs hexec]
    simp [patch, completeUpdates, completeCost]
    norm_num
    exact pricing_golden.1
  · rw [CompleteBooking_stored env w id userID _ b hget hu hs hexec]
    simp [patch, completeUpdates, completeCost]
    norm_num
    exact pricing_golden.2.1
  · intro env₁ env₂ w₁ w₂ id₁ id₂ user₁ user₂ req₁ req₂ u₁ u₂ hd hm h1 h2
    rw [CompleteBooking_updatesSent_inv env₁ w₁ id₁ user₁ req₁ u₁ h1,
      CompleteBooking_updatesSent_inv env₂ w₂ id₂ user₂ req₂ u₂ h2]
    simp only [completeUpdates, completeCost, hd, hm]

/-- Claim C5, at a sample booking. -/
theorem pricing_golden_values_witness :
    (storedBooking (CompleteBooking (okEnv 200 "") (demoWorld StatusActive) "b1" "U1"
        { DropoffLat := none, DropoffLng := none, DropoffAddr := none,
          Distance := some 10, Duration := some 20 }).2 "b1").map (fun r => r.Cost) =
      some (some 20) ∧
    (storedBooking (CompleteBooking (okEnv 200 "") (demoWorld StatusActive) "b1" "U1"
        { DropoffLat := none, DropoffLng := none, DropoffAddr := none,
          Distance := some 5, Duration := some 10 }).2 "b1").map (fun r => r.Cost) =
      some (some 10) :=
  have h := pricing_golden_values (okEnv 200 "") (demoWorld StatusActive) "b1" "U1"
    (demoBooking StatusActive) none none none rfl rfl rfl rfl
  ⟨h.1, h.2.1⟩

/-- Claim C6: a successful `CompleteBooking` was made on an active booking
owned by the caller and handed the repository exactly one update, for this id:
status completed, `end_time` the clock reading, the request's dropoff
latitude, longitude and address, its distance and duration, and the computed
cost; the stored row is the row read, patched with that update. -/
theorem CompleteBooking_update_sent (env : Env) (w : World) (id userID : String)
    (req : CompleteBookingRequest)
    (hok : (CompleteBooking env w id userID req).1 = none) :
    updatesSent (CompleteBooking env w id userID req).2.calls =
      updatesSent w.calls ++
        [(id, { Status := some StatusCompleted, EndTime := some env.now,
                DropoffLat := req.DropoffLat, DropoffLng := req.DropoffLng,
                DropoffAddr := req.DropoffAddr, Distance := req.Distance,
                Duration := req.Duration, Cost := completeCost req })] ∧
    ∃ b, storedBooking w id = some b ∧ b.UserID = userID ∧ b.Status = StatusActive ∧
      storedBooking (CompleteBooking env w id userID req).2 id =
        some { b with
          Status := StatusCompleted
          EndTime := some env.now
          DropoffLat := req.DropoffLat.orElse (fun _ => b.DropoffLat)
          DropoffLng := req.DropoffLng.orElse (fun _ => b.DropoffLng)
          DropoffAddr := req.DropoffAddr.orElse (fun _ => b.DropoffAddr)
          Distance := req.Distance.orElse (fun _ => b.Distance)
          Duration := req.Duration.orElse (fun _ => b.Duration)
          Cost := (completeCost req).orElse (fun _ => b.Cost)
          UpdatedAt := env.repoNow } := by
  rcases CompleteBooking_cases env w id userID req with ⟨b, hg, hu, hs, he⟩ | ⟨hne, _⟩
  · have hb := ((GetByID_ok_iff _ _ _ _).mp hg).2
    have hx : env.execErr = none := by
      rw [he] at hok
      exact ((transitionTail_ok_iff _ _ _ _ _ _ _).mp hok).1
    refine ⟨?_, b, hb, hu, hs, ?_⟩
    · rw [he]; exact transitionTail_updatesSent _ _ _ _ _ _ _
    · rw [CompleteBooking_stored env w id userID req b hg hu hs hx]
      rfl
  · exact absurd hok hne

/-- Claim C6, at a sample: a completion with a dropoff, 10 km and 20 minutes. -/
theorem CompleteBooking_update_sent_witness :
    updatesSent (CompleteBooking (okEnv 200 "") (demoWorld StatusActive) "b1" "U1"
        demoCompletion).2.calls =
      updatesSent (demoWorld StatusActive).calls ++
        [("b1", { Status := some StatusCompleted, EndTime := some 200,
                  DropoffLat := some 1, DropoffLng := some 2,
                  DropoffAddr := some "2 High St", Distance := some 10,
                  Duration := some 20, Cost := completeCost demoCompletion })] :=
  (CompleteBooking_update_sent (okEnv 200 "") (demoWorld StatusActive) "b1" "U1"
    demoCompletion
    (by
      rw [CompleteBooking_of_pre (okEnv 200 "") (demoWorld StatusActive) "b1" "U1" _
        (demoBooking StatusActive) rfl rfl rfl]
      exact (transitionTail_ok_iff _ _ _ _ _ _ _).mpr ⟨rfl, rfl⟩)).1

/-! ## Terminal statuses and the statuses stored -/

/-- The table after `UpdateBooking`: untouched, or patched. -/
theorem UpdateBooking_rows (env : Env) (w : World) (id : String)
    (u : UpdateBookingRequest) :
    (UpdateBooking env w id u).2.rows = w.rows ∨
      (UpdateBooking env w id u).2.rows = patchRows u env.repoNow id w.rows := by
  unfold UpdateBooking
  simp only [logCall]
  cases GetByID env.getErr w.rows id with
  | error e => left; rfl
  | ok b =>
    rcases Update_rows env w.rows id u with h | ⟨_, h⟩
    · left; exact h
    · right; exact h

/-- The table after a transition: untouched, or patched with an update that
sets the status to `t`. -/
theorem StartBooking_rows (env : Env) (w : World) (id userID : String) :
    (StartBooking env w id userID).2.rows = w.rows ∨
      (StartBooking env w id userID).2.rows =
        patchRows { Status := some StatusActive } env.repoNow id w.rows := by
  rcases StartBooking_cases env w id userID with ⟨b, _, _, _, _, he⟩ | ⟨_, he⟩
  · rw [he]
    rcases transitionTail_rows env w id { Status := some StatusActive } _ _ _ with h | ⟨_, h⟩
    · exact Or.inl h
    · exact Or.inr h
  · rw [he]; exact Or.inl rfl

theorem CompleteBooking_rows (env : Env) (w : World) (id userID : String)
    (req : CompleteBookingRequest) :
    (CompleteBooking env w id userID req).2.rows = w.rows ∨
      (CompleteBooking env w id userID req).2.rows =
        patchRows (completeUpdates env req) env.repoNow id w.rows := by
  rcases CompleteBooking_cases env w id userID req with ⟨b, _, _, _, he⟩ | ⟨_, he⟩
  · rw [he]
    rcases transitionTail_rows env w id (completeUpdates env req) _ _ _ with h | ⟨_, h⟩
    · exact Or.inl h
    · exact Or.inr h
  · rw [he]; exact Or.inl rfl

theorem CancelBooking_rows (env : Env) (w : World) (id userID : String) :
    (CancelBooking env w id userID).2.rows = w.rows ∨
      (CancelBooking env w id userID).2.rows =
        patchRows { Status := some StatusCancelled } env.repoNow id w.rows := by
  rcases CancelBooking_cases env w id userID with ⟨b, _, _, _, he⟩ | ⟨_, he⟩
  · rw [he]
    rcases transitionTail_rows env w id { Status := some StatusCancelled } _ _ _ with
      h | ⟨_, h⟩
    · exact Or.inl h
    · exact Or.inr h
  · rw [he]; exact Or.inl rfl

/-- The table after `CreateBooking`: untouched, or one pending booking longer. -/
theorem CreateBooking_rows (env : Env) (w : World) (req : CreateBookingRequest) :
    (CreateBooking env w req).2.rows = w.rows ∨
      ∃ b, b.Status = StatusPending ∧ (CreateBooking env w req).2.rows = w.rows ++ [b] := by
  unfold CreateBooking Create
  simp only [logCall]
  cases env.validateUser req.UserID with
  | some e => left; rfl
  | none =>
    cases env.isVehicleAvailable req.VehicleID req.StartTime with
    | error e => left; rfl
    | ok available =>
      cases available with
      | false => left; rfl
      | true =>
        cases env.execErr with
        | some e => left; rfl
        | none => right; exact ⟨_, rfl, rfl⟩

/-- A status stored for a terminal booking is the same after a transition
on any booking. -/
theorem terminal_kept_aux (w w' : World) (u : UpdateBookingRequest) (t : Time)
    (id j : String) (s : BookingStatus) (hs : storedStatus w j = some s)
    (h : w'.rows = w.rows ∨ (w'.rows = patchRows u t id w.rows ∧
      (j = id → u.Status.getD s = s))) :
    storedStatus w' j = some s := by
  rcases h with h | ⟨h, hk⟩
  · rw [storedStatus_congr w w' h j, hs]
  · rw [storedStatus_patchRows w w' u t id j h, hs]
    by_cases hj : j = id
    · simp [hj, hk hj]
    · simp [hj]

/-- Claim C7, as stated, fails: `UpdateBooking` writes the status its request
carries whatever the stored one is. Booking `b1`, taken to completed by
create, confirmation, start and complete, is pending after an `UpdateBooking`
with status pending. -/
theorem UpdateBooking_leaves_terminal :
    storedStatus (run {} completedOps) "b1" = some StatusCompleted ∧
    storedStatus (UpdateBooking (okEnv 300 "") (run {} completedOps) "b1"
      { Status := some StatusPending }).2 "b1" = some StatusPending := by
  decide

/-- Claim C7, amended: for every booking whose stored status is completed or
cancelled, no call of `StartBooking`, `CompleteBooking` or `CancelBooking`
(on it or on another booking, by anyone) changes its status, and neither does
a call of `UpdateBooking` whose request carries no status. -/
theorem terminal_status_kept (env : Env) (w : World) (id userID : String)
    (req : CompleteBookingRequest) (u : UpdateBookingRequest) (j : String)
    (s : BookingStatus) (hs : storedStatus w j = some s)
    (ht : s = StatusCompleted ∨ s = StatusCancelled) :
    storedStatus (StartBooking env w id userID).2 j = some s ∧
    storedStatus (CompleteBooking env w id userID req).2 j = some s ∧
    storedStatus (CancelBooking env w id userID).2 j = some s ∧
    (u.Status = none → storedStatus (UpdateBooking env w id u).2 j = some s) := by
  have hrow : ∀ b, findRow w.rows j = some b → b.Status = s := by
    intro b hb
    simpa [storedStatus_eq, hb] using hs
  refine ⟨?_, ?_, ?_, ?_⟩
  · rcases StartBooking_cases env w id userID with ⟨b, hg, _, hst, _, he⟩ | ⟨_, he⟩
    · have hb := ((GetByID_ok_iff _ _ _ _).mp hg).2
      have hj : j ≠ id := by
        rintro rfl
        have := hrow b hb
        rw [hst] at this
        rcases ht with h | h <;> (rw [h] at this; exact absurd this (by decide))
      rw [he, transitionTail_status_other env w id _ _ _ _ j hj, hs]
    · rw [he]; exact hs
  · rcases CompleteBooking_cases env w id userID req with ⟨b, hg, _, hst, he⟩ | ⟨_, he⟩
    · have hb := ((GetByID_ok_iff _ _ _ _).mp hg).2
      have hj : j ≠ id := by
        rintro rfl
        have := hrow b hb
        rw [hst] at this
        rcases ht with h | h <;> (rw [h] at this; exact absurd this (by decide))
      rw [he, transitionTail_status_other env w id _ _ _ _ j hj, hs]
    · rw [he]; exact hs
  · rcases CancelBooking_cases env w id userID with ⟨b, hg, _, hst, he⟩ | ⟨_, he⟩
    · have hb := ((GetByID_ok_iff _ _ _ _).mp hg).2
      have hj : j ≠ id := by
        rintro rfl
        exact hst ((hrow b hb).symm ▸ ht)
      rw [he, transitionTail_status_other env w id _ _ _ _ j hj, hs]
    · rw [he]; exact hs
  · intro hu
    refine terminal_kept_aux w _ u env.repoNow id j s hs ?_
    rcases UpdateBooking_rows env w id u with h | h
    · exact Or.inl h
    · exact Or.inr ⟨h, fun _ => by simp [hu]⟩

/-- Claim C7, at a sample: the completed booking `b1` after a cancel by its
owner and after an update of its dropoff address. -/
theorem terminal_status_kept_witness :
    storedStatus (CancelBooking (okEnv 300 "") (run {} completedOps) "b1" "U1").2 "b1" =
      some StatusCompleted ∧
    storedStatus (UpdateBooking (okEnv 300 "") (run {} completedOps) "b1"
      { DropoffAddr := some "2 High St" }).2 "b1" = some StatusCompleted :=
  have h := terminal_status_kept (okEnv 300 "") (run {} completedOps) "b1" "U1" {}
    { DropoffAddr := some "2 High St" } "b1" StatusCompleted (by decide) (Or.inl rfl)
  ⟨h.2.2.1, h.2.2.2 rfl⟩

/-- One operation that writes no status outside the five keeps every stored
status among the five. -/
theorem step_statusListed (w : World) (op : Op) (hop : op.statusListed)
    (hw : ∀ b ∈ w.rows, validStatus b.Status) :
    ∀ b ∈ (step w op).rows, validStatus b.Status := by
  have hpatch : ∀ (u : UpdateBookingRequest) (t : Time) (id : String),
      (∀ s, u.Status = some s → validStatus s) →
      ∀ b ∈ patchRows u t id w.rows, validStatus b.Status := by
    intro u t id hu b hb
    rcases mem_patchRows u t id w.rows b hb with h | ⟨r, hr, rfl⟩
    · exact hw b h
    · rw [patch_Status]
      cases hs : u.Status with
      | none => exact hw r hr
      | some s => exact hu s hs
  have hfive : ∀ t : BookingStatus, validStatus t →
      ∀ (u : UpdateBookingRequest), u.Status = some t →
      ∀ s, u.Status = some s → validStatus s := by
    intro t ht u hu s hs
    rw [hu] at hs
    exact Option.some.inj hs ▸ ht
  intro b hb
  cases op with
  | create env req =>
    rcases CreateBooking_rows env w req with h | ⟨n, hn, h⟩
    · exact hw b (by simpa only [step, h] using hb)
    · simp only [step, h, List.mem_append, List.mem_singleton] at hb
      rcases hb with hb | rfl
      · exact hw b hb
      · rw [hn]; decide
  | update env id u =>
    rcases UpdateBooking_rows env w id u with h | h
    · exact hw b (by simpa only [step, h] using hb)
    · exact hpatch u env.repoNow id hop b (by simpa only [step, h] using hb)
  | start env id userID =>
    rcases StartBooking_rows env w id userID with h | h
    · exact hw b (by simpa only [step, h] using hb)
    · exact hpatch _ env.repoNow id (hfive StatusActive (by decide) _ rfl) b
        (by simpa only [step, h] using hb)
  | complete env id userID req =>
    rcases CompleteBooking_rows env w id userID req with h | h
    · exact hw b (by simpa only [step, h] using hb)
    · exact hpatch _ env.repoNow id (hfive StatusCompleted (by decide) _ rfl) b
        (by simpa only [step, h] using hb)
  | cancel env id userID =>
    rcases CancelBooking_rows env w id userID with h | h
    · exact hw b (by simpa only [step, h] using hb)
    · exact hpatch _ env.repoNow id (hfive StatusCancelled (by decide) _ rfl) b
        (by simpa only [step, h] using hb)

theorem run_statusListed (ops : List Op) :
    ∀ w : World, (∀ op ∈ ops, op.statusListed) → (∀ b ∈ w.rows, validStatus b.Status) →
      ∀ b ∈ (run w ops).rows, validStatus b.Status := by
  induction ops with
  | nil => intro w _ hw; exact hw
  | cons op ops ih =>
    intro w hops hw
    exact ih (step w op) (fun o ho => hops o (List.mem_cons_of_mem _ ho))
      (step_statusListed w op (hops op (List.mem_cons_self _ _)) hw)

/-- Claim C8, as stated, fails: `UpdateBooking` hands the request's status to
the repository unchecked and `Update` stores it. After a create and an update
with the status `archived`, the one stored booking has status `archived`. -/
theorem UpdateBooking_stores_unlisted_status :
    (run {} archivedOps).rows.map (fun b => b.Status) = ["archived"] ∧
    ¬ validStatus "archived" := by
  decide

/-- Claim C8, amended: in every state reached from the empty store through
`CreateBooking`, `StartBooking`, `CompleteBooking`, `CancelBooking` and those
`UpdateBooking` calls whose request carries no status or one of the five,
every stored booking's status is one of pending, confirmed, active, completed,
cancelled. -/
theorem reachable_status_listed (ops : List Op) (hops : ∀ op ∈ ops, op.statusListed) :
    ∀ b ∈ (run {} ops).rows, validStatus b.Status :=
  run_statusListed ops {} hops (fun b hb => absurd hb (List.not_mem_nil b))

/-- The sample run to completed writes no status outside the five. -/
theorem completedOps_statusListed : ∀ op ∈ completedOps, op.statusListed := by
  intro op hop
  simp only [completedOps, List.mem_cons, List.mem_singleton, List.not_mem_nil,
    or_false] at hop
  rcases hop with rfl | rfl | rfl | rfl
  · trivial
  · intro s hs
    rw [← Option.some.inj hs]
    decide
  · trivial
  · trivial

/-- Claim C8, at a sample: the run that takes `b1` to completed, whose one
stored booking has status completed. -/
theorem reachable_status_listed_witness :
    (run {} completedOps).rows.map (fun b => b.Status) = [StatusCompleted] ∧
    validStatus StatusCompleted :=
  ⟨by decide,
    reachable_status_listed completedOps completedOps_statusListed
      { ID := "b1", UserID := "U1", VehicleID := "V1", Status := StatusCompleted,
        StartTime := 100, EndTime := some 200, PickupAddr := "1 Main St",
        UpdatedAt := 200 }
      (by simp [run, step, completedOps, CreateBooking, Create, UpdateBooking, Update,
            StartBooking, CompleteBooking, GetByID, findRow, setParts, execUpdate, assign,
            propagateVehicleStatus, logCall, okEnv, demoRequest, completeCost])⟩

/-! ## Creation -/

/-- Claim C9: when user validation returns an error, or the availability check
returns an error or false, `CreateBooking` returns an error, the table is
unchanged and the repository's `Create` has not been called; and when user
validation returns an error the availability check has not been called. -/
theorem CreateBooking_no_write_on_failed_check (env : Env) (w : World)
    (req : CreateBookingRequest)
    (h : env.validateUser req.UserID ≠ none ∨
      (∃ e, env.isVehicleAvailable req.VehicleID req.StartTime = .error e) ∨
      env.isVehicleAvailable req.VehicleID req.StartTime = .ok false) :
    (∃ e, (CreateBooking env w req).1 = .error e) ∧
    (CreateBooking env w req).2.rows = w.rows ∧
    createsSent (CreateBooking env w req).2.calls = createsSent w.calls ∧
    (env.validateUser req.UserID ≠ none →
      availabilityCalls (CreateBooking env w req).2.calls = availabilityCalls w.calls) := by
  unfold CreateBooking
  simp only [logCall]
  cases hv : env.validateUser req.UserID with
  | some e =>
    simp [createsSent, availabilityCalls, List.filterMap_append]
  | none =>
    simp only [hv, ne_eq, not_true_eq_false, false_or] at h
    rcases h with ⟨e, he⟩ | he
    · simp [he, createsSent, List.filterMap_append]
    · simp [he, createsSent, List.filterMap_append]

/-- Claim C9, at a sample: the vehicle service answers that the vehicle is
taken. -/
theorem CreateBooking_no_write_on_failed_check_witness :
    (∃ e, (CreateBooking { okEnv 0 "b1" with isVehicleAvailable := fun _ _ => .ok false }
      {} demoRequest).1 = .error e) ∧
    (CreateBooking { okEnv 0 "b1" with isVehicleAvailable := fun _ _ => .ok false }
      {} demoRequest).2.rows = [] :=
  have h := CreateBooking_no_write_on_failed_check
    { okEnv 0 "b1" with isVehicleAvailable := fun _ _ => .ok false } {} demoRequest
    (Or.inr (Or.inr rfl))
  ⟨h.1, h.2.1⟩

/-- Claim C10: when user validation passes, the vehicle is available and the
`INSERT` does not fail, `CreateBooking` hands the repository one booking with
status pending, the request's user id, vehicle id, start time, pickup and
dropoff fields, and `end_time`, distance, duration and cost unset; what it
returns, and what is appended to the table, is that booking with the id and
the two timestamps the repository filled in. -/
theorem CreateBooking_persists_pending (env : Env) (w : World)
    (req : CreateBookingRequest) (hv : env.validateUser req.UserID = none)
    (ha : env.isVehicleAvailable req.VehicleID req.StartTime = .ok true)
    (hx : env.execErr = none) :
    ∃ handed stored : Booking,
      createsSent (CreateBooking env w req).2.calls = createsSent w.calls ++ [handed] ∧
      (CreateBooking env w req).1 = .ok stored ∧
      (CreateBooking env w req).2.rows = w.rows ++ [stored] ∧
      stored = { handed with
        ID := env.newID, CreatedAt := env.repoNow, UpdatedAt := env.repoNow2 } ∧
      handed.Status = StatusPending ∧
      handed.UserID = req.UserID ∧ handed.VehicleID = req.VehicleID ∧
      handed.StartTime = req.StartTime ∧
      handed.PickupLat = req.PickupLat ∧ handed.PickupLng = req.PickupLng ∧
      handed.PickupAddr = req.PickupAddr ∧
      handed.DropoffLat = req.DropoffLat ∧ handed.DropoffLng = req.DropoffLng ∧
      handed.DropoffAddr = req.DropoffAddr ∧
      handed.EndTime = none ∧ handed.Distance = none ∧ handed.Duration = none ∧
      handed.Cost = none := by
  refine ⟨{ UserID := req.UserID, VehicleID := req.VehicleID, Status := StatusPending,
            StartTime := req.StartTime, PickupLat := req.PickupLat,
            PickupLng := req.PickupLng, PickupAddr := req.PickupAddr,
            DropoffLat := req.DropoffLat, DropoffLng := req.DropoffLng,
            DropoffAddr := req.DropoffAddr }, _, ?_, ?_, ?_, rfl, rfl, rfl, rfl, rfl, rfl,
          rfl, rfl, rfl, rfl, rfl, rfl, rfl, rfl, rfl⟩
  · unfold CreateBooking Create
    simp [logCall, hv, ha, hx, createsSent, List.filterMap_append]
  · unfold CreateBooking Create
    simp [logCall, hv, ha, hx]
  · unfold CreateBooking Create
    simp [logCall, hv, ha, hx]

/-- Claim C10, at a sample: the first booking of an empty store. -/
theorem CreateBooking_persists_pending_witness :
    ∃ handed stored : Booking,
      createsSent (CreateBooking (okEnv 0 "b1") {} demoRequest).2.calls = [handed] ∧
      (CreateBooking (okEnv 0 "b1") {} demoRequest).1 = .ok stored ∧
      (CreateBooking (okEnv 0 "b1") {} demoRequest).2.rows = [stored] ∧
      handed.Status = StatusPending ∧ stored.Status = StatusPending ∧
      stored.ID = "b1" := by
  obtain ⟨handed, stored, h1, h2, h3, h4, h5, _⟩ :=
    CreateBooking_persists_pending (okEnv 0 "b1") {} demoRequest rfl rfl rfl
  exact ⟨handed, stored, h1, h2, h3, h5, by rw [h4]; exact h5, by rw [h4]; rfl⟩

/-! ## The vehicle service -/

theorem propagateVehicleStatus_vehicleStatusCalls (env : Env) (w : World) (v s : String) :
    vehicleStatusCalls (propagateVehicleStatus env w v s).2.calls =
      vehicleStatusCalls w.calls ++ [(v, s)] := by
  unfold propagateVehicleStatus
  cases env.updateVehicleStatus v s <;>
    simp [logCall, vehicleStatusCalls, List.filterMap_append]

/-- The outcome and the table of a transition's tail do not depend on the
answer of the vehicle service. -/
theorem transitionTail_adapter (env : Env) (f : String → String → Option String)
    (w : World) (id : String) (u : UpdateBookingRequest) (m v s : String) :
    (transitionTail { env with updateVehicleStatus := f } w id u m v s).1 =
        (transitionTail env w id u m v s).1 ∧
      (transitionTail { env with updateVehicleStatus := f } w id u m v s).2.rows =
        (transitionTail env w id u m v s).2.rows := by
  unfold transitionTail
  cases env.execErr with
  | some e => exact ⟨rfl, rfl⟩
  | none =>
    cases env.reGetErr with
    | some e => exact ⟨rfl, rfl⟩
    | none => simp only [propagateVehicleStatus_fst, propagateVehicleStatus_rows, and_self]

theorem StartBooking_adapter (env : Env) (f : String → String → Option String)
    (w : World) (id userID : String) :
    (StartBooking { env with updateVehicleStatus := f } w id userID).1 =
        (StartBooking env w id userID).1 ∧
      (StartBooking { env with updateVehicleStatus := f } w id userID).2.rows =
        (StartBooking env w id userID).2.rows := by
  by_cases h : ∃ b, GetByID env.getErr w.rows id = .ok b ∧
      (b.UserID = userID ∧ b.Status = StatusConfirmed ∧ ¬ env.now < b.StartTime)
  · obtain ⟨b, hg, hu, hs, ht⟩ := h
    rw [StartBooking_of_pre env w id userID b hg hu hs ht,
      StartBooking_of_pre { env with updateVehicleStatus := f } w id userID b hg hu hs ht]
    exact transitionTail_adapter env f w id _ _ _ _
  · unfold StartBooking
    simp only [logCall]
    cases hg : GetByID env.getErr w.rows id with
    | error e => exact ⟨rfl, rfl⟩
    | ok b =>
      have := fun hp => h ⟨b, hg, hp⟩
      simp only
      split_ifs with h1 h2 h3 <;> first | exact ⟨rfl, rfl⟩ | simp_all

theorem CompleteBooking_adapter (env : Env) (f : String → String → Option String)
    (w : World) (id userID : String) (req : CompleteBookingRequest) :
    (CompleteBooking { env with updateVehicleStatus := f } w id userID req).1 =
        (CompleteBooking env w id userID req).1 ∧
      (CompleteBooking { env with updateVehicleStatus := f } w id userID req).2.rows =
        (CompleteBooking env w id userID req).2.rows := by
  by_cases h : ∃ b, GetByID env.getErr w.rows id = .ok b ∧
      (b.UserID = userID ∧ b.Status = StatusActive)
  · obtain ⟨b, hg, hu, hs⟩ := h
    rw [CompleteBooking_of_pre env w id userID req b hg hu hs,
      CompleteBooking_of_pre { env with updateVehicleStatus := f } w id userID req b hg hu hs]
    exact transitionTail_adapter env f w id _ _ _ _
  · unfold CompleteBooking
    simp only [logCall]
    cases hg : GetByID env.getErr w.rows id with
    | error e => exact ⟨rfl, rfl⟩
    | ok b =>
      have := fun hp => h ⟨b, hg, hp⟩
      simp only
      split_ifs with h1 h2 <;> first | exact ⟨rfl, rfl⟩ | simp_all

theorem CancelBooking_adapter (env : Env) (f : String → String → Option String)
    (w : World) (id userID : String) :
    (CancelBooking { env with updateVehicleStatus := f } w id userID).1 =
        (CancelBooking env w id userID).1 ∧
      (CancelBooking { env with updateVehicleStatus := f } w id userID).2.rows =
        (CancelBooking env w id userID).2.rows := by
  by_cases h : ∃ b, GetByID env.getErr w.rows id = .ok b ∧
      (b.UserID = userID ∧ ¬ (b.Status = StatusCompleted ∨ b.Status = StatusCancelled))
  · obtain ⟨b, hg, hu, hs⟩ := h
    rw [CancelBooking_of_pre env w id userID b hg hu hs,
      CancelBooking_of_pre { env with updateVehicleStatus := f } w id userID b hg hu hs]
    exact transitionTail_adapter env f w id _ _ _ _
  · unfold CancelBooking
    simp only [logCall]
    cases hg : GetByID env.getErr w.rows id with
    | error e => exact ⟨rfl, rfl⟩
    | ok b =>
      have := fun hp => h ⟨b, hg, hp⟩
      simp only
      split_ifs with h1 h2 <;> first | exact ⟨rfl, rfl⟩ | simp_all

/-- Claim C11: `CreateBooking` never calls `UpdateVehicleStatus`, whatever the
request and the outcome; neither does `UpdateBooking`. Of the operations that
change the store only `StartBooking`, `CompleteBooking` and `CancelBooking`
reach the vehicle service's status. -/
theorem CreateBooking_leaves_vehicle_status (env : Env) (w : World)
    (req : CreateBookingRequest) (id : String) (u : UpdateBookingRequest) :
    vehicleStatusCalls (CreateBooking env w req).2.calls = vehicleStatusCalls w.calls ∧
    vehicleStatusCalls (UpdateBooking env w id u).2.calls = vehicleStatusCalls w.calls := by
  constructor
  · unfold CreateBooking Create
    simp only [logCall]
    cases env.validateUser req.UserID with
    | some e => simp [vehicleStatusCalls, List.filterMap_append]
    | none =>
      cases env.isVehicleAvailable req.VehicleID req.StartTime with
      | error e => simp [vehicleStatusCalls, List.filterMap_append]
      | ok available =>
        cases available with
        | false => simp [vehicleStatusCalls, List.filterMap_append]
        | true =>
          cases env.execErr <;> simp [vehicleStatusCalls, List.filterMap_append]
  · unfold UpdateBooking
    simp only [logCall]
    cases GetByID env.getErr w.rows id <;>
      simp [vehicleStatusCalls, List.filterMap_append]

/-- Claim C12: for `StartBooking`, `CompleteBooking` and `CancelBooking`, when
the preconditions hold and the store update succeeds, the call returns success
and the stored status is the new one (active, completed, cancelled) whatever
`UpdateVehicleStatus` answers; and for every answer `f` of the vehicle
service, the result and the table are those obtained with any other answer. -/
theorem vehicle_failure_not_propagated (env : Env) (w : World) (id userID : String)
    (req : CompleteBookingRequest) (b : Booking)
    (hget : GetByID env.getErr w.rows id = .ok b) (hu : b.UserID = userID)
    (hexec : env.execErr = none) (hre : env.reGetErr = none) :
    (b.Status = StatusConfirmed → b.StartTime ≤ env.now →
      (StartBooking env w id userID).1 = none ∧
        storedStatus (StartBooking env w id userID).2 id = some StatusActive) ∧
    (b.Status = StatusActive →
      (CompleteBooking env w id userID req).1 = none ∧
        storedStatus (CompleteBooking env w id userID req).2 id = some StatusCompleted) ∧
    (b.Status ≠ StatusCompleted → b.Status ≠ StatusCancelled →
      (CancelBooking env w id userID).1 = none ∧
        storedStatus (CancelBooking env w id userID).2 id = some StatusCancelled) ∧
    (∀ f : String → String → Option String,
      ((StartBooking { env with updateVehicleStatus := f } w id userID).1 =
          (StartBooking env w id userID).1 ∧
        (StartBooking { env with updateVehicleStatus := f } w id userID).2.rows =
          (StartBooking env w id userID).2.rows) ∧
      ((CompleteBooking { env with updateVehicleStatus := f } w id userID req).1 =
          (CompleteBooking env w id userID req).1 ∧
        (CompleteBooking { env with updateVehicleStatus := f } w id userID req).2.rows =
          (CompleteBooking env w id userID req).2.rows) ∧
      ((CancelBooking { env with updateVehicleStatus := f } w id userID).1 =
          (CancelBooking env w id userID).1 ∧
        (CancelBooking { env with updateVehicleStatus := f } w id userID).2.rows =
          (CancelBooking env w id userID).2.rows)) := by
  have hb := ((GetByID_ok_iff _ _ _ _).mp hget).2
  refine ⟨?_, ?_, ?_, fun f => ⟨StartBooking_adapter env f w id userID,
    CompleteBooking_adapter env f w id userID req, CancelBooking_adapter env f w id userID⟩⟩
  · intro hs ht
    rw [StartBooking_of_pre env w id userID b hget hu hs (not_lt.mpr ht)]
    exact ⟨(transitionTail_ok_iff _ _ _ _ _ _ _).mpr ⟨hexec, hre⟩,
      transitionTail_status_of_exec env w id _ _ _ _ StatusActive b rfl hb hexec⟩
  · intro hs
    rw [CompleteBooking_of_pre env w id userID req b hget hu hs]
    exact ⟨(transitionTail_ok_iff _ _ _ _ _ _ _).mpr ⟨hexec, hre⟩,
      transitionTail_status_of_exec env w id _ _ _ _ StatusCompleted b rfl hb hexec⟩
  · intro h1 h2
    rw [CancelBooking_of_pre env w id userID b hget hu (by
      rintro (h | h)
      · exact h1 h
      · exact h2 h)]
    exact ⟨(transitionTail_ok_iff _ _ _ _ _ _ _).mpr ⟨hexec, hre⟩,
      transitionTail_status_of_exec env w id _ _ _ _ StatusCancelled b rfl hb hexec⟩

/-- Claim C12, at a sample: a confirmed booking started while the vehicle
service answers every call with an error. -/
theorem vehicle_failure_not_propagated_witness :
    (StartBooking failingVehicleEnv (demoWorld StatusConfirmed) "b1" "U1").1 = none ∧
    storedStatus (StartBooking failingVehicleEnv (demoWorld StatusConfirmed) "b1" "U1").2
      "b1" = some StatusActive :=
  (vehicle_failure_not_propagated failingVehicleEnv (demoWorld StatusConfirmed) "b1" "U1" {}
    (demoBooking StatusConfirmed) rfl rfl rfl rfl).1 rfl (by decide)

/-! ## Fields no update writes -/

theorem assign_createdFields (u : UpdateBookingRequest) (t : Time) (b : Booking)
    (c : Column) : createdFields (assign u t b c) = createdFields b := by
  cases c <;> simp only [assign] <;> first | rfl | (split <;> rfl)

theorem patchRows_createdFields (u : UpdateBookingRequest) (t : Time) (id : String)
    (rows : List Booking) :
    (patchRows u t id rows).map createdFields = rows.map createdFields := by
  unfold patchRows
  rw [List.map_map]
  apply List.map_congr_left
  intro b _
  simp only [Function.comp]
  split <;> rfl

theorem findRow_createdFields (rows rows' : List Booking)
    (h : rows'.map createdFields = rows.map createdFields) (j : String) :
    (findRow rows' j).map createdFields = (findRow rows j).map createdFields := by
  induction rows generalizing rows' with
  | nil =>
    cases rows' with
    | nil => rfl
    | cons r' rs' => simp at h
  | cons r rs ih =>
    cases rows' with
    | nil => simp at h
    | cons r' rs' =>
      simp only [List.map_cons, List.cons.injEq] at h
      have hid : r'.ID = r.ID := congrArg (fun p => p.1) h.1
      unfold findRow at ih ⊢
      simp only [List.find?_cons, hid]
      cases (r.ID == j)
      · exact ih rs' h.2
      · simp only [Option.map_some', h.1]

/-- One operation other than a creation writes none of the created fields. -/
theorem step_createdFields (w : World) (op : Op) (hop : op.isCreate = false) :
    (step w op).rows.map createdFields = w.rows.map createdFields := by
  cases op with
  | create env req => simp [Op.isCreate] at hop
  | update env id u =>
    rcases UpdateBooking_rows env w id u with h | h <;>
      simp only [step, h, patchRows_createdFields]
  | start env id userID =>
    rcases StartBooking_rows env w id userID with h | h <;>
      simp only [step, h, patchRows_createdFields]
  | complete env id userID req =>
    rcases CompleteBooking_rows env w id userID req with h | h <;>
      simp only [step, h, patchRows_createdFields]
  | cancel env id userID =>
    rcases CancelBooking_rows env w id userID with h | h <;>
      simp only [step, h, patchRows_createdFields]

theorem run_createdFields (ops : List Op) :
    ∀ w : World, (∀ op ∈ ops, op.isCreate = false) →
      (run w ops).rows.map createdFields = w.rows.map createdFields := by
  induction ops with
  | nil => intro w _; rfl
  | cons op ops ih =>
    intro w hops
    have h1 := ih (step w op) (fun o ho => hops o (List.mem_cons_of_mem _ ho))
    have h2 := step_createdFields w op (hops op (List.mem_cons_self _ _))
    simpa only [run, List.foldl_cons, h2] using h1

/-- Any operation keeps the created fields of the rows there and may add rows
at the end. -/
theorem step_createdFields_append (w : World) (op : Op) :
    ∃ created, (step w op).rows.map createdFields = w.rows.map createdFields ++ created := by
  cases hc : op.isCreate with
  | false => exact ⟨[], by rw [step_createdFields w op hc, List.append_nil]⟩
  | true =>
    cases op with
    | create env req =>
      rcases CreateBooking_rows env w req with h | ⟨b, _, h⟩
      · exact ⟨[], by simp only [step, h, List.append_nil]⟩
      · exact ⟨[createdFields b], by simp only [step, h, List.map_append, List.map_cons,
          List.map_nil]⟩
    | update env id u => simp [Op.isCreate] at hc
    | start env id userID => simp [Op.isCreate] at hc
    | complete env id userID req => simp [Op.isCreate] at hc
    | cancel env id userID => simp [Op.isCreate] at hc

theorem run_createdFields_append (ops : List Op) :
    ∀ w : World, ∃ created,
      (run w ops).rows.map createdFields = w.rows.map createdFields ++ created := by
  induction ops with
  | nil => intro w; exact ⟨[], by simp [run]⟩
  | cons op ops ih =>
    intro w
    obtain ⟨c1, h1⟩ := step_createdFields_append w op
    obtain ⟨c2, h2⟩ := ih (step w op)
    exact ⟨c1 ++ c2, by
      simp only [run, List.foldl_cons] at h2 ⊢
      rw [h2, h1, List.append_assoc]⟩

/-- Claim C13: no assignment of the `SET` clause of `Update` writes the id,
`user_id`, `vehicle_id`, `start_time` or a pickup field, so for every
`UpdateBookingRequest` the repository's `Update` leaves these fields of every
row as they are; after any sequence of `UpdateBooking`, `StartBooking`,
`CompleteBooking` and `CancelBooking` calls every row, and the booking read
under any id, has the fields it had before, the `user_id` among them; and
with `CreateBooking` calls in the sequence the rows there before keep them,
new rows coming after. -/
theorem created_fields_immutable (env : Env) (w : World) (id : String)
    (u : UpdateBookingRequest) :
    (∀ (t : Time) (b : Booking) (c : Column),
      createdFields (assign u t b c) = createdFields b) ∧
    (Update env w.rows id u).2.map createdFields = w.rows.map createdFields ∧
    (∀ ops : List Op, (∀ op ∈ ops, op.isCreate = false) →
      (run w ops).rows.map createdFields = w.rows.map createdFields ∧
      ∀ j, (storedBooking (run w ops) j).map (fun b => b.UserID) =
        (storedBooking w j).map (fun b => b.UserID)) ∧
    (∀ ops : List Op, ∃ created,
      (run w ops).rows.map createdFields = w.rows.map createdFields ++ created) := by
  refine ⟨fun t b c => assign_createdFields u t b c, ?_, ?_,
    fun ops => run_createdFields_append ops w⟩
  · rcases Update_rows env w.rows id u with h | ⟨_, h⟩
    · rw [h]
    · rw [h, patchRows_createdFields]
  · intro ops hops
    have h := run_createdFields ops w hops
    refine ⟨h, fun j => ?_⟩
    have hf := findRow_createdFields w.rows (run w ops).rows h j
    unfold storedBooking
    cases h1 : findRow (run w ops).rows j <;> cases h2 : findRow w.rows j <;>
      simp only [h1, h2, Option.map_some', Option.map_none', Option.some.injEq] at hf ⊢
    · exact absurd hf (by simp)
    · exact absurd hf (by simp)
    · exact congrArg (fun p => p.2.1) hf

/-- Claim C13, at a sample: booking `b1` of user `U1` after confirmation,
start and completion. -/
theorem created_fields_immutable_witness :
    (run (demoWorld StatusPending) lifecycleOps).rows.map createdFields =
      (demoWorld StatusPending).rows.map createdFields ∧
    (storedBooking (run (demoWorld StatusPending) lifecycleOps) "b1").map
      (fun b => b.UserID) = some "U1" :=
  have h := (created_fields_immutable (okEnv 0 "") (demoWorld StatusPending) "b1" {}).2.2.1
    lifecycleOps (by decide)
  ⟨h.1, (h.2 "b1").trans (by decide)⟩

/-! ## Completion fields -/

theorem findRow_some (rows : List Booking) (id : String) (b : Booking)
    (h : findRow rows id = some b) : b ∈ rows ∧ b.ID = id := by
  unfold findRow at h
  exact ⟨List.mem_of_find?_eq_some h, by simpa using List.find?_some h⟩

theorem mem_patchRows_iff (u : UpdateBookingRequest) (t : Time) (id : String)
    (rows : List Booking) (b : Booking) :
    b ∈ patchRows u t id rows ↔
      ∃ r ∈ rows, b = if r.ID = id then patch u t r else r := by
  unfold patchRows
  simp only [List.mem_map, beq_iff_eq]
  constructor
  · rintro ⟨r, hr, rfl⟩; exact ⟨r, hr, rfl⟩
  · rintro ⟨r, hr, rfl⟩; exact ⟨r, hr, rfl⟩

/-- The state kept along a guarded run: the completion fields are unset
unless the status is completed, and no two rows share an id. -/
theorem patchRows_keeps (u : UpdateBookingRequest) (t : Time) (id : String)
    (rows : List Booking)
    (hI : ∀ r ∈ rows, unsetUntilCompleted r)
    (hJ : ∀ r₁ ∈ rows, ∀ r₂ ∈ rows, r₁.ID = r₂.ID → r₁ = r₂)
    (hp : ∀ r ∈ rows, r.ID = id → unsetUntilCompleted (patch u t r)) :
    (∀ r ∈ patchRows u t id rows, unsetUntilCompleted r) ∧
      (∀ r₁ ∈ patchRows u t id rows, ∀ r₂ ∈ patchRows u t id rows,
        r₁.ID = r₂.ID → r₁ = r₂) := by
  have hid : ∀ r : Booking, (if r.ID = id then patch u t r else r).ID = r.ID := by
    intro r; split <;> rfl
  constructor
  · intro r hr
    obtain ⟨r0, hr0, rfl⟩ := (mem_patchRows_iff u t id rows r).mp hr
    by_cases h : r0.ID = id
    · simpa only [h, if_true] using hp r0 hr0 h
    · simpa only [h, if_false] using hI r0 hr0
  · intro r₁ h₁ r₂ h₂ he
    obtain ⟨a, ha, rfl⟩ := (mem_patchRows_iff u t id rows r₁).mp h₁
    obtain ⟨b, hb, rfl⟩ := (mem_patchRows_iff u t id rows r₂).mp h₂
    rw [hid, hid] at he
    rw [hJ a ha b hb he]

/-- What `CreateBooking` appends, when it appends. -/
theorem CreateBooking_rows_new (env : Env) (w : World) (req : CreateBookingRequest) :
    (CreateBooking env w req).2.rows = w.rows ∨
      ∃ b, b.ID = env.newID ∧ b.Status = StatusPending ∧ b.EndTime = none ∧
        b.Distance = none ∧ b.Duration = none ∧ b.Cost = none ∧
        (CreateBooking env w req).2.rows = w.rows ++ [b] := by
  unfold CreateBooking Create
  simp only [logCall]
  cases env.validateUser req.UserID with
  | some e => left; rfl
  | none =>
    cases env.isVehicleAvailable req.VehicleID req.StartTime with
    | error e => left; rfl
    | ok available =>
      cases available with
      | false => left; rfl
      | true =>
        cases env.execErr with
        | some e => left; rfl
        | none => right; exact ⟨_, rfl, rfl, rfl, rfl, rfl, rfl, rfl⟩

/-- A patch that names none of the completion fields keeps them. -/
theorem patch_keeps_unset (u : UpdateBookingRequest) (t : Time) (r : Booking)
    (h1 : u.EndTime = none) (h2 : u.Distance = none) (h3 : u.Duration = none)
    (h4 : u.Cost = none)
    (hr : r.EndTime = none ∧ r.Distance = none ∧ r.Duration = none ∧ r.Cost = none) :
    (patch u t r).EndTime = none ∧ (patch u t r).Distance = none ∧
      (patch u t r).Duration = none ∧ (patch u t r).Cost = none := by
  simp only [patch, h1, h2, h3, h4, Option.orElse]
  exact hr

/-- One guarded operation keeps the state of `patchRows_keeps`. -/
theorem step_keepsUnset (w : World) (op : Op) (hop : op.keepsUnset w)
    (hI : ∀ r ∈ w.rows, unsetUntilCompleted r)
    (hJ : ∀ r₁ ∈ w.rows, ∀ r₂ ∈ w.rows, r₁.ID = r₂.ID → r₁ = r₂) :
    (∀ r ∈ (step w op).rows, unsetUntilCompleted r) ∧
      (∀ r₁ ∈ (step w op).rows, ∀ r₂ ∈ (step w op).rows, r₁.ID = r₂.ID → r₁ = r₂) := by
  have hsame : ∀ rows' : List Booking, rows' = w.rows →
      (∀ r ∈ rows', unsetUntilCompleted r) ∧
        (∀ r₁ ∈ rows', ∀ r₂ ∈ rows', r₁.ID = r₂.ID → r₁ = r₂) := by
    intro rows' h; rw [h]; exact ⟨hI, hJ⟩
  have hstatus : ∀ (b : Booking) (id : String) (u : UpdateBookingRequest) (t : Time)
      (s : BookingStatus), findRow w.rows id = some b → b.Status ≠ StatusCompleted →
      u = { Status := some s } →
      ∀ r ∈ w.rows, r.ID = id → unsetUntilCompleted (patch u t r) := by
    intro b id u t s hb hs hu r hr hrid _
    have hbr : r = b := hJ r hr b (findRow_some _ _ _ hb).1
      (hrid.trans (findRow_some _ _ _ hb).2.symm)
    subst hu
    exact patch_keeps_unset _ t r rfl rfl rfl rfl (hI r hr (hbr ▸ hs))
  cases op with
  | create env req =>
    rcases CreateBooking_rows_new env w req with h | ⟨b, hid, hs, h1, h2, h3, h4, h⟩
    · exact hsame _ h
    · simp only [step, h]
      constructor
      · intro r hr
        rcases List.mem_append.mp hr with hr | hr
        · exact hI r hr
        · rw [List.mem_singleton.mp hr]
          exact fun _ => ⟨h1, h2, h3, h4⟩
      · intro r₁ h₁ r₂ h₂ he
        rcases List.mem_append.mp h₁ with h₁ | h₁ <;>
          rcases List.mem_append.mp h₂ with h₂ | h₂
        · exact hJ r₁ h₁ r₂ h₂ he
        · rw [List.mem_singleton.mp h₂, hid] at he
          exact absurd he (hop r₁ h₁)
        · rw [List.mem_singleton.mp h₁, hid] at he
          exact absurd he.symm (hop r₂ h₂)
        · rw [List.mem_singleton.mp h₁, List.mem_singleton.mp h₂]
  | update env id u =>
    obtain ⟨g1, g2, g3, g4, g5⟩ := hop
    rcases UpdateBooking_rows env w id u with h | h
    · exact hsame _ h
    · simp only [step, h]
      refine patchRows_keeps u env.repoNow id w.rows hI hJ ?_
      intro r hr hrid hne
      rw [patch_Status] at hne
      refine patch_keeps_unset u _ r g1 g2 g3 g4 (hI r hr ?_)
      cases hs : u.Status with
      | none => simpa [hs] using hne
      | some s =>
        have : s ≠ StatusCompleted := by simpa [hs] using hne
        exact g5 s hs this r hr hrid
  | start env id userID =>
    rcases StartBooking_cases env w id userID with ⟨b, hg, _, hs, _, he⟩ | ⟨_, he⟩
    · have hb := ((GetByID_ok_iff _ _ _ _).mp hg).2
      rcases transitionTail_rows env w id { Status := some StatusActive }
        "failed to start booking: " b.VehicleID "in_use" with h | ⟨_, h⟩
      · exact hsame _ (by simp only [step, he, h])
      · simp only [step, he, h]
        exact patchRows_keeps _ env.repoNow id w.rows hI hJ
          (hstatus b id _ env.repoNow StatusActive hb (by rw [hs]; decide) rfl)
    · exact hsame _ (by simp only [step, he]; rfl)
  | complete env id userID req =>
    rcases CompleteBooking_cases env w id userID req with ⟨b, hg, _, hs, he⟩ | ⟨_, he⟩
    · rcases transitionTail_rows env w id (completeUpdates env req)
        "failed to complete booking: " b.VehicleID "available" with h | ⟨_, h⟩
      · exact hsame _ (by simp only [step, he, h])
      · simp only [step, he, h]
        exact patchRows_keeps _ env.repoNow id w.rows hI hJ
          (fun r _ _ hne => absurd rfl hne)
    · exact hsame _ (by simp only [step, he]; rfl)
  | cancel env id userID =>
    rcases CancelBooking_cases env w id userID with ⟨b, hg, _, hs, he⟩ | ⟨_, he⟩
    · have hb := ((GetByID_ok_iff _ _ _ _).mp hg).2
      rcases transitionTail_rows env w id { Status := some StatusCancelled }
        "failed to cancel booking: " b.VehicleID "available" with h | ⟨_, h⟩
      · exact hsame _ (by simp only [step, he, h])
      · simp only [step, he, h]
        exact patchRows_keeps _ env.repoNow id w.rows hI hJ
          (hstatus b id _ env.repoNow StatusCancelled hb (fun e => hs (Or.inl e)) rfl)
    · exact hsame _ (by simp only [step, he]; rfl)

theorem run_keepsUnset (ops : List Op) :
    ∀ w : World, guardedRun w ops → (∀ r ∈ w.rows, unsetUntilCompleted r) →
      (∀ r₁ ∈ w.rows, ∀ r₂ ∈ w.rows, r₁.ID = r₂.ID → r₁ = r₂) →
      ∀ r ∈ (run w ops).rows, unsetUntilCompleted r := by
  induction ops with
  | nil => intro w _ hI _; exact hI
  | cons op ops ih =>
    intro w hg hI hJ
    have h := step_keepsUnset w op hg.1 hI hJ
    exact ih (step w op) hg.2 h.1 h.2

/-- Claim C14, as stated, fails: `UpdateBooking` writes any field of its
request whatever the status. After a create and an update with cost 5 the
pending booking has a cost; and the completed booking of `completedOps`, reset
to pending by an update, keeps its end time. -/
theorem UpdateBooking_sets_completion_fields :
    (run {} costOps).rows.map (fun b => (b.Status, b.Cost)) = [(StatusPending, some 5)] ∧
    (run {} reopenedOps).rows.map (fun b => (b.Status, b.EndTime)) =
      [(StatusPending, some 200)] := by
  constructor
  · simp [run, step, costOps, CreateBooking, Create, UpdateBooking, Update, GetByID, findRow,
      setParts, execUpdate, assign, logCall, okEnv, demoRequest]
  · decide

/-- Claim C14, amended: in every state reached from the empty store through
`CreateBooking` calls that draw a fresh id, `StartBooking`, `CompleteBooking`,
`CancelBooking`, and `UpdateBooking` calls whose request names none of
`end_time`, `distance`, `duration`, `cost` and gives no status other than
completed to a booking stored as completed, every booking whose status is not
completed has `end_time`, `distance`, `duration` and `cost` unset. -/
theorem reachable_unset_until_completed (ops : List Op) (hops : guardedRun {} ops) :
    ∀ b ∈ (run {} ops).rows,
      b.Status ≠ StatusCompleted →
        b.EndTime = none ∧ b.Distance = none ∧ b.Duration = none ∧ b.Cost = none :=
  run_keepsUnset ops {} hops (fun r hr => absurd hr (List.not_mem_nil r))
    (fun r hr => absurd hr (List.not_mem_nil r))

/-- The sample run to active is guarded. -/
theorem startedOps_guarded : guardedRun {} startedOps := by
  simp [guardedRun, startedOps, Op.keepsUnset, step, CreateBooking, Create, logCall, okEnv,
    demoRequest, UpdateBooking, Update, GetByID, findRow, setParts, execUpdate, assign]
  decide

/-- The sample run to active leaves the one row `startedBooking`. -/
theorem startedOps_rows : (run {} startedOps).rows = [startedBooking] := by
  simp [run, step, startedOps, startedBooking, CreateBooking, Create, UpdateBooking, Update,
    StartBooking, GetByID, findRow, setParts, execUpdate, assign, propagateVehicleStatus,
    logCall, okEnv, demoRequest]

/-- Claim C14, at a sample: the active booking of `startedOps`. -/
theorem reachable_unset_until_completed_witness :
    guardedRun {} startedOps ∧ startedBooking ∈ (run {} startedOps).rows ∧
    startedBooking.Status ≠ StatusCompleted ∧
    (startedBooking.EndTime = none ∧ startedBooking.Distance = none ∧
      startedBooking.Duration = none ∧ startedBooking.Cost = none) :=
  ⟨startedOps_guarded, by rw [startedOps_rows]; exact List.mem_singleton.mpr rfl, by decide,
    reachable_unset_until_completed startedOps startedOps_guarded startedBooking
      (by rw [startedOps_rows]; exact List.mem_singleton.mpr rfl) (by decide)⟩

/-! ## The end-to-end scenario -/

theorem findRow_append_fresh (rows : List Booking) (b : Booking)
    (h : findRow rows b.ID = none) : findRow (rows ++ [b]) b.ID = some b := by
  unfold findRow at h ⊢
  rw [List.find?_append, h]
  simp

/-- A successful `CreateBooking` that draws a fresh id stores a pending
booking under it. -/
theorem CreateBooking_stored (env : Env) (w : World) (req : CreateBookingRequest)
    (hfresh : findRow w.rows env.newID = none)
    (hv : env.validateUser req.UserID = none)
    (ha : env.isVehicleAvailable req.VehicleID req.StartTime = .ok true)
    (hx : env.execErr = none) :
    ∃ b, (CreateBooking env w req).1 = .ok b ∧
      storedBooking (CreateBooking env w req).2 env.newID = some b ∧
      b.UserID = req.UserID ∧ b.VehicleID = req.VehicleID ∧ b.Status = StatusPending ∧
      b.StartTime = req.StartTime := by
  refine ⟨{ UserID := req.UserID, VehicleID := req.VehicleID, Status := StatusPending,
            StartTime := req.StartTime, PickupLat := req.PickupLat,
            PickupLng := req.PickupLng, PickupAddr := req.PickupAddr,
            DropoffLat := req.DropoffLat, DropoffLng := req.DropoffLng,
            DropoffAddr := req.DropoffAddr, ID := env.newID, CreatedAt := env.repoNow,
            UpdatedAt := env.repoNow2 }, ?_, ?_, rfl, rfl, rfl, rfl⟩
  · unfold CreateBooking Create
    simp [logCall, hv, ha, hx]
  · unfold storedBooking CreateBooking Create
    simp only [logCall, hv, ha, hx, Bool.not_true, Bool.false_eq_true, if_false]
    exact findRow_append_fresh w.rows _ hfresh

/-- An `UpdateBooking` that sets the status of a stored booking, the store not
failing, stores the patched row. -/
theorem UpdateBooking_stored (env : Env) (w : World) (id : String)
    (u : UpdateBookingRequest) (s : BookingStatus) (b : Booking)
    (hb : storedBooking w id = some b) (hu : u.Status = some s)
    (hg : env.getErr = none) (hx : env.execErr = none) :
    storedBooking (UpdateBooking env w id u).2 id = some (patch u env.repoNow b) := by
  unfold storedBooking at hb ⊢
  have hget : GetByID env.getErr w.rows id = .ok b := (GetByID_ok_iff _ _ _ _).mpr ⟨hg, hb⟩
  unfold UpdateBooking
  simp only [logCall, hget, Update_of_status env w.rows id u s b hu hb, hx,
    findRow_patchRows_same, hb, Option.map_some']

/-- A transition whose checks pass, the `UPDATE` not failing, stores the
patched row; it succeeds when the closing read does not fail either. -/
theorem transitionTail_stored (env : Env) (w : World) (id : String)
    (u : UpdateBookingRequest) (m v s : String) (b : Booking)
    (hb : storedBooking w id = some b) (hx : env.execErr = none) :
    storedBooking (transitionTail env w id u m v s).2 id = some (patch u env.repoNow b) := by
  unfold storedBooking at hb ⊢
  rw [transitionTail_rows_of_exec env w id u m v s hx, findRow_patchRows_same, hb]
  rfl

/-- Claim C15: the end-to-end scenario. In a store that does not fail, a
`CreateBooking` for user U1 and vehicle V1 at start time T, the user valid and
the vehicle available, returns and stores a pending booking; once its status
has been set to confirmed from outside (an `UpdateBooking` with that status),
`StartBooking` by U1 at a time not before T succeeds and the status is active;
`CompleteBooking` by U1 with distance 5 and duration 10 succeeds, the cost is
10.0 and the status completed; a `CancelBooking` by U1 after that fails, on
the status check when the read works, and the status stays completed. -/
theorem end_to_end_scenario (e₁ e₂ e₃ e₄ e₅ : Env) (w : World)
    (req : CreateBookingRequest)
    (hfresh : findRow w.rows e₁.newID = none)
    (hv : e₁.validateUser req.UserID = none)
    (ha : e₁.isVehicleAvailable req.VehicleID req.StartTime = .ok true)
    (h₁ : e₁.execErr = none)
    (h₂ : e₂.getErr = none ∧ e₂.execErr = none)
    (h₃ : e₃.getErr = none ∧ e₃.execErr = none ∧ e₃.reGetErr = none)
    (ht : req.StartTime ≤ e₃.now)
    (h₄ : e₄.getErr = none ∧ e₄.execErr = none ∧ e₄.reGetErr = none) :
    (∃ b, (CreateBooking e₁ w req).1 = .ok b ∧ b.ID = e₁.newID ∧
      b.Status = StatusPending) ∧
    storedStatus (run w [.create e₁ req]) e₁.newID = some StatusPending ∧
    storedStatus (run w [.create e₁ req,
      .update e₂ e₁.newID { Status := some StatusConfirmed }]) e₁.newID =
        some StatusConfirmed ∧
    (StartBooking e₃ (run w [.create e₁ req,
      .update e₂ e₁.newID { Status := some StatusConfirmed }]) e₁.newID req.UserID).1 =
        none ∧
    storedStatus (run w [.create e₁ req,
      .update e₂ e₁.newID { Status := some StatusConfirmed },
      .start e₃ e₁.newID req.UserID]) e₁.newID = some StatusActive ∧
    (CompleteBooking e₄ (run w [.create e₁ req,
      .update e₂ e₁.newID { Status := some StatusConfirmed },
      .start e₃ e₁.newID req.UserID]) e₁.newID req.UserID
        { Distance := some 5, Duration := some 10 }).1 = none ∧
    (storedBooking (run w [.create e₁ req,
      .update e₂ e₁.newID { Status := some StatusConfirmed },
      .start e₃ e₁.newID req.UserID,
      .complete e₄ e₁.newID req.UserID { Distance := some 5, Duration := some 10 }])
        e₁.newID).map (fun b => (b.Status, b.Cost)) = some (StatusCompleted, some 10) ∧
    (CancelBooking e₅ (run w [.create e₁ req,
      .update e₂ e₁.newID { Status := some StatusConfirmed },
      .start e₃ e₁.newID req.UserID,
      .complete e₄ e₁.newID req.UserID { Distance := some 5, Duration := some 10 }])
        e₁.newID req.UserID).1 ≠ none ∧
    (e₅.getErr = none →
      (CancelBooking e₅ (run w [.create e₁ req,
        .update e₂ e₁.newID { Status := some StatusConfirmed },
        .start e₃ e₁.newID req.UserID,
        .complete e₄ e₁.newID req.UserID { Distance := some 5, Duration := some 10 }])
          e₁.newID req.UserID).1 = some "cannot cancel booking with status: completed") ∧
    storedStatus (run w [.create e₁ req,
      .update e₂ e₁.newID { Status := some StatusConfirmed },
      .start e₃ e₁.newID req.UserID,
      .complete e₄ e₁.newID req.UserID { Distance := some 5, Duration := some 10 },
      .cancel e₅ e₁.newID req.UserID]) e₁.newID = some StatusCompleted := by
  obtain ⟨b₁, hr₁, hs₁, hu₁, _, hst₁, htm₁⟩ := CreateBooking_stored e₁ w req hfresh hv ha h₁
  have hid₁ : b₁.ID = e₁.newID := (findRow_some _ _ _ hs₁).2
  -- the four worlds
  have hw₁ : run w [.create e₁ req] = (CreateBooking e₁ w req).2 := rfl
  have hs₂ := UpdateBooking_stored e₂ (CreateBooking e₁ w req).2 e₁.newID
    { Status := some StatusConfirmed } StatusConfirmed b₁ hs₁ rfl h₂.1 h₂.2
  have hw₂ : run w [.create e₁ req, .update e₂ e₁.newID { Status := some StatusConfirmed }] =
      (UpdateBooking e₂ (CreateBooking e₁ w req).2 e₁.newID
        { Status := some StatusConfirmed }).2 := rfl
  have hget₃ : GetByID e₃.getErr (UpdateBooking e₂ (CreateBooking e₁ w req).2 e₁.newID
      { Status := some StatusConfirmed }).2.rows e₁.newID =
        .ok (patch { Status := some StatusConfirmed } e₂.repoNow b₁) :=
    (GetByID_ok_iff _ _ _ _).mpr ⟨h₃.1, hs₂⟩
  have he₃ := StartBooking_of_pre e₃ _ e₁.newID req.UserID _ hget₃ hu₁ rfl
    (not_lt.mpr (by rw [← htm₁] at ht; exact ht))
  have hs₃ := transitionTail_stored e₃ _ e₁.newID { Status := some StatusActive }
    "failed to start booking: " (patch { Status := some StatusConfirmed } e₂.repoNow b₁).VehicleID
    "in_use" _ hs₂ h₃.2.1
  rw [← he₃] at hs₃
  have hw₃ : run w [.create e₁ req, .update e₂ e₁.newID { Status := some StatusConfirmed },
      .start e₃ e₁.newID req.UserID] =
      (StartBooking e₃ (UpdateBooking e₂ (CreateBooking e₁ w req).2 e₁.newID
        { Status := some StatusConfirmed }).2 e₁.newID req.UserID).2 := rfl
  have hget₄ : GetByID e₄.getErr (StartBooking e₃ (UpdateBooking e₂
      (CreateBooking e₁ w req).2 e₁.newID { Status := some StatusConfirmed }).2 e₁.newID
        req.UserID).2.rows e₁.newID = .ok _ :=
    (GetByID_ok_iff _ _ _ _).mpr ⟨h₄.1, hs₃⟩
  have hs₄ := CompleteBooking_stored e₄ _ e₁.newID req.UserID
    { Distance := some 5, Duration := some 10 } _ hget₄ hu₁ rfl h₄.2.1
  have he₄ := CompleteBooking_of_pre e₄ _ e₁.newID req.UserID
    { Distance := some 5, Duration := some 10 } _ hget₄ hu₁ rfl
  have hw₄ : run w [.create e₁ req, .update e₂ e₁.newID { Status := some StatusConfirmed },
      .start e₃ e₁.newID req.UserID,
      .complete e₄ e₁.newID req.UserID { Distance := some 5, Duration := some 10 }] =
      (CompleteBooking e₄ (StartBooking e₃ (UpdateBooking e₂ (CreateBooking e₁ w req).2
        e₁.newID { Status := some StatusConfirmed }).2 e₁.newID req.UserID).2 e₁.newID
          req.UserID { Distance := some 5, Duration := some 10 }).2 := rfl
  have hnot₅ := CancelBooking_of_not_pre e₅ (run w [.create e₁ req,
      .update e₂ e₁.newID { Status := some StatusConfirmed },
      .start e₃ e₁.newID req.UserID,
      .complete e₄ e₁.newID req.UserID { Distance := some 5, Duration := some 10 }])
      e₁.newID req.UserID (by
        intro b hg hp
        have hb := ((GetByID_ok_iff _ _ _ _).mp hg).2
        rw [hw₄] at hb
        have : storedBooking _ e₁.newID = some b := hb
        rw [hs₄] at this
        exact hp.2 (Or.inl (by rw [← Option.some.inj this]; rfl)))
  refine ⟨⟨b₁, hr₁, hid₁, hst₁⟩, ?_, ?_, ?_, ?_, ?_, ?_, hnot₅.1, ?_, ?_⟩
  · rw [hw₁]; simp only [storedStatus, hs₁, Option.map_some', hst₁]
  · rw [hw₂]; simp only [storedStatus, hs₂, Option.map_some']; rfl
  · rw [hw₂, he₃]
    exact (transitionTail_ok_iff _ _ _ _ _ _ _).mpr ⟨h₃.2.1, h₃.2.2⟩
  · rw [hw₃]; simp only [storedStatus, hs₃, Option.map_some']; rfl
  · rw [hw₃, he₄]
    exact (transitionTail_ok_iff _ _ _ _ _ _ _).mpr ⟨h₄.2.1, h₄.2.2⟩
  · rw [hw₄, hs₄]
    simp [patch, completeUpdates, completeCost]
    norm_num
    exact pricing_golden.2.1
  · intro hg₅
    rw [hw₄]
    unfold CancelBooking
    have hget₅ : GetByID e₅.getErr (CompleteBooking e₄ (StartBooking e₃ (UpdateBooking e₂
        (CreateBooking e₁ w req).2 e₁.newID { Status := some StatusConfirmed }).2 e₁.newID
          req.UserID).2 e₁.newID req.UserID
            { Distance := some 5, Duration := some 10 }).2.rows e₁.newID = .ok _ :=
      (GetByID_ok_iff _ _ _ _).mpr ⟨hg₅, hs₄⟩
    simp only [logCall, hget₅]
    simp [patch, completeUpdates, hu₁]
    rfl
  · have hw₅ : run w [.create e₁ req, .update e₂ e₁.newID { Status := some StatusConfirmed },
        .start e₃ e₁.newID req.UserID,
        .complete e₄ e₁.newID req.UserID { Distance := some 5, Duration := some 10 },
        .cancel e₅ e₁.newID req.UserID] =
        (CancelBooking e₅ (run w [.create e₁ req,
          .update e₂ e₁.newID { Status := some StatusConfirmed },
          .start e₃ e₁.newID req.UserID,
          .complete e₄ e₁.newID req.UserID { Distance := some 5, Duration := some 10 }])
            e₁.newID req.UserID).2 := rfl
    have h5 : storedStatus (CancelBooking e₅ (run w [.create e₁ req,
        .update e₂ e₁.newID { Status := some StatusConfirmed },
        .start e₃ e₁.newID req.UserID,
        .complete e₄ e₁.newID req.UserID { Distance := some 5, Duration := some 10 }])
          e₁.newID req.UserID).2 e₁.newID =
        storedStatus (run w [.create e₁ req,
          .update e₂ e₁.newID { Status := some StatusConfirmed },
          .start e₃ e₁.newID req.UserID,
          .complete e₄ e₁.newID req.UserID { Distance := some 5, Duration := some 10 }])
            e₁.newID :=
      storedStatus_congr _ _ (by rw [hnot₅.2]; rfl) _
    rw [hw₅, h5, hw₄]
    simp only [storedStatus, hs₄, Option.map_some']
    rfl

/-- Claim C15, at a sample: user `U1`, vehicle `V1`, start time 100, an empty
store and environments in which nothing fails; started at 100, completed at
200. -/
theorem end_to_end_scenario_witness :
    (StartBooking (okEnv 100 "") (run {} [.create (okEnv 0 "b1") demoRequest,
      .update (okEnv 1 "") "b1" { Status := some StatusConfirmed }]) "b1" "U1").1 = none ∧
    (storedBooking (run {} [.create (okEnv 0 "b1") demoRequest,
      .update (okEnv 1 "") "b1" { Status := some StatusConfirmed },
      .start (okEnv 100 "") "b1" "U1",
      .complete (okEnv 200 "") "b1" "U1" { Distance := some 5, Duration := some 10 }])
        "b1").map (fun b => (b.Status, b.Cost)) = some (StatusCompleted, some 10) ∧
    storedStatus (run {} [.create (okEnv 0 "b1") demoRequest,
      .update (okEnv 1 "") "b1" { Status := some StatusConfirmed },
      .start (okEnv 100 "") "b1" "U1",
      .complete (okEnv 200 "") "b1" "U1" { Distance := some 5, Duration := some 10 },
      .cancel (okEnv 300 "") "b1" "U1"]) "b1" = some StatusCompleted :=
  have h := end_to_end_scenario (okEnv 0 "b1") (okEnv 1 "") (okEnv 100 "") (okEnv 200 "")
    (okEnv 300 "") {} demoRequest rfl rfl rfl rfl ⟨rfl, rfl⟩ ⟨rfl, rfl, rfl⟩ (by decide)
    ⟨rfl, rfl, rfl⟩
  ⟨h.2.2.2.1, h.2.2.2.2.2.2.1, h.2.2.2.2.2.2.2.2.2⟩

/-! ## Two completions of one booking -/

/-- `CompleteBooking` is its checks followed by its write. -/
theorem CompleteBooking_eq_checks_write (env : Env) (w : World) (id userID : String)
    (req : CompleteBookingRequest) :
    CompleteBooking env w id userID req =
      match completeChecks env w id userID with
      | (.error e, w) => (some e, w)
      | (.ok booking, w) => completeWrite env w id req booking := by
  unfold CompleteBooking completeChecks completeWrite
  simp only [logCall]
  cases GetByID env.getErr w.rows id with
  | error e => rfl
  | ok b =>
    simp only
    split_ifs <;> rfl

/-- Claim C16, as stated, fails: the status check and the status write are two
calls on the store with nothing held between them. Two requests of user `U1`
on the active booking `b1`, scheduled read, read, write, write, both return
success, and two updates reach the repository. -/
theorem interleaved_completions_both_succeed :
    (interleavedCompletions (okEnv 200 "") (okEnv 201 "") (demoWorld StatusActive)
      "b1" "U1" "U1" {} {}).1 = none ∧
    (interleavedCompletions (okEnv 200 "") (okEnv 201 "") (demoWorld StatusActive)
      "b1" "U1" "U1" {} {}).2.1 = none ∧
    (updatesSent (interleavedCompletions (okEnv 200 "") (okEnv 201 "")
      (demoWorld StatusActive) "b1" "U1" "U1" {} {}).2.2.calls).length = 2 := by
  decide

/-- Claim C16, amended: of two `CompleteBooking` calls on the same booking
that run one after the other, never both succeed; on an active booking
completed by its owner, the store not failing, the first succeeds, the second
(by anyone, with any request) fails and the status is completed. Calls whose
store calls alternate are not covered: the check and the write are not
atomic. -/
theorem sequential_completions_one_success (envA envB : Env) (w : World)
    (id userA userB : String) (reqA reqB : CompleteBookingRequest) :
    ((CompleteBooking envA w id userA reqA).1 = none →
      (CompleteBooking envB (CompleteBooking envA w id userA reqA).2 id userB reqB).1 ≠
        none) ∧
    (∀ b, GetByID envA.getErr w.rows id = .ok b → b.UserID = userA →
      b.Status = StatusActive → envA.execErr = none → envA.reGetErr = none →
      (CompleteBooking envA w id userA reqA).1 = none ∧
      (CompleteBooking envB (CompleteBooking envA w id userA reqA).2 id userB reqB).1 ≠
        none ∧
      storedStatus (CompleteBooking envB (CompleteBooking envA w id userA reqA).2 id userB
        reqB).2 id = some StatusCompleted) := by
  have hsecond : ∀ b, GetByID envA.getErr w.rows id = .ok b → b.UserID = userA →
      b.Status = StatusActive → envA.execErr = none →
      (CompleteBooking envB (CompleteBooking envA w id userA reqA).2 id userB reqB).1 ≠
          none ∧
        storedStatus (CompleteBooking envB (CompleteBooking envA w id userA reqA).2 id userB
          reqB).2 id = some StatusCompleted := by
    intro b hg hu hs hx
    have hst := CompleteBooking_stored envA w id userA reqA b hg hu hs hx
    have hnot := CompleteBooking_of_not_pre envB (CompleteBooking envA w id userA reqA).2 id
      userB reqB (by
        intro b' hg' hp
        have hb' : storedBooking (CompleteBooking envA w id userA reqA).2 id = some b' :=
          ((GetByID_ok_iff _ _ _ _).mp hg').2
        rw [hst] at hb'
        have : b'.Status = StatusCompleted := by rw [← Option.some.inj hb']; rfl
        rw [this] at hp
        exact absurd hp.2 (by decide))
    refine ⟨hnot.1, ?_⟩
    rw [storedStatus_congr (CompleteBooking envA w id userA reqA).2 _ (by rw [hnot.2]; rfl)]
    simp only [storedStatus, hst, Option.map_some']
    rfl
  constructor
  · intro hok
    rcases CompleteBooking_cases envA w id userA reqA with ⟨b, hg, hu, hs, he⟩ | ⟨hne, _⟩
    · have hx : envA.execErr = none := by
        rw [he] at hok
        exact ((transitionTail_ok_iff _ _ _ _ _ _ _).mp hok).1
      exact (hsecond b hg hu hs hx).1
    · exact absurd hok hne
  · intro b hg hu hs hx hre
    refine ⟨?_, hsecond b hg hu hs hx⟩
    rw [CompleteBooking_of_pre envA w id userA reqA b hg hu hs]
    exact (transitionTail_ok_iff _ _ _ _ _ _ _).mpr ⟨hx, hre⟩

/-- Claim C16, at a sample: two completions of the active booking `b1` by its
owner, one after the other. -/
theorem sequential_completions_one_success_witness :
    (CompleteBooking (okEnv 200 "") (demoWorld StatusActive) "b1" "U1" {}).1 = none ∧
    (CompleteBooking (okEnv 201 "")
      (CompleteBooking (okEnv 200 "") (demoWorld StatusActive) "b1" "U1" {}).2
      "b1" "U1" {}).1 ≠ none :=
  have h := (sequential_completions_one_success (okEnv 200 "") (okEnv 201 "")
    (demoWorld StatusActive) "b1" "U1" "U1" {} {}).2 (demoBooking StatusActive) rfl rfl rfl
    rfl rfl
  ⟨h.1, h.2.1⟩

/-! ## Listing -/

theorem effectiveLimit_bounds (limit : Int) :
    1 ≤ effectiveLimit limit ∧ effectiveLimit limit ≤ 100 := by
  unfold effectiveLimit
  split_ifs <;> omega

/-- The filter `ListBookings` works with: the caller's, with the effective
limit. -/
theorem ListBookings_filter (filter : BookingFilter) :
    (if (if filter.Limit ≤ 0 then { filter with Limit := 10 } else filter).Limit > 100 then
        { (if filter.Limit ≤ 0 then { filter with Limit := 10 } else filter) with
          Limit := 100 }
      else (if filter.Limit ≤ 0 then { filter with Limit := 10 } else filter)) =
      { filter with Limit := effectiveLimit filter.Limit } := by
  unfold effectiveLimit
  by_cases h1 : filter.Limit ≤ 0
  · simp [h1]
  · by_cases h2 : filter.Limit > 100
    · simp [h1, h2]
    · simp [h1, h2]

/-- What `ListBookings` computes, in terms of the effective limit. -/
theorem ListBookings_eq (repo : BookingRepository) (filter : BookingFilter) :
    ListBookings repo filter =
      (match repo.List { filter with Limit := effectiveLimit filter.Limit } with
        | .error e => .error ("failed to list bookings: " ++ e)
        | .ok bookings =>
          match repo.Count { filter with Limit := effectiveLimit filter.Limit } with
          | .error e => .error ("failed to count bookings: " ++ e)
          | .ok total =>
            .ok { Bookings := bookings, Total := total,
                  Limit := effectiveLimit filter.Limit, Offset := filter.Offset },
        { filter with Limit := effectiveLimit filter.Limit }) := by
  unfold ListBookings
  simp only [ListBookings_filter]
  cases repo.List { filter with Limit := effectiveLimit filter.Limit } with
  | error e => rfl
  | ok bookings =>
    cases repo.Count { filter with Limit := effectiveLimit filter.Limit } <;> rfl

/-- Claim C17: for every limit, `ListBookings` hands the repository's `List`
(and `Count`) the caller's filter with the effective limit — 10 when the limit
is not positive, 100 when it exceeds 100, the limit itself otherwise, a value
between 1 and 100 — and the offset it was given; and when both answer, the
response carries that limit and that offset. A limit of 0 gives 10, a limit of
500 gives 100. -/
theorem ListBookings_effective_limit (repo : BookingRepository) (filter : BookingFilter) :
    (1 ≤ effectiveLimit filter.Limit ∧ effectiveLimit filter.Limit ≤ 100) ∧
    ListBookings repo filter =
      (match repo.List { filter with Limit := effectiveLimit filter.Limit } with
        | .error e => .error ("failed to list bookings: " ++ e)
        | .ok bookings =>
          match repo.Count { filter with Limit := effectiveLimit filter.Limit } with
          | .error e => .error ("failed to count bookings: " ++ e)
          | .ok total =>
            .ok { Bookings := bookings, Total := total,
                  Limit := effectiveLimit filter.Limit, Offset := filter.Offset },
        { filter with Limit := effectiveLimit filter.Limit }) ∧
    effectiveLimit 0 = 10 ∧ effectiveLimit 500 = 100 ∧
    (ListBookings (memoryRepository demoRows) { Limit := 0, Offset := 1 }).1 =
      .ok { Bookings := [{ ID := "b1", UserID := "U1", VehicleID := "V1",
                           Status := StatusPending, StartTime := 100, CreatedAt := 1 }],
            Total := 2, Limit := 10, Offset := 1 } := by
  exact ⟨effectiveLimit_bounds filter.Limit, ListBookings_eq repo filter, by decide,
    by decide, rfl⟩

/-- The conditions `Count` builds are those `List` builds. -/
theorem countWhereParts_eq (filter : BookingFilter) :
    countWhereParts filter = listWhereParts filter := rfl

/-- `Count` hands `QueryRowxContext` its map of named arguments as a positional
argument, which cannot be converted: it returns an error whatever the filter
and the table. -/
theorem Count_error (dbErr : Option String) (rows : List Booking) (filter : BookingFilter) :
    Count dbErr rows filter =
      .error "sql: converting argument $1 type: unsupported type map[string]interface \x7b\x7d, a map" := by
  unfold Count queryRowxCount
  simp [QueryArg.convertible]

/-- Claim C18, on the code: the conditions built by `Count` are those built by
`List`, and `Count` adds no limit or offset; but `Count` runs its statement,
which names its parameters, through `QueryRowxContext` with the map of named
arguments as the one positional argument, so it fails for every filter, and
`ListBookings` over the Postgres repository returns no total: when the
listing works it returns the count's error. -/
theorem Count_returns_no_total (listErr countErr : Option String) (rows : List Booking)
    (filter : BookingFilter) :
    countWhereParts filter = listWhereParts filter ∧
    (countArgs filter).limit = none ∧ (countArgs filter).offset = none ∧
    (∃ e, Count countErr rows filter = .error e) ∧
    (∃ e, (ListBookings (postgresRepository listErr countErr rows) filter).1 = .error e) ∧
    (ListBookings (postgresRepository none none demoRows) { Limit := 10 }).1 =
      .error "failed to count bookings: sql: converting argument $1 type: unsupported type map[string]interface \x7b\x7d, a map" := by
  refine ⟨rfl, rfl, rfl, ⟨_, Count_error countErr rows filter⟩, ?_, ?_⟩
  · rw [ListBookings_eq _ filter]
    simp only [postgresRepository, Count_error]
    cases RepoList listErr rows { filter with Limit := effectiveLimit filter.Limit } with
    | error e => exact ⟨_, rfl⟩
    | ok bookings => exact ⟨_, rfl⟩
  · rw [ListBookings_eq _ _]
    simp only [postgresRepository, Count_error]
    rfl

/-- The conditions `List` builds hold of a row exactly when the row satisfies
the filter. -/
theorem listWhereParts_holds_iff (filter : BookingFilter) (b : Booking) :
    (listWhereParts filter).all (fun c => c.holds (listArgs filter) b) = true ↔
      satisfiesFilter filter b := by
  rcases filter with ⟨u, v, s, sd, ed, l, o⟩
  cases u <;> cases v <;> cases s <;> cases sd <;> cases ed <;>
    simp [listWhereParts, listArgs, Condition.holds, satisfiesFilter]

theorem mem_selectWhere_list (filter : BookingFilter) (rows : List Booking) (b : Booking) :
    b ∈ selectWhere (listWhereParts filter) (listArgs filter) rows ↔
      b ∈ rows ∧ satisfiesFilter filter b := by
  unfold selectWhere
  rw [List.mem_filter, listWhereParts_holds_iff]

theorem mem_orderByCreatedAtDesc (rows : List Booking) (b : Booking) :
    b ∈ orderByCreatedAtDesc rows ↔ b ∈ rows := by
  unfold orderByCreatedAtDesc
  exact List.mem_insertionSort _

theorem RepoList_ok (dbErr : Option String) (rows : List Booking) (filter : BookingFilter)
    (bs : List Booking) (h : RepoList dbErr rows filter = .ok bs) :
    bs = ((orderByCreatedAtDesc
      (selectWhere (listWhereParts filter) (listArgs filter) rows)).drop
        filter.Offset.toNat).take filter.Limit.toNat := by
  unfold RepoList limitOffset at h
  cases dbErr with
  | some e => simp at h
  | none =>
    simp only at h
    split_ifs at h
    exact (Except.ok.inj h).symm

/-- Claim C19: for every filter, a booking is among those the `WHERE` clause
of `List` selects exactly when it is in the table and satisfies every
predicate that is present (`user_id`, `vehicle_id` and status equal, start
time from `StartDate` to `EndDate`, bounds included), each selected as often
and in the order it is stored; what `List` returns is the page, by limit and
offset, of the selection ordered by creation time, newest first, so every
booking returned satisfies the filter, and with offset 0 and a limit that
covers the table the bookings returned are exactly the ones that satisfy it;
a filter with no predicate selects every booking. -/
theorem RepoList_selects (dbErr : Option String) (rows : List Booking)
    (filter : BookingFilter) :
    (∀ b, b ∈ selectWhere (listWhereParts filter) (listArgs filter) rows ↔
      b ∈ rows ∧ satisfiesFilter filter b) ∧
    (∃ p : Booking → Bool, (∀ b, p b = true ↔ satisfiesFilter filter b) ∧
      selectWhere (listWhereParts filter) (listArgs filter) rows = rows.filter p) ∧
    (∀ bs, RepoList dbErr rows filter = .ok bs →
      bs = ((orderByCreatedAtDesc
        (selectWhere (listWhereParts filter) (listArgs filter) rows)).drop
          filter.Offset.toNat).take filter.Limit.toNat ∧
      ∀ b ∈ bs, b ∈ rows ∧ satisfiesFilter filter b) ∧
    (dbErr = none → filter.Offset = 0 → (rows.length : Int) ≤ filter.Limit →
      ∃ bs, RepoList dbErr rows filter = .ok bs ∧
        ∀ b, b ∈ bs ↔ b ∈ rows ∧ satisfiesFilter filter b) ∧
    (filter.UserID = none → filter.VehicleID = none → filter.Status = none →
      filter.StartDate = none → filter.EndDate = none →
      selectWhere (listWhereParts filter) (listArgs filter) rows = rows) := by
  refine ⟨mem_selectWhere_list filter rows,
    ⟨fun b => (listWhereParts filter).all (fun c => c.holds (listArgs filter) b),
      fun b => listWhereParts_holds_iff filter b, rfl⟩, ?_, ?_, ?_⟩
  · intro bs h
    have hbs := RepoList_ok dbErr rows filter bs h
    refine ⟨hbs, fun b hb => ?_⟩
    rw [hbs] at hb
    exact (mem_selectWhere_list filter rows b).mp
      ((mem_orderByCreatedAtDesc _ b).mp (List.mem_of_mem_drop (List.mem_of_mem_take hb)))
  · intro hdb hoff hlim
    have hlen : (orderByCreatedAtDesc
        (selectWhere (listWhereParts filter) (listArgs filter) rows)).length ≤
          filter.Limit.toNat := by
      have h1 : (orderByCreatedAtDesc
          (selectWhere (listWhereParts filter) (listArgs filter) rows)).length =
            (selectWhere (listWhereParts filter) (listArgs filter) rows).length := by
        unfold orderByCreatedAtDesc
        exact List.length_insertionSort _ _
      have h2 : (selectWhere (listWhereParts filter) (listArgs filter) rows).length ≤
          rows.length := by
        unfold selectWhere
        exact List.length_filter_le _ _
      omega
    refine ⟨orderByCreatedAtDesc
      (selectWhere (listWhereParts filter) (listArgs filter) rows), ?_, fun b => ?_⟩
    · unfold RepoList limitOffset
      have h0 : ¬ filter.Limit < 0 := by omega
      simp only [hdb, hoff, h0, if_false, lt_self_iff_false, Int.toNat_zero, List.drop_zero,
        List.take_of_length_le hlen]
    · rw [mem_orderByCreatedAtDesc, mem_selectWhere_list]
  · intro h1 h2 h3 h4 h5
    unfold selectWhere listWhereParts
    simp [h1, h2, h3, h4, h5]

/-- Claim C19, at a sample: of the two bookings of `demoRows`, the filter on
user `U2` with start time at most 60 returns `b2` only. -/
theorem RepoList_selects_witness :
    ∃ bs, RepoList none demoRows
        { UserID := some "U2", EndDate := some 60, Limit := 10, Offset := 0 } = .ok bs ∧
      (∀ b, b ∈ bs ↔ b ∈ demoRows ∧
        satisfiesFilter { UserID := some "U2", EndDate := some 60, Limit := 10, Offset := 0 }
          b) ∧
      bs.map (fun b => b.ID) = ["b2"] := by
  obtain ⟨bs, h1, h2⟩ := (RepoList_selects none demoRows
    { UserID := some "U2", EndDate := some 60, Limit := 10, Offset := 0 }).2.2.2.1 rfl rfl
    (by decide)
  refine ⟨bs, h1, h2, ?_⟩
  have h3 : RepoList none demoRows
      { UserID := some "U2", EndDate := some 60, Limit := 10, Offset := 0 } =
        .ok [{ ID := "b2", UserID := "U2", VehicleID := "V1", Status := StatusActive,
               StartTime := 50, CreatedAt := 2 }] := rfl
  rw [h3] at h1
  rw [← Except.ok.inj h1]
  rfl

/-! ## The sparse patch -/

theorem mem_setParts (u : UpdateBookingRequest) (c : Column) :
    c ∈ setParts u ↔
      (c = Column.status ∧ u.Status.isSome) ∨ (c = Column.end_time ∧ u.EndTime.isSome) ∨
      (c = Column.dropoff_latitude ∧ u.DropoffLat.isSome) ∨
      (c = Column.dropoff_longitude ∧ u.DropoffLng.isSome) ∨
      (c = Column.dropoff_address ∧ u.DropoffAddr.isSome) ∨
      (c = Column.distance ∧ u.Distance.isSome) ∨
      (c = Column.duration ∧ u.Duration.isSome) ∨ (c = Column.cost ∧ u.Cost.isSome) := by
  unfold setParts
  simp only [List.mem_append]
  constructor
  · rintro (((((((h | h) | h) | h) | h) | h) | h) | h) <;>
      (split at h <;> simp at h; subst h; simp_all)
  · rintro (⟨rfl, h⟩ | ⟨rfl, h⟩ | ⟨rfl, h⟩ | ⟨rfl, h⟩ | ⟨rfl, h⟩ | ⟨rfl, h⟩ | ⟨rfl, h⟩ |
      ⟨rfl, h⟩) <;> simp [h]

/-- Claim C20: for every `UpdateBookingRequest`, the `SET` clause of `Update`
names exactly the columns whose field is present, followed by `updated_at`;
when no field is present `Update` runs no statement and returns what a read of
the booking returns, the table as it was; otherwise, the statement not
failing, every row with the id has each present field replaced and
`updated_at` set, every other column as it was, and every other row is as it
was, and `Update` returns what a read of the booking then returns; the
statement failing, the table is as it was. -/
theorem Update_sparse_patch (env : Env) (rows : List Booking) (id : String)
    (u : UpdateBookingRequest) :
    (∀ c, c ∈ setParts u ↔
      (c = Column.status ∧ u.Status.isSome) ∨ (c = Column.end_time ∧ u.EndTime.isSome) ∨
      (c = Column.dropoff_latitude ∧ u.DropoffLat.isSome) ∨
      (c = Column.dropoff_longitude ∧ u.DropoffLng.isSome) ∨
      (c = Column.dropoff_address ∧ u.DropoffAddr.isSome) ∨
      (c = Column.distance ∧ u.Distance.isSome) ∨
      (c = Column.duration ∧ u.Duration.isSome) ∨ (c = Column.cost ∧ u.Cost.isSome)) ∧
    (setParts u = [] → Update env rows id u = (GetByID env.reGetErr rows id, rows)) ∧
    (setParts u ≠ [] → ∀ e, env.execErr = some e → Update env rows id u = (.error e, rows)) ∧
    (setParts u ≠ [] → env.execErr = none →
      Update env rows id u =
        (GetByID env.reGetErr
            (rows.map (fun b => if b.ID = id then
              { b with
                Status := u.Status.getD b.Status
                EndTime := u.EndTime.orElse (fun _ => b.EndTime)
                DropoffLat := u.DropoffLat.orElse (fun _ => b.DropoffLat)
                DropoffLng := u.DropoffLng.orElse (fun _ => b.DropoffLng)
                DropoffAddr := u.DropoffAddr.orElse (fun _ => b.DropoffAddr)
                Distance := u.Distance.orElse (fun _ => b.Distance)
                Duration := u.Duration.orElse (fun _ => b.Duration)
                Cost := u.Cost.orElse (fun _ => b.Cost)
                UpdatedAt := env.repoNow }
              else b)) id,
          rows.map (fun b => if b.ID = id then
              { b with
                Status := u.Status.getD b.Status
                EndTime := u.EndTime.orElse (fun _ => b.EndTime)
                DropoffLat := u.DropoffLat.orElse (fun _ => b.DropoffLat)
                DropoffLng := u.DropoffLng.orElse (fun _ => b.DropoffLng)
                DropoffAddr := u.DropoffAddr.orElse (fun _ => b.DropoffAddr)
                Distance := u.Distance.orElse (fun _ => b.Distance)
                Duration := u.Duration.orElse (fun _ => b.Duration)
                Cost := u.Cost.orElse (fun _ => b.Cost)
                UpdatedAt := env.repoNow }
              else b))) := by
  refine ⟨mem_setParts u, ?_, ?_, ?_⟩
  · intro h
    unfold Update
    simp [h]
  · intro h e he
    unfold Update
    have hl : ((setParts u).length == 0) = false := by
      simpa using h
    simp only [hl, Bool.false_eq_true, if_false, he]
  · intro h he
    unfold Update
    have hl : ((setParts u).length == 0) = false := by
      simpa using h
    simp only [hl, Bool.false_eq_true, if_false, he, execUpdate_eq_patchRows]
    unfold patchRows patch
    simp only [beq_iff_eq]

/-- Claim C20, at a sample: an update of the dropoff address of `b1` alone,
and an update with no field. -/
theorem Update_sparse_patch_witness :
    Update (okEnv 7 "") demoRows "b1" {} = (GetByID none demoRows "b1", demoRows) ∧
    (Update (okEnv 7 "") demoRows "b1" { DropoffAddr := some "2 High St" }).2 =
      [{ ID := "b1", UserID := "U1", VehicleID := "V1", Status := StatusPending,
         StartTime := 100, CreatedAt := 1, DropoffAddr := some "2 High St", UpdatedAt := 7 },
       { ID := "b2", UserID := "U2", VehicleID := "V1", Status := StatusActive,
         StartTime := 50, CreatedAt := 2 }] :=
  have h := Update_sparse_patch (okEnv 7 "") demoRows "b1"
  ⟨(h {}).2.1 rfl,
    (congrArg Prod.snd ((h { DropoffAddr := some "2 High St" }).2.2.2 (by decide) rfl)).trans
      (by decide)⟩

/-! ## Active bookings and statistics -/

instance startTimeTotal : IsTotal Booking (fun a b => a.StartTime ≤ b.StartTime) :=
  ⟨fun a b => le_total a.StartTime b.StartTime⟩

instance startTimeTrans : IsTrans Booking (fun a b => a.StartTime ≤ b.StartTime) :=
  ⟨fun _ _ _ h1 h2 => le_trans h1 h2⟩

/-- Claim C21: when the query does not fail, `GetActiveBookings` returns the
bookings whose status is confirmed or active, each as often as it is stored
and none other, with no limit on their number, ordered by `start_time`
ascending: of any two adjacent bookings of the result, and of any two at all,
the earlier one's `start_time` is at most the later one's. -/
theorem GetActiveBookings_sorted_selection (rows : List Booking) :
    ∃ bs, GetActiveBookings none rows = .ok bs ∧
      (∀ b, b ∈ bs ↔ b ∈ rows ∧ (b.Status = StatusConfirmed ∨ b.Status = StatusActive)) ∧
      bs.Perm (rows.filter
        (fun b => decide (b.Status = StatusConfirmed ∨ b.Status = StatusActive))) ∧
      bs.Chain' (fun a b => a.StartTime ≤ b.StartTime) ∧
      bs.Pairwise (fun a b => a.StartTime ≤ b.StartTime) := by
  have hf : (fun b : Booking => b.Status == "confirmed" || b.Status == "active") =
      (fun b => decide (b.Status = StatusConfirmed ∨ b.Status = StatusActive)) := by
    funext b
    by_cases h1 : b.Status = "confirmed" <;> by_cases h2 : b.Status = "active" <;>
      simp [h1, h2]
  refine ⟨_, rfl, ?_, ?_, ?_, ?_⟩
  · intro b
    unfold orderByStartTimeAsc
    rw [List.mem_insertionSort, hf, List.mem_filter]
    simp
  · unfold orderByStartTimeAsc
    rw [hf]
    exact List.perm_insertionSort _ _
  · unfold orderByStartTimeAsc
    exact List.Pairwise.chain' (List.sorted_insertionSort _ _)
  · unfold orderByStartTimeAsc
    exact List.sorted_insertionSort _ _

theorem aggregate_foldl (values : List (Option ℚ)) (a : Aggregate) :
    values.foldl Aggregate.add a =
      { sum := a.sum + (setValues values).sum,
        count := a.count + (setValues values).length } := by
  induction values generalizing a with
  | nil => simp [setValues]
  | cons v vs ih =>
    cases v with
    | none => simpa [Aggregate.add, setValues] using ih a
    | some x =>
      rw [List.foldl_cons, ih]
      simp [Aggregate.add, setValues, add_assoc, Nat.add_comm, Nat.add_left_comm]

theorem aggregate_eq (values : List (Option ℚ)) :
    aggregate values =
      { sum := (setValues values).sum, count := (setValues values).length } := by
  unfold aggregate
  rw [aggregate_foldl]
  simp

theorem coalesceAvg_eq (values : List (Option ℚ)) : coalesceAvg values = meanOfSet values := by
  unfold coalesceAvg meanOfSet
  simp only [aggregate_eq]

theorem coalesceSum_eq (values : List (Option ℚ)) :
    coalesceSum values = (setValues values).sum := by
  unfold coalesceSum
  simp only [aggregate_eq]
  split_ifs with h
  · rw [List.length_eq_zero.mp h]; rfl
  · rfl

theorem GetStats_eq (rows : List Booking) (userID : Option String) :
    GetStats none rows userID =
      .ok { TotalBookings := (bookingsOf rows userID).length
            ActiveBookings := countStatus "active" (bookingsOf rows userID)
            CompletedBookings := countStatus "completed" (bookingsOf rows userID)
            CancelledBookings := countStatus "cancelled" (bookingsOf rows userID)
            TotalRevenue := coalesceSum ((bookingsOf rows userID).map (fun b => b.Cost))
            AverageDistance :=
              coalesceAvg ((bookingsOf rows userID).map (fun b => b.Distance))
            AverageDuration :=
              coalesceAvg ((bookingsOf rows userID).map
                (fun b => b.Duration.map (fun d : Int => (d : ℚ)))) } := by
  cases userID <;> rfl

/-- Claim C22: when the query does not fail, the average distance and the
average duration `GetStats` returns are the arithmetic means of the values
that are set among the bookings of the filtered set (those of the user, or
all), unset values left out and not counted as zero, and the total revenue is
the sum of the costs that are set; the average of 10, unset, 20 is 15, not
10. -/
theorem GetStats_means_over_set_values (rows : List Booking) (userID : Option String) :
    (∃ stats, GetStats none rows userID = .ok stats ∧
      stats.AverageDistance =
        meanOfSet ((bookingsOf rows userID).map (fun b => b.Distance)) ∧
      stats.AverageDuration =
        meanOfSet ((bookingsOf rows userID).map
          (fun b => b.Duration.map (fun d : Int => (d : ℚ)))) ∧
      stats.TotalRevenue = (setValues ((bookingsOf rows userID).map (fun b => b.Cost))).sum) ∧
    meanOfSet [some 10, none, some 20] = 15 ∧
    (∃ s, GetStats none statsRows (some "U1") = .ok s ∧ s.AverageDistance = 15 ∧
      s.AverageDuration = 20 ∧ s.TotalRevenue = 45) := by
  refine ⟨⟨_, GetStats_eq rows userID, coalesceAvg_eq _, coalesceAvg_eq _,
    coalesceSum_eq _⟩, ?_, ⟨_, GetStats_eq statsRows (some "U1"), ?_, ?_, ?_⟩⟩
  · norm_num [meanOfSet, setValues, List.filterMap]
  · dsimp only
    rw [coalesceAvg_eq]
    norm_num [meanOfSet, setValues, List.filterMap, statsRows, bookingsOf]
  · dsimp only
    rw [coalesceAvg_eq]
    norm_num [meanOfSet, setValues, List.filterMap, statsRows, bookingsOf]
  · dsimp only
    rw [coalesceSum_eq]
    norm_num [setValues, List.filterMap, statsRows, bookingsOf]

/-! ## HTTP handlers -/

/-- What the three handlers answer when the user id is there (and, for a
completion, the body decodes): 204 on success, 400 with the error's message on
an error. -/
theorem handlers_answer (env : Env) (w : World) (id userID : String)
    (req : CompleteBookingRequest) (h : userID ≠ "") :
    BookingHandler.StartBooking env w id userID =
      (match (StartBooking env w id userID).1 with
        | some err => httpError err StatusBadRequest
        | none => { status := StatusNoContent, body := "" },
        (StartBooking env w id userID).2) ∧
    BookingHandler.CompleteBooking env w id userID (some req) =
      (match (CompleteBooking env w id userID req).1 with
        | some err => httpError err StatusBadRequest
        | none => { status := StatusNoContent, body := "" },
        (CompleteBooking env w id userID req).2) ∧
    BookingHandler.CancelBooking env w id userID =
      (match (CancelBooking env w id userID).1 with
        | some err => httpError err StatusBadRequest
        | none => { status := StatusNoContent, body := "" },
        (CancelBooking env w id userID).2) := by
  refine ⟨?_, ?_, ?_⟩
  · unfold BookingHandler.StartBooking
    simp only [h, if_false]
    rcases StartBooking env w id userID with ⟨r, w'⟩
    cases r <;> rfl
  · unfold BookingHandler.CompleteBooking
    simp only [h, if_false]
    rcases CompleteBooking env w id userID req with ⟨r, w'⟩
    cases r <;> rfl
  · unfold BookingHandler.CancelBooking
    simp only [h, if_false]
    rcases CancelBooking env w id userID with ⟨r, w'⟩
    cases r <;> rfl

/-- The error `StartBooking` returns, by failure kind. -/
theorem StartBooking_error_of_kind (env : Env) (w : World) (id userID : String)
    (k : FailureKind) (hget : env.getErr = none) (hk : startFailure env w id userID = some k) :
    ∃ status, (findRow w.rows id = none ∨ ∃ b, findRow w.rows id = some b ∧ b.Status = status) ∧
      StartBooking env w id userID =
        (some (startMessage status k), logCall w (.repoGetByID id)) := by
  unfold startFailure at hk
  unfold StartBooking GetByID
  simp only [logCall, hget]
  cases hb : findRow w.rows id with
  | none =>
    simp only [hb, Option.some.injEq] at hk
    subst hk
    exact ⟨"", Or.inl rfl, rfl⟩
  | some b =>
    simp only [hb] at hk
    refine ⟨b.Status, Or.inr ⟨b, rfl, rfl⟩, ?_⟩
    simp only
    split_ifs at hk ⊢ with h1 h2 h3
    · cases hk; rfl
    · cases hk; rfl
    · cases hk; rfl

theorem append_ne_of_head (a b s : String) (c d : Char) (ta tb : List Char)
    (ha : a.data = c :: ta) (hb : b.data = d :: tb) (hcd : c ≠ d) : a ++ s ≠ b := by
  intro h
  have h1 : (a ++ s).data = b.data := by rw [h]
  rw [String.data_append, ha, hb] at h1
  exact hcd (List.cons.inj h1).1

/-- The messages of different failure kinds differ, whatever the statuses. -/
theorem startMessage_injective (s s' : BookingStatus) (k k' : FailureKind)
    (h : startMessage s k = startMessage s' k') : k = k' := by
  have hc1 : ∀ t : String, "cannot start booking with status: " ++ t ≠ "booking not found" :=
    fun t => append_ne_of_head _ _ t 'c' 'b' _ _ rfl rfl (by decide)
  have hc2 : ∀ t : String, "cannot start booking with status: " ++ t ≠
      "unauthorized: booking does not belong to user" :=
    fun t => append_ne_of_head _ _ t 'c' 'u' _ _ rfl rfl (by decide)
  have hc3 : ∀ t : String, "cannot start booking with status: " ++ t ≠
      "booking cannot be started before scheduled time" :=
    fun t => append_ne_of_head _ _ t 'c' 'b' _ _ rfl rfl (by decide)
  cases k <;> cases k' <;> simp only [startMessage] at h <;> first
    | rfl
    | exact absurd h (by decide)
    | exact absurd h (hc1 _)
    | exact absurd h (hc2 _)
    | exact absurd h (hc3 _)
    | exact absurd h.symm (hc1 _)
    | exact absurd h.symm (hc2 _)
    | exact absurd h.symm (hc3 _)

/-- Claim C23, as stated, fails: the handlers answer every error of the use
case with status 400. A start of a booking that does not exist (NotFound) and
a start by a user who does not own the booking (Unauthorized) get the same
status code. -/
theorem handlers_use_one_status :
    (StartBooking (okEnv 100 "") {} "b1" "U1").1 = some "booking not found" ∧
    (StartBooking (okEnv 100 "") (demoWorld StatusConfirmed) "b1" "U2").1 =
      some "unauthorized: booking does not belong to user" ∧
    (BookingHandler.StartBooking (okEnv 100 "") {} "b1" "U1").1.status = 400 ∧
    (BookingHandler.StartBooking (okEnv 100 "") (demoWorld StatusConfirmed) "b1" "U2").1.status =
      400 := by
  decide

/-- Claim C23, amended: the start, complete and cancel handlers answer every
error of the use case, whatever its kind, with the one status 400 and the
error's message as body; for `StartBooking` the four kinds NotFound,
Unauthorized, InvalidTransition and TooEarly carry four messages, and messages
of different kinds differ, so a client can tell the kinds apart by the message
string only. -/
theorem failure_kinds_share_status (env : Env) (w : World) (id userID : String)
    (req : CompleteBookingRequest) (huser : userID ≠ "") :
    (∀ err, (StartBooking env w id userID).1 = some err →
      (BookingHandler.StartBooking env w id userID).1 =
        { status := 400, body := err ++ "\n" }) ∧
    (∀ err, (CompleteBooking env w id userID req).1 = some err →
      (BookingHandler.CompleteBooking env w id userID (some req)).1 =
        { status := 400, body := err ++ "\n" }) ∧
    (∀ err, (CancelBooking env w id userID).1 = some err →
      (BookingHandler.CancelBooking env w id userID).1 =
        { status := 400, body := err ++ "\n" }) ∧
    (∀ k, env.getErr = none → startFailure env w id userID = some k →
      ∃ status, (BookingHandler.StartBooking env w id userID).1 =
        { status := 400, body := startMessage status k ++ "\n" }) ∧
    (∀ (s s' : BookingStatus) (k k' : FailureKind), k ≠ k' →
      startMessage s k ≠ startMessage s' k') := by
  obtain ⟨h1, h2, h3⟩ := handlers_answer env w id userID req huser
  refine ⟨?_, ?_, ?_, ?_, fun s s' k k' hne h => hne (startMessage_injective s s' k k' h)⟩
  · intro err he; rw [h1, he]; rfl
  · intro err he; rw [h2, he]; rfl
  · intro err he; rw [h3, he]; rfl
  · intro k hget hk
    obtain ⟨status, _, he⟩ := StartBooking_error_of_kind env w id userID k hget hk
    exact ⟨status, by rw [h1, he]; rfl⟩

/-- Claim C23, at a sample: a start before the start time, answered with 400
and the message of TooEarly. -/
theorem failure_kinds_share_status_witness :
    (BookingHandler.StartBooking (okEnv 50 "") (demoWorld StatusConfirmed) "b1" "U1").1 =
      { status := 400, body := "booking cannot be started before scheduled time" ++ "\n" } :=
  (failure_kinds_share_status (okEnv 50 "") (demoWorld StatusConfirmed) "b1" "U1" {}
    (by decide)).1 _ (by decide)

/-- Claim C24: for the start, complete and cancel handlers, with the header
`X-User-ID` absent or empty the status is 401 and the use case is not called
(the world is as it was); with the header there (and, for a completion, a body
that decodes) the status is 204 when the use case returns success and 400 when
it returns an error. -/
theorem handler_status_codes (env : Env) (w : World) (id userID : String)
    (req : CompleteBookingRequest) (body : Option CompleteBookingRequest) :
    (userID = "" →
      BookingHandler.StartBooking env w id userID =
        ({ status := 401, body := "User ID required\n" }, w) ∧
      BookingHandler.CompleteBooking env w id userID body =
        ({ status := 401, body := "User ID required\n" }, w) ∧
      BookingHandler.CancelBooking env w id userID =
        ({ status := 401, body := "User ID required\n" }, w)) ∧
    (userID ≠ "" →
      ((StartBooking env w id userID).1 = none →
        (BookingHandler.StartBooking env w id userID).1.status = 204) ∧
      ((StartBooking env w id userID).1 ≠ none →
        (BookingHandler.StartBooking env w id userID).1.status = 400) ∧
      ((CompleteBooking env w id userID req).1 = none →
        (BookingHandler.CompleteBooking env w id userID (some req)).1.status = 204) ∧
      ((CompleteBooking env w id userID req).1 ≠ none →
        (BookingHandler.CompleteBooking env w id userID (some req)).1.status = 400) ∧
      ((CancelBooking env w id userID).1 = none →
        (BookingHandler.CancelBooking env w id userID).1.status = 204) ∧
      ((CancelBooking env w id userID).1 ≠ none →
        (BookingHandler.CancelBooking env w id userID).1.status = 400)) := by
  constructor
  · intro h
    subst h
    exact ⟨rfl, rfl, rfl⟩
  · intro h
    obtain ⟨h1, h2, h3⟩ := handlers_answer env w id userID req h
    refine ⟨?_, ?_, ?_, ?_, ?_, ?_⟩
    · intro he; rw [h1, he]
    · intro he; rw [h1]
      cases hr : (StartBooking env w id userID).1 with
      | none => exact absurd hr he
      | some e => rfl
    · intro he; rw [h2, he]
    · intro he; rw [h2]
      cases hr : (CompleteBooking env w id userID req).1 with
      | none => exact absurd hr he
      | some e => rfl
    · intro he; rw [h3, he]
    · intro he; rw [h3]
      cases hr : (CancelBooking env w id userID).1 with
      | none => exact absurd hr he
      | some e => rfl

/-- Claim C24, at a sample: no header, then a start by the owner at the start
time. -/
theorem handler_status_codes_witness :
    BookingHandler.StartBooking (okEnv 100 "") (demoWorld StatusConfirmed) "b1" "" =
      ({ status := 401, body := "User ID required\n" }, demoWorld StatusConfirmed) ∧
    (BookingHandler.StartBooking (okEnv 100 "") (demoWorld StatusConfirmed) "b1" "U1").1.status =
      204 :=
  have h := handler_status_codes (okEnv 100 "") (demoWorld StatusConfirmed) "b1"
  ⟨((h "" {} none).1 rfl).1, ((h "U1" {} none).2 (by decide)).1 (by decide)⟩

/-! ## Order of the checks -/

/-- Claim C25: in `StartBooking`, `CompleteBooking` and `CancelBooking` the
checks run in the order existence (the read), ownership, status and, for
Start, start time; the first check that fails decides the error, whatever the
later ones would give, and the world after the call is the world before with
the read recorded: the table is unchanged and neither the repository's
`Update` nor `UpdateVehicleStatus` has been called. When every check passes
and the repository's `Update` returns an error, the call returns that error,
wrapped, and `UpdateVehicleStatus` is not called. -/
theorem checks_in_order (env : Env) (w : World) (id userID : String)
    (req : CompleteBookingRequest) :
    (∀ e, GetByID env.getErr w.rows id = .error e →
      StartBooking env w id userID = (some e, logCall w (.repoGetByID id)) ∧
      CompleteBooking env w id userID req = (some e, logCall w (.repoGetByID id)) ∧
      CancelBooking env w id userID = (some e, logCall w (.repoGetByID id))) ∧
    (∀ b, GetByID env.getErr w.rows id = .ok b → b.UserID ≠ userID →
      StartBooking env w id userID =
        (some "unauthorized: booking does not belong to user",
          logCall w (.repoGetByID id)) ∧
      CompleteBooking env w id userID req =
        (some "unauthorized: booking does not belong to user",
          logCall w (.repoGetByID id)) ∧
      CancelBooking env w id userID =
        (some "unauthorized: booking does not belong to user",
          logCall w (.repoGetByID id))) ∧
    (∀ b, GetByID env.getErr w.rows id = .ok b → b.UserID = userID →
      (b.Status ≠ StatusConfirmed →
        StartBooking env w id userID =
          (some ("cannot start booking with status: " ++ b.Status),
            logCall w (.repoGetByID id))) ∧
      (b.Status ≠ StatusActive →
        CompleteBooking env w id userID req =
          (some ("cannot complete booking with status: " ++ b.Status),
            logCall w (.repoGetByID id))) ∧
      (b.Status = StatusCompleted ∨ b.Status = StatusCancelled →
        CancelBooking env w id userID =
          (some ("cannot cancel booking with status: " ++ b.Status),
            logCall w (.repoGetByID id))) ∧
      (b.Status = StatusConfirmed → env.now < b.StartTime →
        StartBooking env w id userID =
          (some "booking cannot be started before scheduled time",
            logCall w (.repoGetByID id)))) ∧
    (∀ b e, GetByID env.getErr w.rows id = .ok b → b.UserID = userID →
      (b.Status = StatusConfirmed → ¬ env.now < b.StartTime →
        (Update env w.rows id { Status := some StatusActive }).1 = .error e →
        (StartBooking env w id userID).1 = some ("failed to start booking: " ++ e) ∧
        vehicleStatusCalls (StartBooking env w id userID).2.calls =
          vehicleStatusCalls w.calls) ∧
      (b.Status = StatusActive →
        (Update env w.rows id (completeUpdates env req)).1 = .error e →
        (CompleteBooking env w id userID req).1 = some ("failed to complete booking: " ++ e) ∧
        vehicleStatusCalls (CompleteBooking env w id userID req).2.calls =
          vehicleStatusCalls w.calls) ∧
      (b.Status ≠ StatusCompleted → b.Status ≠ StatusCancelled →
        (Update env w.rows id { Status := some StatusCancelled }).1 = .error e →
        (CancelBooking env w id userID).1 = some ("failed to cancel booking: " ++ e) ∧
        vehicleStatusCalls (CancelBooking env w id userID).2.calls =
          vehicleStatusCalls w.calls)) := by
  refine ⟨?_, ?_, ?_, ?_⟩
  · intro e hg
    refine ⟨?_, ?_, ?_⟩
    · unfold StartBooking; simp only [logCall, hg]
    · unfold CompleteBooking; simp only [logCall, hg]
    · unfold CancelBooking; simp only [logCall, hg]
  · intro b hg hu
    refine ⟨?_, ?_, ?_⟩
    · unfold StartBooking; simp only [logCall, hg, hu, ne_eq, not_false_eq_true, if_true]
    · unfold CompleteBooking; simp only [logCall, hg, hu, ne_eq, not_false_eq_true, if_true]
    · unfold CancelBooking; simp only [logCall, hg, hu, ne_eq, not_false_eq_true, if_true]
  · intro b hg hu
    refine ⟨?_, ?_, ?_, ?_⟩
    · intro hs
      unfold StartBooking
      simp only [logCall, hg, hu, hs, ne_eq, not_true_eq_false, not_false_eq_true, if_true,
        if_false]
    · intro hs
      unfold CompleteBooking
      simp only [logCall, hg, hu, hs, ne_eq, not_true_eq_false, not_false_eq_true, if_true,
        if_false]
    · intro hs
      unfold CancelBooking
      simp only [logCall, hg, hu, hs, ne_eq, not_true_eq_false, if_true, if_false]
    · intro hs ht
      unfold StartBooking
      simp only [logCall, hg, hu, hs, ht, ne_eq, not_true_eq_false, if_true, if_false]
  · intro b e hg hu
    refine ⟨?_, ?_, ?_⟩
    · intro hs ht hU
      unfold StartBooking
      simp only [logCall, hg, hu, hs, ht, ne_eq, not_true_eq_false, if_false]
      rcases hr : Update env w.rows id { Status := some StatusActive } with ⟨r, rows⟩
      rw [hr] at hU
      simp only at hU
      subst hU
      simp [vehicleStatusCalls, List.filterMap_append]
    · intro hs hU
      unfold CompleteBooking
      simp only [logCall, hg, hu, hs, ne_eq, not_true_eq_false, if_false]
      unfold completeUpdates at hU
      rcases hr : Update env w.rows id _ with ⟨r, rows⟩
      rw [hr] at hU
      simp only at hU
      subst hU
      simp [vehicleStatusCalls, List.filterMap_append]
    · intro h1 h2 hU
      unfold CancelBooking
      simp only [logCall, hg, hu, h1, h2, or_self, ne_eq, not_true_eq_false, if_false]
      rcases hr : Update env w.rows id { Status := some StatusCancelled } with ⟨r, rows⟩
      rw [hr] at hU
      simp only at hU
      subst hU
      simp [vehicleStatusCalls, List.filterMap_append]

/-- Claim C25, at a sample: a start by a stranger on a completed booking
before its start time is refused on ownership, the first of the three checks
it fails; and a start whose `UPDATE` fails makes no vehicle call. -/
theorem checks_in_order_witness :
    StartBooking (okEnv 50 "") (demoWorld StatusCompleted) "b1" "U2" =
      (some "unauthorized: booking does not belong to user",
        logCall (demoWorld StatusCompleted) (.repoGetByID "b1")) ∧
    ((StartBooking failingUpdateEnv (demoWorld StatusConfirmed) "b1" "U1").1 =
        some ("failed to start booking: " ++ "connection lost") ∧
      vehicleStatusCalls (StartBooking failingUpdateEnv (demoWorld StatusConfirmed) "b1"
        "U1").2.calls = vehicleStatusCalls (demoWorld StatusConfirmed).calls) :=
  ⟨((checks_in_order (okEnv 50 "") (demoWorld StatusCompleted) "b1" "U2" {}).2.1
      (demoBooking StatusCompleted) rfl (by decide)).1,
    ((checks_in_order failingUpdateEnv (demoWorld StatusConfirmed) "b1" "U1" {}).2.2.2
      (demoBooking StatusConfirmed) "connection lost" rfl rfl).1 rfl (by decide) rfl⟩

/-! ## Notification service -/

namespace NotificationService

theorem sendCalls_append (a b : List Call) : sendCalls (a ++ b) = sendCalls a ++ sendCalls b := by
  simp [sendCalls]

theorem statusUpdates_append (a b : List Call) :
    statusUpdates (a ++ b) = statusUpdates a ++ statusUpdates b := by
  simp [statusUpdates]

/-- `sendNotification`, the user found: the two lookups, the attempts on the
selected channels, and the update that closes the call. -/
theorem sendNotification_of_user (env : Env) (n : Notification) (user : User)
    (hu : env.getUser n.UserID = .ok user) :
    sendNotification env n =
      [Call.getUser n.UserID, Call.getUserPreferences n.UserID] ++
        selectedChannels n user (effectivePreferences env n) ++
        (if (selectedChannels n user (effectivePreferences env n)).any
            (fun c => env.result c = none) then
          [Call.repoUpdate n.ID { Status := some StatusSent, SentAt := some env.now }]
        else markAsFailed n.ID "failed to send through any channel") := by
  unfold sendNotification selectedChannels
  simp only [hu]
  rw [show (match env.getUserPreferences n.UserID with
      | .ok p => p
      | .error _ =>
        ({ UserID := n.UserID, EmailEnabled := true, SMSEnabled := true,
           PushEnabled := true } : UserPreferences)) = effectivePreferences env n from rfl]
  generalize effectivePreferences env n = p
  by_cases hp : n.Priority = PriorityUrgent
  · simp only [hp, if_true]
    by_cases h1 : user.Email = "" <;> by_cases h2 : user.Phone = "" <;>
      cases h3 : env.sendEmail user.Email n.Title n.Message <;>
      cases h4 : env.sendSMS user.Phone n.Message <;>
      cases h5 : env.sendPush n.UserID n.Title n.Message n.Data <;>
      simp [attempt, Env.result, h1, h2, h3, h4, h5]
  · simp only [hp, if_false]
    by_cases h1 : p.EmailEnabled = true ∧ user.Email ≠ "" <;>
      by_cases h2 : p.PushEnabled = true <;>
      by_cases h6 : p.SMSEnabled = true ∧ n.Priority = PriorityHigh ∧ user.Phone ≠ "" <;>
      cases h3 : env.sendEmail user.Email n.Title n.Message <;>
      cases h4 : env.sendSMS user.Phone n.Message <;>
      cases h5 : env.sendPush n.UserID n.Title n.Message n.Data <;>
      simp [attempt, Env.result, h1, h2, h3, h4, h5, h6]

theorem sendCalls_selectedChannels (n : Notification) (user : User) (p : UserPreferences) :
    sendCalls (selectedChannels n user p) = selectedChannels n user p := by
  unfold selectedChannels sendCalls
  split_ifs <;> simp

/-- The attempts `sendNotification` makes, the user found. -/
theorem sendCalls_sendNotification (env : Env) (n : Notification) (user : User)
    (hu : env.getUser n.UserID = .ok user) :
    sendCalls (sendNotification env n) =
      selectedChannels n user (effectivePreferences env n) := by
  rw [sendNotification_of_user env n user hu, sendCalls_append, sendCalls_append,
    sendCalls_selectedChannels]
  have h1 : sendCalls [Call.getUser n.UserID, Call.getUserPreferences n.UserID] = [] := rfl
  have h2 : sendCalls (if (selectedChannels n user (effectivePreferences env n)).any
      (fun c => env.result c = none) then
        [Call.repoUpdate n.ID { Status := some StatusSent, SentAt := some env.now }]
      else markAsFailed n.ID "failed to send through any channel") = [] := by
    split_ifs <;> rfl
  rw [h1, h2, List.nil_append, List.append_nil]


theorem emailAttempted_sendNotification (env : Env) (n : Notification) (user : User)
    (hu : env.getUser n.UserID = .ok user) :
    emailAttempted (sendNotification env n) =
      emailAttempted (selectedChannels n user (effectivePreferences env n)) := by
  rw [sendNotification_of_user env n user hu]
  unfold emailAttempted
  split_ifs <;> simp [markAsFailed]

theorem smsAttempted_sendNotification (env : Env) (n : Notification) (user : User)
    (hu : env.getUser n.UserID = .ok user) :
    smsAttempted (sendNotification env n) =
      smsAttempted (selectedChannels n user (effectivePreferences env n)) := by
  rw [sendNotification_of_user env n user hu]
  unfold smsAttempted
  split_ifs <;> simp [markAsFailed]

theorem pushAttempted_sendNotification (env : Env) (n : Notification) (user : User)
    (hu : env.getUser n.UserID = .ok user) :
    pushAttempted (sendNotification env n) =
      pushAttempted (selectedChannels n user (effectivePreferences env n)) := by
  rw [sendNotification_of_user env n user hu]
  unfold pushAttempted
  split_ifs <;> simp [markAsFailed]

/-- The channels attempted for an urgent notification. -/
theorem selectedChannels_urgent (n : Notification) (user : User) (p : UserPreferences)
    (hp : n.Priority = PriorityUrgent) :
    (emailAttempted (selectedChannels n user p) = true ↔ user.Email ≠ "") ∧
    (smsAttempted (selectedChannels n user p) = true ↔ user.Phone ≠ "") ∧
    pushAttempted (selectedChannels n user p) = true := by
  unfold selectedChannels emailAttempted smsAttempted pushAttempted
  simp only [hp, if_true]
  by_cases h1 : user.Email = "" <;> by_cases h2 : user.Phone = "" <;> simp [h1, h2]

/-- The channels attempted for a notification of another priority. -/
theorem selectedChannels_other (n : Notification) (user : User) (p : UserPreferences)
    (hp : n.Priority ≠ PriorityUrgent) :
    (emailAttempted (selectedChannels n user p) = true ↔
      p.EmailEnabled = true ∧ user.Email ≠ "") ∧
    (pushAttempted (selectedChannels n user p) = true ↔ p.PushEnabled = true) ∧
    (smsAttempted (selectedChannels n user p) = true ↔
      p.SMSEnabled = true ∧ n.Priority = PriorityHigh ∧ user.Phone ≠ "") := by
  unfold selectedChannels emailAttempted smsAttempted pushAttempted
  simp only [hp, if_false]
  by_cases h1 : p.EmailEnabled = true ∧ user.Email ≠ "" <;>
    by_cases h2 : p.PushEnabled = true <;>
    by_cases h3 : p.SMSEnabled = true ∧ n.Priority = PriorityHigh ∧ user.Phone ≠ "" <;>
    simp [h1, h2, h3]

/-- The update `sendNotification` hands to the repository, the user found. -/
theorem statusUpdates_sendNotification (env : Env) (n : Notification) (user : User)
    (hu : env.getUser n.UserID = .ok user) :
    statusUpdates (sendNotification env n) =
      if (selectedChannels n user (effectivePreferences env n)).any
          (fun c => env.result c = none) then
        [(n.ID, { Status := some StatusSent, SentAt := some env.now })]
      else [(n.ID, { Status := some StatusFailed })] := by
  rw [sendNotification_of_user env n user hu, statusUpdates_append, statusUpdates_append]
  have h1 : statusUpdates [Call.getUser n.UserID, Call.getUserPreferences n.UserID] = [] := rfl
  have h2 : statusUpdates (selectedChannels n user (effectivePreferences env n)) = [] := by
    unfold selectedChannels statusUpdates
    split_ifs <;> simp
  rw [h1, h2]
  split_ifs <;> rfl

/-- `sendNotification`, the user lookup failing. -/
theorem sendNotification_of_no_user (env : Env) (n : Notification) (e : String)
    (hu : env.getUser n.UserID = .error e) :
    sendNotification env n =
      [Call.getUser n.UserID] ++ markAsFailed n.ID ("failed to get user: " ++ e) := by
  unfold sendNotification
  simp only [hu]

/-- Claim C26: channel selection in `sendNotification`, the user found. The
attempts are those of the specification's selection, in the code's order. For
an urgent notification, whatever the preferences, email is attempted iff the
address is not empty, SMS iff the phone is not empty, push always. For another
priority, with the preferences `p` the lookup returns, email is attempted iff
`p` enables email and the address is not empty, push iff `p` enables push, SMS
iff `p` enables SMS, the priority is high and the phone is not empty. When the
lookup fails, the same holds with the three channels enabled. -/
theorem channel_selection (env : Env) (n : Notification) (user : User)
    (hu : env.getUser n.UserID = .ok user) :
    sendCalls (sendNotification env n) =
      selectedChannels n user (effectivePreferences env n) ∧
    (n.Priority = PriorityUrgent →
      (emailAttempted (sendNotification env n) = true ↔ user.Email ≠ "") ∧
      (smsAttempted (sendNotification env n) = true ↔ user.Phone ≠ "") ∧
      pushAttempted (sendNotification env n) = true) ∧
    (n.Priority ≠ PriorityUrgent → ∀ p, env.getUserPreferences n.UserID = .ok p →
      (emailAttempted (sendNotification env n) = true ↔
        p.EmailEnabled = true ∧ user.Email ≠ "") ∧
      (pushAttempted (sendNotification env n) = true ↔ p.PushEnabled = true) ∧
      (smsAttempted (sendNotification env n) = true ↔
        p.SMSEnabled = true ∧ n.Priority = PriorityHigh ∧ user.Phone ≠ "")) ∧
    (n.Priority ≠ PriorityUrgent → ∀ e, env.getUserPreferences n.UserID = .error e →
      (emailAttempted (sendNotification env n) = true ↔ user.Email ≠ "") ∧
      pushAttempted (sendNotification env n) = true ∧
      (smsAttempted (sendNotification env n) = true ↔
        n.Priority = PriorityHigh ∧ user.Phone ≠ "")) := by
  rw [emailAttempted_sendNotification env n user hu, smsAttempted_sendNotification env n user hu,
    pushAttempted_sendNotification env n user hu]
  refine ⟨sendCalls_sendNotification env n user hu, ?_, ?_, ?_⟩
  · intro hp
    exact selectedChannels_urgent n user _ hp
  · intro hp p hpref
    have hE : effectivePreferences env n = p := by
      unfold effectivePreferences; rw [hpref]
    rw [hE]
    exact selectedChannels_other n user p hp
  · intro hp e hpref
    have hE : effectivePreferences env n =
        { UserID := n.UserID, EmailEnabled := true, SMSEnabled := true, PushEnabled := true } := by
      unfold effectivePreferences; rw [hpref]
    rw [hE]
    have h := selectedChannels_other n user
      { UserID := n.UserID, EmailEnabled := true, SMSEnabled := true, PushEnabled := true } hp
    simpa using h

/-- Claim C26, at samples: with the preference lookup failing, an urgent
notification goes to email, SMS and push, one of normal priority to email and
push; with every channel switched off, the urgent one still goes to all three
and the normal one to none. -/
theorem channel_selection_witness :
    demoEnv.getUser urgentNotification.UserID = .ok demoUser ∧
    sendCalls (sendNotification demoEnv urgentNotification) =
      [Call.sendEmail "u1@example.com" "Alert" "Now", Call.sendSMS "+100" "Now",
       Call.sendPush "U1" "Alert" "Now" []] ∧
    sendCalls (sendNotification demoEnv normalNotification) =
      [Call.sendEmail "u1@example.com" "Hello" "Later", Call.sendPush "U1" "Hello" "Later" []] ∧
    sendCalls (sendNotification mutedEnv urgentNotification) =
      [Call.sendEmail "u1@example.com" "Alert" "Now", Call.sendSMS "+100" "Now",
       Call.sendPush "U1" "Alert" "Now" []] ∧
    sendCalls (sendNotification mutedEnv normalNotification) = [] :=
  ⟨rfl, (channel_selection demoEnv urgentNotification demoUser rfl).1.trans (by decide),
    (channel_selection demoEnv normalNotification demoUser rfl).1.trans (by decide),
    (channel_selection mutedEnv urgentNotification demoUser rfl).1.trans (by decide),
    (channel_selection mutedEnv normalNotification demoUser rfl).1.trans (by decide)⟩

/-- Claim C27: best-effort fan-out in `sendNotification`. When the user lookup
fails no channel is attempted and the one update sets the status to failed.
When the user is found: the attempts do not depend on what the sender answers
(any environment with the same user and preference lookups sees the same
attempts, so a failing channel stops no later one); the one update handed to
the repository sets the status to sent, with `SentAt` the current time, when
some attempt returned no error, and sets the status to failed, `SentAt` unset,
when every attempt returned an error, in particular when there was none. -/
theorem best_effort_fan_out (env : Env) (n : Notification) :
    (∀ e, env.getUser n.UserID = .error e →
      sendCalls (sendNotification env n) = [] ∧
      statusUpdates (sendNotification env n) = [(n.ID, { Status := some StatusFailed })]) ∧
    (∀ user, env.getUser n.UserID = .ok user →
      (∀ env1 : Env, env1.getUser = env.getUser →
        env1.getUserPreferences = env.getUserPreferences →
        sendCalls (sendNotification env1 n) = sendCalls (sendNotification env n)) ∧
      ((∃ c ∈ sendCalls (sendNotification env n), env.result c = none) →
        statusUpdates (sendNotification env n) =
          [(n.ID, { Status := some StatusSent, SentAt := some env.now })]) ∧
      ((∀ c ∈ sendCalls (sendNotification env n), env.result c ≠ none) →
        statusUpdates (sendNotification env n) =
          [(n.ID, { Status := some StatusFailed })])) := by
  constructor
  · intro e hu
    rw [sendNotification_of_no_user env n e hu]
    exact ⟨rfl, rfl⟩
  · intro user hu
    refine ⟨?_, ?_, ?_⟩
    · intro env1 h1 h2
      have hu1 : env1.getUser n.UserID = .ok user := by rw [h1]; exact hu
      rw [sendCalls_sendNotification env1 n user hu1, sendCalls_sendNotification env n user hu]
      unfold effectivePreferences
      rw [h2]
    · rw [sendCalls_sendNotification env n user hu, statusUpdates_sendNotification env n user hu]
      rintro ⟨c, hc, hr⟩
      rw [if_pos]
      rw [List.any_eq_true]
      exact ⟨c, hc, by simpa using hr⟩
    · rw [sendCalls_sendNotification env n user hu, statusUpdates_sendNotification env n user hu]
      intro hall
      rw [if_neg]
      rw [List.any_eq_true]
      rintro ⟨c, hc, hr⟩
      exact hall c hc (by simpa using hr)

/-- Claim C27, at samples: with email failing and the other channels working,
the urgent notification is attempted on all three channels and marked sent at
the current time; with every channel failing it is attempted on all three and
marked failed; with the user lookup failing nothing is attempted and it is
marked failed; with every channel switched off, a normal notification is not
attempted and marked failed. -/
theorem best_effort_fan_out_witness :
    demoEnv.getUser urgentNotification.UserID = .ok demoUser ∧
    (∃ c ∈ sendCalls (sendNotification demoEnv urgentNotification),
      demoEnv.result c = none) ∧
    statusUpdates (sendNotification demoEnv urgentNotification) =
      [("n1", { Status := some StatusSent, SentAt := some 500 })] ∧
    sendCalls (sendNotification allFailingEnv urgentNotification) =
      sendCalls (sendNotification demoEnv urgentNotification) ∧
    statusUpdates (sendNotification allFailingEnv urgentNotification) =
      [("n1", { Status := some StatusFailed })] ∧
    (sendCalls (sendNotification noUserEnv urgentNotification) = [] ∧
      statusUpdates (sendNotification noUserEnv urgentNotification) =
        [("n1", { Status := some StatusFailed })]) ∧
    statusUpdates (sendNotification mutedEnv normalNotification) =
      [("n2", { Status := some StatusFailed })] :=
  ⟨rfl, by decide,
    ((best_effort_fan_out demoEnv urgentNotification).2 demoUser rfl).2.1 (by decide),
    ((best_effort_fan_out demoEnv urgentNotification).2 demoUser rfl).1 allFailingEnv rfl rfl,
    ((best_effort_fan_out allFailingEnv urgentNotification).2 demoUser rfl).2.2 (by decide),
    (best_effort_fan_out noUserEnv urgentNotification).1 "user service down" rfl,
    ((best_effort_fan_out mutedEnv normalNotification).2 demoUser rfl).2.2 (by decide)⟩

end NotificationService

/-! ## Observability middleware -/

namespace Middleware

theorem indexChars_not_mem (c : Char) (s : List Char) (h : c ∉ s) :
    indexChars s [c] = -1 := by
  induction s with
  | nil => simp [indexChars, List.isPrefixOf]
  | cons x t ih =>
    have hx : c ≠ x := fun e => h (e ▸ List.mem_cons_self _ _)
    have ht : c ∉ t := fun m => h (List.mem_cons_of_mem _ m)
    unfold indexChars
    simp [List.isPrefixOf, hx, ih ht]

theorem indexChars_split (c : Char) (a t : List Char) (h : c ∉ a) :
    indexChars (a ++ c :: t) [c] = a.length := by
  induction a with
  | nil => unfold indexChars; simp [List.isPrefixOf]
  | cons x a ih =>
    have hx : c ≠ x := fun e => h (e ▸ List.mem_cons_self _ _)
    have ha : c ∉ a := fun m => h (List.mem_cons_of_mem _ m)
    have hlen : ¬ ((a.length : Int) = -1) := by omega
    unfold indexChars
    simp only [List.cons_append, ih ha, List.length_cons]
    simp [List.isPrefixOf, hx, hlen]

theorem lastIndexChars_not_mem (c : Char) (s : List Char) (h : c ∉ s) :
    lastIndexChars s [c] = -1 := by
  induction s with
  | nil => simp [lastIndexChars, List.isPrefixOf]
  | cons x t ih =>
    have hx : c ≠ x := fun e => h (e ▸ List.mem_cons_self _ _)
    have ht : c ∉ t := fun m => h (List.mem_cons_of_mem _ m)
    unfold lastIndexChars
    simp [List.isPrefixOf, hx, ih ht]

theorem lastIndexChars_split (c : Char) (a t : List Char) (h : c ∉ t) :
    lastIndexChars (a ++ c :: t) [c] = a.length := by
  induction a with
  | nil =>
    unfold lastIndexChars
    simp [List.isPrefixOf, lastIndexChars_not_mem c t h]
  | cons x a ih =>
    have hlen : ¬ ((a.length : Int) = -1) := by omega
    unfold lastIndexChars
    simp only [List.cons_append, ih, List.length_cons]
    simp [hlen]

/-- Claim C28: `getClientIP`. With a non-empty `X-Forwarded-For`, the result
is the text before its first comma, trimmed, and the whole value, trimmed,
when it has no comma. Otherwise, with a non-empty `X-Real-IP`, the result is
that value, trimmed. Otherwise the result is `RemoteAddr` up to its last
colon, and `RemoteAddr` itself when it has no colon. -/
theorem getClientIP_cases (r : Request) :
    (r.Header "X-Forwarded-For" ≠ "" →
      (∀ a t : List Char, (r.Header "X-Forwarded-For").data = a ++ ',' :: t → ',' ∉ a →
        getClientIP r = TrimSpace (String.mk a)) ∧
      (',' ∉ (r.Header "X-Forwarded-For").data →
        getClientIP r = TrimSpace (r.Header "X-Forwarded-For"))) ∧
    (r.Header "X-Forwarded-For" = "" → r.Header "X-Real-IP" ≠ "" →
      getClientIP r = TrimSpace (r.Header "X-Real-IP")) ∧
    (r.Header "X-Forwarded-For" = "" → r.Header "X-Real-IP" = "" →
      (∀ a t : List Char, r.RemoteAddr.data = a ++ ':' :: t → ':' ∉ t →
        getClientIP r = String.mk a) ∧
      (':' ∉ r.RemoteAddr.data → getClientIP r = r.RemoteAddr)) := by
  refine ⟨?_, ?_, ?_⟩
  · intro hx
    constructor
    · intro a t hd ha
      have hi : Index (r.Header "X-Forwarded-For") "," = a.length := by
        unfold Index; rw [hd]; exact indexChars_split ',' a t ha
      have hs : sliceTo (r.Header "X-Forwarded-For") (a.length : Int) = String.mk a := by
        unfold sliceTo; rw [hd]; simp
      unfold getClientIP
      simp only [hx, ne_eq, not_false_eq_true, if_true, hi, hs]
      rw [if_pos]
      omega
    · intro hn
      have hi : Index (r.Header "X-Forwarded-For") "," = -1 := by
        unfold Index; exact indexChars_not_mem ',' _ hn
      unfold getClientIP
      simp [hx, hi]
  · intro hx hr
    unfold getClientIP
    simp [hx, hr]
  · intro hx hr
    constructor
    · intro a t hd ht
      have hi : LastIndex r.RemoteAddr ":" = a.length := by
        unfold LastIndex; rw [hd]; exact lastIndexChars_split ':' a t ht
      have hs : sliceTo r.RemoteAddr (a.length : Int) = String.mk a := by
        unfold sliceTo; rw [hd]; simp
      unfold getClientIP
      simp only [hx, hr, ne_eq, not_true_eq_false, if_false, hi, hs]
      rw [if_pos]
      omega
    · intro hn
      have hi : LastIndex r.RemoteAddr ":" = -1 := by
        unfold LastIndex; exact lastIndexChars_not_mem ':' _ hn
      unfold getClientIP
      simp [hx, hr, hi]

/-- Claim C28, at samples: the first of two forwarded addresses, trimmed; the
real-IP header, trimmed, when nothing is forwarded; the remote address without
its port otherwise, cut at the last colon. -/
theorem getClientIP_cases_witness :
    (requestOf " 10.0.0.1 , 10.0.0.2" "10.9.9.9" "127.0.0.1:80").Header "X-Forwarded-For" ≠ "" ∧
    getClientIP (requestOf " 10.0.0.1 , 10.0.0.2" "10.9.9.9" "127.0.0.1:80") = "10.0.0.1" ∧
    getClientIP (requestOf "" " 10.9.9.9\t" "127.0.0.1:80") = "10.9.9.9" ∧
    getClientIP (requestOf "" "" "[::1]:8080") = "[::1]" ∧
    getClientIP (requestOf "" "" "localhost") = "localhost" :=
  ⟨by decide,
    ((getClientIP_cases (requestOf " 10.0.0.1 , 10.0.0.2" "10.9.9.9" "127.0.0.1:80")).1
      (by decide)).1 " 10.0.0.1 ".data " 10.0.0.2".data (by decide) (by decide) |>.trans
      (by decide),
    ((getClientIP_cases (requestOf "" " 10.9.9.9\t" "127.0.0.1:80")).2.1 (by decide)
      (by decide)).trans (by decide),
    (((getClientIP_cases (requestOf "" "" "[::1]:8080")).2.2 (by decide) (by decide)).1
      "[::1]".data "8080".data (by decide) (by decide)).trans (by decide),
    ((getClientIP_cases (requestOf "" "" "localhost")).2.2 (by decide) (by decide)).2
      (by decide)⟩

end Middleware

/-! ## Vehicle service -/

theorem mem_vehicleStatusCalls_transitionTail (env : Env) (w : World) (id : String)
    (u : UpdateBookingRequest) (m v s : String) (c : String × String)
    (hc : c ∈ vehicleStatusCalls (transitionTail env w id u m v s).2.calls) :
    c ∈ vehicleStatusCalls w.calls ∨ c = (v, s) := by
  unfold transitionTail at hc
  cases he : env.execErr with
  | some e =>
    rw [he] at hc
    simp only [vehicleStatusCalls_append] at hc
    simp [vehicleStatusCalls] at hc
    exact Or.inl (by simpa [vehicleStatusCalls] using hc)
  | none =>
    rw [he] at hc
    cases hr : env.reGetErr with
    | some e =>
      rw [hr] at hc
      simp only [vehicleStatusCalls_append] at hc
      simp [vehicleStatusCalls] at hc
      exact Or.inl (by simpa [vehicleStatusCalls] using hc)
    | none =>
      rw [hr] at hc
      simp only [propagateVehicleStatus_vehicleStatusCalls, vehicleStatusCalls_append] at hc
      simp [vehicleStatusCalls] at hc
      rcases hc with hc | hc
      · exact Or.inl (by simpa [vehicleStatusCalls] using hc)
      · exact Or.inr hc

theorem vehicleStatusCalls_logCall_get (w : World) (id : String) :
    vehicleStatusCalls (logCall w (.repoGetByID id)).calls = vehicleStatusCalls w.calls := by
  simp [logCall, vehicleStatusCalls, List.filterMap_append]

namespace VehicleService

theorem UpdateVehicleStatus_invalid (env : Env) (id : String) (status : VehicleStatus)
    (hid : id ≠ "") (hs : status ∉ validStatuses) :
    UpdateVehicleStatus env id status = (some ("invalid vehicle status: " ++ status), []) := by
  unfold UpdateVehicleStatus
  have h : validStatuses.any (fun validStatus => status == validStatus) = false := by
    rw [List.any_eq_false]
    intro x hx hxe
    exact hs ((beq_iff_eq.mp hxe) ▸ hx)
  simp [hid, h]

theorem UpdateVehicleStatus_valid (env : Env) (id : String) (status : VehicleStatus)
    (hid : id ≠ "") (hs : status ∈ validStatuses) :
    (UpdateVehicleStatus env id status).2.head? = some (Call.getByID id) := by
  unfold UpdateVehicleStatus
  have h : validStatuses.any (fun validStatus => status == validStatus) = true := by
    rw [List.any_eq_true]
    exact ⟨status, hs, beq_self_eq_true _⟩
  simp only [hid, h, if_false, not_true_eq_false]
  cases env.getByID id with
  | error e => rfl
  | ok v => cases env.updateStatus id status <;> rfl

/-- Claim C29: `UpdateVehicleStatus` of the vehicle use case, the vehicle id
not empty. It returns the invalid-status error, with no call on the
repository, exactly when the status is none of available, rented, maintenance
and offline; with one of the four its first call reads the repository. It
rejects `in_use` and lets `available` through. On the booking side, every
vehicle call `StartBooking` adds carries the status `in_use`, and every one
`CompleteBooking` or `CancelBooking` adds carries `available`. -/
theorem UpdateVehicleStatus_validation (env : Env) (id : String) (status : VehicleStatus)
    (hid : id ≠ "") :
    (UpdateVehicleStatus env id status = (some ("invalid vehicle status: " ++ status), []) ↔
      ¬ (status = "available" ∨ status = "rented" ∨ status = "maintenance" ∨
        status = "offline")) ∧
    ((status = "available" ∨ status = "rented" ∨ status = "maintenance" ∨
        status = "offline") →
      (UpdateVehicleStatus env id status).2.head? = some (Call.getByID id)) ∧
    UpdateVehicleStatus env id "in_use" = (some "invalid vehicle status: in_use", []) ∧
    (UpdateVehicleStatus env id "available").2.head? = some (Call.getByID id) ∧
    (UpdateVehicleStatus env id "available").1 ≠ some "invalid vehicle status: available" ∧
    (∀ (benv : BookingService.Env) (w : World) (bid userID : String) (c : String × String),
      c ∈ vehicleStatusCalls (StartBooking benv w bid userID).2.calls →
      c ∈ vehicleStatusCalls w.calls ∨ c.2 = "in_use") ∧
    (∀ (benv : BookingService.Env) (w : World) (bid userID : String)
      (req : CompleteBookingRequest) (c : String × String),
      c ∈ vehicleStatusCalls (CompleteBooking benv w bid userID req).2.calls →
      c ∈ vehicleStatusCalls w.calls ∨ c.2 = "available") ∧
    (∀ (benv : BookingService.Env) (w : World) (bid userID : String) (c : String × String),
      c ∈ vehicleStatusCalls (CancelBooking benv w bid userID).2.calls →
      c ∈ vehicleStatusCalls w.calls ∨ c.2 = "available") := by
  have hmem : ∀ s : VehicleStatus, s ∈ validStatuses ↔
      (s = "available" ∨ s = "rented" ∨ s = "maintenance" ∨ s = "offline") := by
    intro s; simp [validStatuses]
  refine ⟨?_, ?_, ?_, ?_, ?_, ?_, ?_, ?_⟩
  · constructor
    · intro h hv
      have := UpdateVehicleStatus_valid env id status hid ((hmem status).mpr hv)
      rw [h] at this
      simp at this
    · intro hv
      exact UpdateVehicleStatus_invalid env id status hid (fun h => hv ((hmem status).mp h))
  · intro hv
    exact UpdateVehicleStatus_valid env id status hid ((hmem status).mpr hv)
  · exact UpdateVehicleStatus_invalid env id "in_use" hid (by decide)
  · exact UpdateVehicleStatus_valid env id "available" hid (by decide)
  · intro h
    have := UpdateVehicleStatus_valid env id "available" hid (by decide)
    have h2 : (UpdateVehicleStatus env id "available").2 ≠ [] := by
      intro hn; rw [hn] at this; simp at this
    unfold UpdateVehicleStatus at h h2
    have hv : validStatuses.any (fun validStatus => "available" == validStatus) = true := by
      decide
    simp only [hid, hv, if_false, not_true_eq_false] at h h2
    cases hg : env.getByID id with
    | error e =>
      rw [hg] at h
      simp only [Option.some.injEq] at h
      have := congrArg (fun s : String => s.data.head?) h
      simp at this
    | ok v =>
      rw [hg] at h
      cases hu : env.updateStatus id "available" with
      | none => rw [hu] at h; simp at h
      | some e =>
        rw [hu] at h
        simp only [Option.some.injEq] at h
        have := congrArg (fun s : String => s.data.head?) h
        simp at this
  · intro benv w bid userID c hc
    rcases StartBooking_cases benv w bid userID with ⟨b, _, _, _, _, he⟩ | ⟨_, he⟩
    · rw [he] at hc
      rcases mem_vehicleStatusCalls_transitionTail _ _ _ _ _ _ _ _ hc with h | h
      · exact Or.inl h
      · exact Or.inr (by rw [h])
    · rw [he, vehicleStatusCalls_logCall_get] at hc
      exact Or.inl hc
  · intro benv w bid userID req c hc
    rcases CompleteBooking_cases benv w bid userID req with ⟨b, _, _, _, he⟩ | ⟨_, he⟩
    · rw [he] at hc
      rcases mem_vehicleStatusCalls_transitionTail _ _ _ _ _ _ _ _ hc with h | h
      · exact Or.inl h
      · exact Or.inr (by rw [h])
    · rw [he, vehicleStatusCalls_logCall_get] at hc
      exact Or.inl hc
  · intro benv w bid userID c hc
    rcases CancelBooking_cases benv w bid userID with ⟨b, _, _, _, he⟩ | ⟨_, he⟩
    · rw [he] at hc
      rcases mem_vehicleStatusCalls_transitionTail _ _ _ _ _ _ _ _ hc with h | h
      · exact Or.inl h
      · exact Or.inr (by rw [h])
    · rw [he, vehicleStatusCalls_logCall_get] at hc
      exact Or.inl hc

/-- Claim C29, at samples: for the vehicle `V1` the use case refuses `in_use`
without a call on the repository and carries out `available`; a start of the
booking `b1` sends `in_use` to the vehicle adapter, its completion and its
cancellation send `available`. -/
theorem UpdateVehicleStatus_validation_witness :
    ("V1" : String) ≠ "" ∧
    UpdateVehicleStatus okEnv "V1" "in_use" = (some "invalid vehicle status: in_use", []) ∧
    UpdateVehicleStatus okEnv "V1" "available" =
      (none, [Call.getByID "V1", Call.updateStatus "V1" "available"]) ∧
    vehicleStatusCalls
      (StartBooking (BookingService.okEnv 100 "") (demoWorld StatusConfirmed) "b1" "U1").2.calls =
        [("V1", "in_use")] ∧
    vehicleStatusCalls
      (CompleteBooking (BookingService.okEnv 100 "") (demoWorld StatusActive) "b1" "U1"
        demoCompletion).2.calls = [("V1", "available")] ∧
    vehicleStatusCalls
      (CancelBooking (BookingService.okEnv 100 "") (demoWorld StatusPending) "b1" "U1").2.calls =
        [("V1", "available")] :=
  ⟨by decide, (UpdateVehicleStatus_validation okEnv "V1" "in_use" (by decide)).2.2.1,
    by decide, by decide, by decide, by decide⟩

theorem selectWhere_listConditions (db : Db) (filter : VehicleFilter) :
    selectWhere db (listConditions filter) = matching db filter := by
  unfold selectWhere matching listConditions
  congr 1
  funext v
  cases filter.Status <;> cases filter.Make <;> cases filter.Model <;> cases filter.Year <;>
    cases filter.MinYear <;> cases filter.MaxYear <;>
    simp [Condition.holds, Bool.and_assoc]

theorem countConditions_eq (filter : VehicleFilter) :
    countConditions filter = listConditions { filter with MinYear := none, MaxYear := none } := by
  unfold countConditions listConditions
  simp

/-- Claim C30, on the code: `List` selects the vehicles matching the filter,
but `Count` builds only the conditions on status, make, model and year. For
every filter its conditions are those `List` builds for the filter without
`MinYear` and `MaxYear`, so its total is the number of vehicles matching that
wider filter. With `min_year = 2020` on a table holding a vehicle of 2010 and
one of 2021, `List` builds the condition `year >= 2020`, `Count` builds none,
and `ListVehicles` returns the one matching vehicle with the total 2. -/
theorem Count_ignores_year_range :
    (∀ (db : Db) (filter : VehicleFilter),
      selectWhere db (listConditions filter) = matching db filter) ∧
    (∀ filter : VehicleFilter,
      countConditions filter =
        listConditions { filter with MinYear := none, MaxYear := none }) ∧
    (∀ (db : Db) (filter : VehicleFilter),
      Count { db with err := none } filter =
        .ok ((matching db { filter with MinYear := none, MaxYear := none }).length : Int)) ∧
    listConditions recentFilter = [Condition.min_year 2020] ∧
    countConditions recentFilter = [] ∧
    matching demoDb recentFilter = [newVehicle] ∧
    ListVehicles (postgresVehicleRepository demoDb) recentFilter =
      (.ok { Vehicles := [newVehicle], Total := 2, Limit := 10, Offset := 0 }, recentFilter) := by
  refine ⟨selectWhere_listConditions, countConditions_eq, ?_, by decide, by decide, by decide,
    ?_⟩
  · intro db filter
    have h := selectWhere_listConditions { db with err := none }
      { filter with MinYear := none, MaxYear := none }
    unfold Count
    simp only [countConditions_eq, h]
    rfl
  · rfl

end VehicleService

end BookingService
